import Mathlib

/-!
# SweetMange: the data-access layer and the order workflow

A shallow embedding of `src/app/utils/database.js` and of the handlers of the screens that
write orders, products, customers, accounts and login flags, through it or through a connection
of their own.

* JavaScript numbers (`REAL` columns, quantities, prices, random draws) are IEEE 754 doubles:
  values of type `JsNumber`, every operation rounding its exact result to the nearest double.
* The SQLite store that `expo-sqlite` drives is a value of type `Tables`; a statement is carried
  with its SQL text and its meaning as a function on `Tables`.
* The module variables `db` and `isInitialized`, the store file, the outcomes the device injects
  into the native calls and a trace of the native calls form the state `Sys`; every function
  of the module is a function `Sys → Except JsError α × Sys`, the state surviving a thrown error.
-/

namespace SweetMange

/-! ## JavaScript numbers -/

/-- A JavaScript number, an IEEE 754 double: a finite value, given by the rational it denotes,
`Infinity` or `-Infinity`, or `NaN`.  The two zeros are not told apart.  The finite values a
device can hold are those `JsNumber.isDouble` accepts; the operations below return no others. -/
inductive JsNumber where
  | finite (value : ℚ)
  | infinity (negative : Bool)
  | nan
deriving DecidableEq

/-- The power `2 ^ e` of two, for an integer exponent. -/
def pow2 (e : Int) : ℚ :=
  if 0 ≤ e then ((2 ^ e.toNat : Nat) : ℚ) else 1 / ((2 ^ (-e).toNat : Nat) : ℚ)

/-- The magnitude of a rational. -/
def magnitude (x : ℚ) : ℚ := if x < 0 then -x else x

/-- The number of binary digits of `n`, found in at most `fuel` halvings (`n` of them are
enough). -/
def binaryDigits : (fuel n : Nat) → Nat
  | 0, _ => 0
  | fuel + 1, n => if n = 0 then 0 else binaryDigits fuel (n / 2) + 1

/-- The binary exponent of a rational `x ≠ 0`: the `e` with `2 ^ e ≤ |x| < 2 ^ (e + 1)`, which
is the difference of the numbers of binary digits of numerator and denominator, or one less. -/
def binaryExponent (x : ℚ) : Int :=
  let e := (binaryDigits x.num.natAbs x.num.natAbs : Int) - (binaryDigits x.den x.den : Int)
  if pow2 e ≤ magnitude x then e else e - 1

/-- Rounding to the nearest integer, a tie going to the even one. -/
def roundHalfEven (t : ℚ) : Int :=
  if t - ⌊t⌋ < 1 / 2 then ⌊t⌋
  else if 1 / 2 < t - ⌊t⌋ then ⌊t⌋ + 1
  else if ⌊t⌋ % 2 = 0 then ⌊t⌋ else ⌊t⌋ + 1

/-- The exponent of the spacing of the doubles around `x ≠ 0`: 52 below the binary exponent of
`x`, which counts as -1022 when it is lower (the subnormal numbers). -/
def quantumExponent (x : ℚ) : Int := max (binaryExponent x) (-1022) - 52

/-- The magnitude of `x ≠ 0` rounded to a multiple of the spacing of the doubles around it, a
tie going to the even multiple. -/
def nearest (x : ℚ) : ℚ :=
  (roundHalfEven (magnitude x / pow2 (quantumExponent x)) : ℚ) * pow2 (quantumExponent x)

/-- The rounding of IEEE 754 in its default mode: the double nearest to a rational, a tie
going to the even significand and a magnitude of `2 ^ 1024` or more to an infinity. -/
def JsNumber.ofRat (x : ℚ) : JsNumber :=
  if x = 0 then .finite 0
  else if pow2 1024 ≤ nearest x then .infinity (decide (x < 0))
  else .finite (if x < 0 then -nearest x else nearest x)

namespace JsNumber

/-- The global function `isNaN`, on a number. -/
def isNaN : JsNumber → Bool
  | .nan => true
  | _ => false

/-- Whether a number is one a double holds: a finite value has to be its own rounding. -/
def isDouble : JsNumber → Bool
  | .finite x => decide (ofRat x = .finite x)
  | _ => true

/-- The operator `+`. -/
def add : JsNumber → JsNumber → JsNumber
  | .finite x, .finite y => ofRat (x + y)
  | .finite _, .infinity n => .infinity n
  | .infinity n, .finite _ => .infinity n
  | .infinity n, .infinity m => if n = m then .infinity n else .nan
  | _, _ => .nan

/-- The operator `*`. -/
def mul : JsNumber → JsNumber → JsNumber
  | .finite x, .finite y => ofRat (x * y)
  | .finite x, .infinity n => if x = 0 then .nan else .infinity (n != decide (x < 0))
  | .infinity n, .finite y => if y = 0 then .nan else .infinity (n != decide (y < 0))
  | .infinity n, .infinity m => .infinity (n != m)
  | _, _ => .nan

/-- The unary operator `-`. -/
def neg : JsNumber → JsNumber
  | .finite x => .finite (-x)
  | .infinity n => .infinity (!n)
  | .nan => .nan

/-- The comparison `<=`, false as soon as one side is `NaN`. -/
def le : JsNumber → JsNumber → Bool
  | .finite x, .finite y => decide (x ≤ y)
  | .finite _, .infinity n => !n
  | .infinity n, .finite _ => n
  | .infinity n, .infinity m => n || !m
  | _, _ => false

/-- The comparison `<`, false as soon as one side is `NaN`. -/
def lt : JsNumber → JsNumber → Bool
  | .finite x, .finite y => decide (x < y)
  | .finite _, .infinity n => !n
  | .infinity n, .finite _ => n
  | .infinity n, .infinity m => n && !m
  | _, _ => false

/-- The function `Math.floor`. -/
def floor : JsNumber → JsNumber
  | .finite x => .finite ⌊x⌋
  | x => x

/-- The text `x.toString()` of a number without a fraction part, as `Math.floor` returns it:
the decimal digits of a finite value (from `10 ^ 21` on JavaScript writes an exponent; here
such a value keeps all its digits), else `Infinity`, `-Infinity` or `NaN`. -/
def integerText : JsNumber → String
  | .finite x => toString ⌊x⌋
  | .infinity false => "Infinity"
  | .infinity true => "-Infinity"
  | .nan => "NaN"

/-- The position `x` names in an array, `xs[x]` being `undefined` for `none`: a finite value
that is a natural number. -/
def index : JsNumber → Option Nat
  | .finite x => if x.den = 1 ∧ 0 ≤ x.num then some x.num.toNat else none
  | _ => none

/-- The exact value of a finite number. -/
def value : JsNumber → Option ℚ
  | .finite x => some x
  | _ => none

instance : Add JsNumber := ⟨add⟩

instance : Mul JsNumber := ⟨mul⟩

instance : Neg JsNumber := ⟨neg⟩

instance : LE JsNumber := ⟨fun x y => le x y = true⟩

instance : LT JsNumber := ⟨fun x y => lt x y = true⟩

instance (x y : JsNumber) : Decidable (x ≤ y) := inferInstanceAs (Decidable (le x y = true))

instance (x y : JsNumber) : Decidable (x < y) := inferInstanceAs (Decidable (lt x y = true))

/-- A numeral of the source denotes the double nearest to it. -/
instance (n : Nat) : OfNat JsNumber n := ⟨ofRat n⟩

/-- A decimal literal of the source denotes the double nearest to it. -/
instance : OfScientific JsNumber := ⟨fun m s e => ofRat (Rat.ofScientific m s e)⟩

end JsNumber

/-! ## Rows and tables (the schema of `initializeTables`) -/

/-- Row of `tblusers`. -/
structure UserRow where
  user_id : Nat
  full_name : String
  email : String
  username : String
  password : String
  is_logged_in : Nat
deriving DecidableEq

/-- Row of `tblproducts`. -/
structure ProductRow where
  product_number : String
  name : String
  price : JsNumber
deriving DecidableEq

/-- Row of `tblcustomers`. -/
structure CustomerRow where
  customer_id : String
  name : String
  phone : String
deriving DecidableEq

/-- Row of `tblorders`. -/
structure OrderRow where
  order_number : Nat
  date : String
  customer_id : String
  total_price : JsNumber
deriving DecidableEq

/-- Row of `tblorder_products`. -/
structure OrderProductRow where
  order_number : Nat
  product_number : String
  qty : JsNumber
  subtotal : JsNumber
deriving DecidableEq

/-- Contents of the store file `myDatabase.db`.  A table that has not been created is `none`.
`seq_users` and `seq_orders` are the `sqlite_sequence` entries of the two `AUTOINCREMENT` keys. -/
structure Tables where
  tblusers : Option (List UserRow)
  tblproducts : Option (List ProductRow)
  tblcustomers : Option (List CustomerRow)
  tblorders : Option (List OrderRow)
  tblorder_products : Option (List OrderProductRow)
  seq_users : Nat
  seq_orders : Nat
deriving DecidableEq

/-- The rows of a table, none for a table that does not exist. -/
def rows {α : Type} (t : Option (List α)) : List α := t.getD []

/-- A thrown JavaScript error, identified by its message. -/
structure JsError where
  message : String
deriving DecidableEq

/-! ## Statements -/

/-- A write statement handed to `runAsync`: its SQL text and its meaning on the store, given
whether the connection enforces foreign keys.  A statement that fails changes nothing.  The
number returned is `lastInsertRowId`; it is modelled for the insert into `tblorders`, the one
place where the screens read it, and is `0` elsewhere. -/
structure Statement where
  sql : String
  run : Bool → Tables → Except JsError (Tables × Nat)

/-- A read statement handed to `getAllAsync`: its SQL text and the rows it returns. -/
structure Query (α : Type) where
  sql : String
  eval : Tables → Except JsError α

/-- Largest `order_number` present in `tblorders`. -/
def maxOrderNumber (os : List OrderRow) : Nat :=
  os.foldl (fun m o => max m o.order_number) 0

/-- Statement `INSERT INTO tblorders (date, customer_id, total_price) VALUES (?, ?, ?);`
The key is `AUTOINCREMENT`: one more than the largest key ever used.  SQLite binds `NaN` as
NULL, which the column `total_price REAL NOT NULL` refuses.  With foreign keys enforced the
customer must exist in `tblcustomers`. -/
def Statement.insertOrder (date customer_id : String) (total_price : JsNumber) : Statement where
  sql := "INSERT INTO tblorders (date, customer_id, total_price) VALUES (?, ?, ?);"
  run fk t :=
    match t.tblorders with
    | none => .error ⟨"no such table: tblorders"⟩
    | some os =>
      if total_price.isNaN then .error ⟨"NOT NULL constraint failed: tblorders.total_price"⟩
      else if fk && !((rows t.tblcustomers).any (fun c => c.customer_id == customer_id)) then
        .error ⟨"FOREIGN KEY constraint failed"⟩
      else
        let n := max t.seq_orders (maxOrderNumber os) + 1
        let os' := os ++ [⟨n, date, customer_id, total_price⟩]
        .ok ({ t with tblorders := some os', seq_orders := n }, n)

/-- Statement `INSERT INTO tblorder_products (order_number, product_number, qty, subtotal)
VALUES (?, ?, ?, ?);`  SQLite binds `NaN` as NULL, which the columns `qty INTEGER NOT NULL` and
`subtotal REAL NOT NULL` refuse; any other number is stored with its value.  With foreign keys
enforced the order and the product must exist. -/
def Statement.insertOrderProduct (order_number : Nat) (product_number : String)
    (qty subtotal : JsNumber) : Statement where
  sql := "INSERT INTO tblorder_products (order_number, product_number, qty, subtotal) VALUES (?, ?, ?, ?);"
  run fk t :=
    match t.tblorder_products with
    | none => .error ⟨"no such table: tblorder_products"⟩
    | some ls =>
      if qty.isNaN then .error ⟨"NOT NULL constraint failed: tblorder_products.qty"⟩
      else if subtotal.isNaN then
        .error ⟨"NOT NULL constraint failed: tblorder_products.subtotal"⟩
      else if fk && !((rows t.tblorders).any (fun o => o.order_number == order_number)
                  && (rows t.tblproducts).any (fun p => p.product_number == product_number)) then
        .error ⟨"FOREIGN KEY constraint failed"⟩
      else
        let ls' := ls ++ [⟨order_number, product_number, qty, subtotal⟩]
        .ok ({ t with tblorder_products := some ls' }, 0)

/-- Statement `DELETE FROM tblorder_products WHERE order_number = ?;` -/
def Statement.deleteOrderProducts (order_number : Nat) : Statement where
  sql := "DELETE FROM tblorder_products WHERE order_number = ?;"
  run _ t :=
    match t.tblorder_products with
    | none => .error ⟨"no such table: tblorder_products"⟩
    | some ls =>
      let ls' := ls.filter (fun l => l.order_number != order_number)
      .ok ({ t with tblorder_products := some ls' }, 0)

/-- Statement `DELETE FROM tblorders WHERE order_number = ?;`  With foreign keys enforced the delete of
an existing order fails while a row of `tblorder_products` refers to it. -/
def Statement.deleteOrder (order_number : Nat) : Statement where
  sql := "DELETE FROM tblorders WHERE order_number = ?;"
  run fk t :=
    match t.tblorders with
    | none => .error ⟨"no such table: tblorders"⟩
    | some os =>
      if fk && (os.any (fun o => o.order_number == order_number)
                && (rows t.tblorder_products).any (fun l => l.order_number == order_number)) then
        .error ⟨"FOREIGN KEY constraint failed"⟩
      else
        let os' := os.filter (fun o => o.order_number != order_number)
        .ok ({ t with tblorders := some os' }, 0)

/-- Statement `DELETE FROM tblproducts WHERE product_number = ?;`  With foreign keys enforced the delete
of an existing product fails while a row of `tblorder_products` refers to it. -/
def Statement.deleteProduct (product_number : String) : Statement where
  sql := "DELETE FROM tblproducts WHERE product_number = ?;"
  run fk t :=
    match t.tblproducts with
    | none => .error ⟨"no such table: tblproducts"⟩
    | some ps =>
      if fk && (ps.any (fun p => p.product_number == product_number)
                && (rows t.tblorder_products).any
                    (fun l => l.product_number == product_number)) then
        .error ⟨"FOREIGN KEY constraint failed"⟩
      else
        let ps' := ps.filter (fun p => p.product_number != product_number)
        .ok ({ t with tblproducts := some ps' }, 0)

/-- Statement `UPDATE tblusers SET is_logged_in = 0;` -/
def Statement.resetLogin : Statement where
  sql := "UPDATE tblusers SET is_logged_in = 0;"
  run _ t :=
    match t.tblusers with
    | none => .error ⟨"no such table: tblusers"⟩
    | some us =>
      let us' := us.map (fun u => { u with is_logged_in := 0 })
      .ok ({ t with tblusers := some us' }, 0)

/-- Statement `UPDATE tblusers SET is_logged_in = 1 WHERE username = ?;` -/
def Statement.setLogin (username : String) : Statement where
  sql := "UPDATE tblusers SET is_logged_in = 1 WHERE username = ?;"
  run _ t :=
    match t.tblusers with
    | none => .error ⟨"no such table: tblusers"⟩
    | some us =>
      let us' := us.map (fun u =>
        if u.username = username then { u with is_logged_in := 1 } else u)
      .ok ({ t with tblusers := some us' }, 0)

/-- Two statement texts joined into the one source string given to `runAsync`
(`'UPDATE …;' + 'UPDATE … WHERE username = ?;'` in `authenticateUser`).  `runAsync` prepares its
source as a single statement: SQLite compiles the text up to the first `;` and leaves the rest
of the string unused, so what runs is the first statement. -/
def Statement.joined (first second : Statement) : Statement where
  sql := first.sql ++ second.sql
  run := first.run

/-- Query `SELECT 1` -/
def Query.select1 : Query (List Nat) where
  sql := "SELECT 1"
  eval _ := .ok [1]

/-- Query `SELECT * FROM tblcustomers ORDER BY name ASC;` -/
def Query.customersByName : Query (List CustomerRow) where
  sql := "SELECT * FROM tblcustomers ORDER BY name ASC;"
  eval t :=
    match t.tblcustomers with
    | none => .error ⟨"no such table: tblcustomers"⟩
    | some cs => .ok (cs.insertionSort (fun a b => a.name ≤ b.name))

/-- Query `SELECT * FROM tblproducts ORDER BY name ASC;` -/
def Query.productsByName : Query (List ProductRow) where
  sql := "SELECT * FROM tblproducts ORDER BY name ASC;"
  eval t :=
    match t.tblproducts with
    | none => .error ⟨"no such table: tblproducts"⟩
    | some ps => .ok (ps.insertionSort (fun a b => a.name ≤ b.name))

/-- Query `SELECT * FROM tblproducts ORDER BY product_number DESC;` -/
def Query.productsDesc : Query (List ProductRow) where
  sql := "SELECT * FROM tblproducts ORDER BY product_number DESC;"
  eval t :=
    match t.tblproducts with
    | none => .error ⟨"no such table: tblproducts"⟩
    | some ps => .ok (ps.insertionSort (fun a b => b.product_number ≤ a.product_number))

/-- Query `SELECT * FROM tblorders ORDER BY order_number DESC;` -/
def Query.ordersDesc : Query (List OrderRow) where
  sql := "SELECT * FROM tblorders ORDER BY order_number DESC;"
  eval t :=
    match t.tblorders with
    | none => .error ⟨"no such table: tblorders"⟩
    | some os => .ok (os.insertionSort (fun a b => b.order_number ≤ a.order_number))

/-- Query `SELECT order_number FROM tblorders ORDER BY order_number DESC;` -/
def Query.orderNumbersDesc : Query (List Nat) where
  sql := "SELECT order_number FROM tblorders ORDER BY order_number DESC;"
  eval t :=
    match t.tblorders with
    | none => .error ⟨"no such table: tblorders"⟩
    | some os =>
      .ok ((os.insertionSort (fun a b => b.order_number ≤ a.order_number)).map
            (fun o => o.order_number))

/-- Row of the join of `tblorder_products` with `tblproducts`. -/
structure OrderProductDetail where
  order_number : Nat
  product_number : String
  qty : JsNumber
  subtotal : JsNumber
  name : String
  price : JsNumber
deriving DecidableEq

/-- Query `SELECT op.*, p.name, p.price FROM tblorder_products op JOIN tblproducts p
ON op.product_number = p.product_number WHERE op.order_number = ?;` -/
def Query.orderProducts (orderNum : Nat) : Query (List OrderProductDetail) where
  sql := "SELECT op.*, p.name, p.price FROM tblorder_products op JOIN tblproducts p ON op.product_number = p.product_number WHERE op.order_number = ?;"
  eval t :=
    match t.tblorder_products, t.tblproducts with
    | some ls, some ps =>
      .ok ((ls.filter (fun l => l.order_number == orderNum)).flatMap (fun l =>
            (ps.filter (fun p => p.product_number == l.product_number)).map (fun p =>
              ⟨l.order_number, l.product_number, l.qty, l.subtotal, p.name, p.price⟩)))
    | _, _ => .error ⟨"no such table"⟩

/-- Row of the join of `tblorders` with `tblcustomers`. -/
structure OrderSummary where
  order_number : Nat
  date : String
  customer_id : String
  total_price : JsNumber
  customer_name : String
deriving DecidableEq

/-- Query `SELECT o.*, c.name as customer_name FROM tblorders o JOIN tblcustomers c
ON o.customer_id = c.customer_id ORDER BY o.order_number DESC;` -/
def Query.orderSummaries : Query (List OrderSummary) where
  sql := "SELECT o.*, c.name as customer_name FROM tblorders o JOIN tblcustomers c ON o.customer_id = c.customer_id ORDER BY o.order_number DESC;"
  eval t :=
    match t.tblorders, t.tblcustomers with
    | some os, some cs =>
      .ok ((os.insertionSort (fun a b => b.order_number ≤ a.order_number)).flatMap (fun o =>
            (cs.filter (fun c => c.customer_id == o.customer_id)).map (fun c =>
              ⟨o.order_number, o.date, o.customer_id, o.total_price, c.name⟩)))
    | _, _ => .error ⟨"no such table"⟩

/-- Query `SELECT * FROM tblusers WHERE username = ? AND password = ?` -/
def Query.userByCredentials (username password : String) : Query (List UserRow) where
  sql := "SELECT * FROM tblusers WHERE username = ? AND password = ?"
  eval t :=
    match t.tblusers with
    | none => .error ⟨"no such table: tblusers"⟩
    | some us => .ok (us.filter (fun u => u.username == username && u.password == password))

/-! ## The native connection (`expo-sqlite`) -/

/-- State of an open connection: whether `PRAGMA foreign_keys = ON` has been run on it, and,
while a transaction is open, the contents to restore on `ROLLBACK`. -/
structure Conn where
  foreign_keys : Bool
  txn : Option Tables
deriving DecidableEq

/-- The sources given to `execAsync` in `database.js`. -/
inductive Exec where
  | pragmas
  | createUsers
  | createProducts
  | createCustomers
  | createOrders
  | createOrderProducts
  | begin
  | commit
  | rollback
deriving DecidableEq

/-- A native call, as recorded in the trace. -/
inductive Call where
  | openDatabase
  | exec (e : Exec)
  | run (sql : String)
  | getAll (sql : String)
  | close
deriving DecidableEq

/-- One entry of the trace: the call and whether it succeeded. -/
structure Event where
  call : Call
  ok : Bool
deriving DecidableEq

/-- The module state of `database.js` together with its environment.
* `db`, `isInitialized`: the two module variables (`db = null` is `none`);
* `file`: the contents of `myDatabase.db`;
* `faults`: the outcomes the device injects into the coming native calls, one entry per call:
  `some msg` makes the call fail with that message, `none` lets it run;
* `log`: the native calls made so far, newest first (a ghost trace, read by no function). -/
structure Sys where
  db : Option Conn
  isInitialized : Bool
  file : Tables
  faults : List (Option String)
  log : List Event
deriving DecidableEq

/-- Result of a call: a value or a thrown error, and the state afterwards. -/
abbrev Res (α : Type) := Except JsError α × Sys

/-- The outcome injected into the next native call. -/
def Sys.fault (s : Sys) : Option String := s.faults.head?.join

/-- Consume one injected outcome and record the call in the trace. -/
def Sys.step (s : Sys) (c : Call) (ok : Bool) : Sys :=
  { s with faults := s.faults.tail, log := ⟨c, ok⟩ :: s.log }

/-- Meaning of an `execAsync` source on a connection and the store, the device permitting.
`CREATE TABLE IF NOT EXISTS` keeps an existing table; `BEGIN` fails inside a transaction;
`COMMIT` and `ROLLBACK` fail when no transaction is open. -/
def Exec.apply (e : Exec) (c : Conn) (t : Tables) : Except JsError (Conn × Tables) :=
  match e with
  | .pragmas => .ok ({ c with foreign_keys := true }, t)
  | .createUsers => .ok (c, { t with tblusers := some (rows t.tblusers) })
  | .createProducts => .ok (c, { t with tblproducts := some (rows t.tblproducts) })
  | .createCustomers => .ok (c, { t with tblcustomers := some (rows t.tblcustomers) })
  | .createOrders => .ok (c, { t with tblorders := some (rows t.tblorders) })
  | .createOrderProducts =>
    .ok (c, { t with tblorder_products := some (rows t.tblorder_products) })
  | .begin =>
    match c.txn with
    | some _ => .error ⟨"cannot start a transaction within a transaction"⟩
    | none => .ok ({ c with txn := some t }, t)
  | .commit =>
    match c.txn with
    | none => .error ⟨"cannot commit - no transaction is active"⟩
    | some _ => .ok ({ c with txn := none }, t)
  | .rollback =>
    match c.txn with
    | none => .error ⟨"cannot rollback - no transaction is active"⟩
    | some saved => .ok ({ c with txn := none }, saved)

/-- Native `SQLite.openDatabaseAsync('myDatabase.db')`: a fresh connection, foreign keys not
enforced, no transaction open. -/
def openDatabaseAsync (s : Sys) : Except JsError Conn × Sys :=
  match s.fault with
  | some msg => (.error ⟨msg⟩, s.step .openDatabase false)
  | none => (.ok ⟨false, none⟩, s.step .openDatabase true)

/-- Native `db.execAsync(source)` on the module's connection.  A call the device makes fail
has not run: it leaves the connection and the store as they are, whatever the source. -/
def execAsync (e : Exec) (s : Sys) : Res Unit :=
  match s.db with
  | none => (.error ⟨"Cannot read properties of null"⟩, s)
  | some c =>
    match s.fault with
    | some msg => (.error ⟨msg⟩, s.step (.exec e) false)
    | none =>
      match e.apply c s.file with
      | .error err => (.error err, s.step (.exec e) false)
      | .ok (c1, t1) => (.ok (), { s.step (.exec e) true with db := some c1, file := t1 })

/-- Native `db.runAsync(query, params)` on the module's connection. -/
def runAsync (q : Statement) (s : Sys) : Res Nat :=
  match s.db with
  | none => (.error ⟨"Cannot read properties of null"⟩, s)
  | some c =>
    match s.fault with
    | some msg => (.error ⟨msg⟩, s.step (.run q.sql) false)
    | none =>
      match q.run c.foreign_keys s.file with
      | .error err => (.error err, s.step (.run q.sql) false)
      | .ok (t1, rowid) => (.ok rowid, { s.step (.run q.sql) true with file := t1 })

/-- Native `db.getAllAsync(query, params)` on the module's connection. -/
def getAllAsync {α : Type} (q : Query α) (s : Sys) : Res α :=
  match s.db with
  | none => (.error ⟨"Cannot read properties of null"⟩, s)
  | some _ =>
    match s.fault with
    | some msg => (.error ⟨msg⟩, s.step (.getAll q.sql) false)
    | none =>
      match q.eval s.file with
      | .error err => (.error err, s.step (.getAll q.sql) false)
      | .ok r => (.ok r, s.step (.getAll q.sql) true)

/-! ## `database.js` -/

/-- Function `getDatabase`: open the connection when `db` is null, run the two pragmas, set
`isInitialized`; on an error reset both module variables and rethrow. -/
def getDatabase (s : Sys) : Res Unit :=
  if s.db.isNone then
    match openDatabaseAsync s with
    | (.error err, s1) => (.error err, { s1 with db := none, isInitialized := false })
    | (.ok c, s1) =>
      match execAsync .pragmas { s1 with db := some c } with
      | (.error err, s2) => (.error err, { s2 with db := none, isInitialized := false })
      | (.ok _, s2) => (.ok (), { s2 with isInitialized := true })
  else (.ok (), s)

/-- The five `CREATE TABLE IF NOT EXISTS` sources, in the order `initializeTables` runs them. -/
def createTables : List Exec :=
  [.createUsers, .createProducts, .createCustomers, .createOrders, .createOrderProducts]

/-- Run `execAsync` sources in order, stopping at the first that throws. -/
def execEach : List Exec → Sys → Res Unit
  | [], s => (.ok (), s)
  | e :: es, s =>
    match execAsync e s with
    | (.error err, s1) => (.error err, s1)
    | (.ok _, s1) => execEach es s1

/-- Function `initializeTables`: when `isInitialized` is false, get the connection and create
the five tables; on an error set `isInitialized` to false and rethrow. -/
def initializeTables (s : Sys) : Res Unit :=
  if !s.isInitialized then
    match getDatabase s with
    | (.error err, s1) => (.error err, { s1 with isInitialized := false })
    | (.ok _, s1) =>
      if s1.db.isNone then
        (.error ⟨"Failed to initialize database"⟩, { s1 with isInitialized := false })
      else
        match execEach createTables s1 with
        | (.error err, s2) => (.error err, { s2 with isInitialized := false })
        | (.ok _, s2) => (.ok (), s2)
  else (.ok (), s)

/-- The common opening of `executeQuery`, `executeUpdate` and `executeTransaction`:
`if (!isInitialized) await initializeTables(); db = await getDatabase();
if (!db) throw new Error('Database not initialized')`. -/
def connect (s : Sys) : Res Unit :=
  match (if !s.isInitialized then initializeTables s else (.ok (), s)) with
  | (.error err, s1) => (.error err, s1)
  | (.ok _, s1) =>
    match getDatabase s1 with
    | (.error err, s2) => (.error err, s2)
    | (.ok _, s2) =>
      if s2.db.isNone then (.error ⟨"Database not initialized"⟩, s2) else (.ok (), s2)

/-- Function `executeQuery(query, params)`. -/
def executeQuery {α : Type} (q : Query α) (s : Sys) : Res α :=
  match connect s with
  | (.error err, s1) => (.error err, s1)
  | (.ok _, s1) => getAllAsync q s1

/-- Function `executeUpdate(query, params)`; the value is `lastInsertRowId`. -/
def executeUpdate (q : Statement) (s : Sys) : Res Nat :=
  match connect s with
  | (.error err, s1) => (.error err, s1)
  | (.ok _, s1) => runAsync q s1

/-- The loop `for (const { query, params } of queries) await db.runAsync(query, params)`. -/
def runEach : List Statement → Sys → Res Unit
  | [], s => (.ok (), s)
  | q :: qs, s =>
    match runAsync q s with
    | (.error err, s1) => (.error err, s1)
    | (.ok _, s1) => runEach qs s1

/-- Function `executeTransaction(queries)`: `BEGIN TRANSACTION`, every statement in order,
`COMMIT`; when a statement or the commit throws, `ROLLBACK` and rethrow (an error thrown by
`ROLLBACK` itself takes the place of the first one). -/
def executeTransaction (queries : List Statement) (s : Sys) : Res Unit :=
  match connect s with
  | (.error err, s1) => (.error err, s1)
  | (.ok _, s1) =>
    match execAsync .begin s1 with
    | (.error err, s2) => (.error err, s2)
    | (.ok _, s2) =>
      let body : Res Unit :=
        match runEach queries s2 with
        | (.error err, s3) => (.error err, s3)
        | (.ok _, s3) => execAsync .commit s3
      match body with
      | (.ok _, s4) => (.ok (), s4)
      | (.error err, s4) =>
        if s4.db.isSome then
          match execAsync .rollback s4 with
          | (.error err1, s5) => (.error err1, s5)
          | (.ok _, s5) => (.error err, s5)
        else (.error err, s4)

/-! ## Shared pieces of the screens -/

/-- An alert dialog shown to the user: title and message. -/
abbrev Alert := String × String

/-- White space and line terminators of ECMAScript, the characters `String.prototype.trim`
removes. -/
def isJsWhiteSpace (c : Char) : Bool :=
  c.toNat ∈ [0x9, 0xA, 0xB, 0xC, 0xD, 0x20, 0xA0, 0x1680, 0x2028, 0x2029, 0x202F, 0x205F,
    0x3000, 0xFEFF] || (0x2000 ≤ c.toNat && c.toNat ≤ 0x200A)

/-- JavaScript `s.trim()`. -/
def jsTrim (s : String) : String :=
  String.mk ((s.toList.dropWhile isJsWhiteSpace).reverse.dropWhile isJsWhiteSpace).reverse

/-! ## `OrdersScreen.js` -/

namespace OrdersScreen

/-- An element of `tempOrderProducts`, as built by `handleAddProduct`. -/
structure DraftLine where
  product_number : String
  name : String
  price : JsNumber
  qty : JsNumber
  subtotal : JsNumber
deriving DecidableEq

/-- The component state (`useState` hooks and `mountedRef.current`). -/
structure State where
  orderDate : String
  customerId : String
  productId : String
  productQty : String
  orders : List OrderRow
  customers : List CustomerRow
  orderNumbers : List Nat
  products : List ProductRow
  orderProducts : List OrderProductDetail
  showDatePicker : Bool
  currentOrderId : Option Nat
  tempOrderProducts : List DraftLine
  isLoading : Bool
  mounted : Bool
deriving DecidableEq

/-- Function `resetState`. -/
def resetState (st : State) : State :=
  { st with
    orderDate := "", customerId := "", productId := "", productQty := "",
    orders := [], customers := [], orderNumbers := [], products := [], orderProducts := [],
    showDatePicker := false, currentOrderId := none, tempOrderProducts := [],
    isLoading := true }

/-- The test `/^\d{4}-\d{2}-\d{2}$/.test(orderDate)`. -/
def dateRegexTest (orderDate : String) : Bool :=
  match orderDate.toList with
  | [y1, y2, y3, y4, '-', m1, m2, '-', d1, d2] =>
    y1.isDigit && y2.isDigit && y3.isDigit && y4.isDigit && m1.isDigit && m2.isDigit
      && d1.isDigit && d2.isDigit
  | _ => false

/-- Function `validateInputs`: the verdict and the alert shown on a rejection. -/
def validateInputs (st : State) : Bool × List Alert :=
  if jsTrim st.orderDate = "" || jsTrim st.customerId = "" then
    (false, [("Error", "Date and Customer are required.")])
  else if !dateRegexTest st.orderDate then
    (false, [("Error", "Date must be in YYYY-MM-DD format.")])
  else if !st.customers.any (fun c => c.customer_id == st.customerId) then
    (false, [("Error", "Selected customer is not valid.")])
  else if !st.tempOrderProducts.all (fun item =>
      st.products.any (fun p => p.product_number == item.product_number)) then
    (false, [("Error", "One or more products are not valid.")])
  else (true, [])

/-- Function `loadInitialData`.  The four lists are set one after the other, so the lists
read before a failing query stay set; `mountedRef.current` does not change during the call. -/
def loadInitialData (st : State) (s : Sys) : State × Sys × List Alert :=
  if !st.mounted then (st, s, [])
  else
    match executeQuery Query.customersByName s with
    | (.error _, s1) =>
      ({ st with isLoading := false }, s1, [("Error", "Failed to load initial data.")])
    | (.ok customersData, s1) =>
      let st1 := { st with customers := customersData }
      match executeQuery Query.productsByName s1 with
      | (.error _, s2) =>
        ({ st1 with isLoading := false }, s2, [("Error", "Failed to load initial data.")])
      | (.ok productsData, s2) =>
        let st2 := { st1 with products := productsData }
        match executeQuery Query.ordersDesc s2 with
        | (.error _, s3) =>
          ({ st2 with isLoading := false }, s3, [("Error", "Failed to load initial data.")])
        | (.ok ordersData, s3) =>
          let st3 := { st2 with orders := ordersData }
          match executeQuery Query.orderNumbersDesc s3 with
          | (.error _, s4) =>
            ({ st3 with isLoading := false }, s4, [("Error", "Failed to load initial data.")])
          | (.ok orderNumbersData, s4) =>
            ({ st3 with orderNumbers := orderNumbersData, isLoading := false }, s4, [])

/-- The value `tempOrderProducts.reduce((sum, item) => sum + item.subtotal, 0)`. -/
def totalPrice (items : List DraftLine) : JsNumber :=
  items.foldl (fun sum item => sum + item.subtotal) 0

/-- The statements `tempOrderProducts.map(item => (insert into tblorder_products …))`. -/
def lineInserts (orderNumber : Nat) (items : List DraftLine) : List Statement :=
  items.map (fun item =>
    Statement.insertOrderProduct orderNumber item.product_number item.qty item.subtotal)

/-- The writes inside the `try` block of `handleAddOrder`, up to `executeTransaction`:
the connection test, the insert of the header through `executeUpdate`, then the line items
through `executeTransaction`.  The value is the new order number. -/
def commitOrder (st : State) (s : Sys) : Res Nat :=
  match executeQuery Query.select1 s with
  | (.error err, s1) => (.error err, s1)
  | (.ok _, s1) =>
    match executeUpdate
        (Statement.insertOrder st.orderDate st.customerId (totalPrice st.tempOrderProducts)) s1 with
    | (.error err, s2) => (.error err, s2)
    | (.ok orderNumber, s2) =>
      match executeTransaction (lineInserts orderNumber st.tempOrderProducts) s2 with
      | (.error err, s3) => (.error err, s3)
      | (.ok _, s3) => (.ok orderNumber, s3)

/-- Function `handleAddOrder`: the state of the component and of the system afterwards, and
the alerts shown. -/
def handleAddOrder (st : State) (s : Sys) : State × Sys × List Alert :=
  if !(validateInputs st).1 then (st, s, (validateInputs st).2)
  else if st.tempOrderProducts.length = 0 then
    (st, s, [("Error", "Please add at least one product to the order.")])
  else
    match commitOrder st s with
    | (.error _, s1) =>
      ({ st with isLoading := false }, s1, [("Error", "Failed to add order. Please try again.")])
    | (.ok _, s1) =>
      match loadInitialData (resetState { st with isLoading := true }) s1 with
      | (st2, s2, alerts) => ({ st2 with isLoading := false }, s2, alerts)

/-- Function `handleAddProduct`.  `Number` is JavaScript's conversion of the quantity text to a
number. -/
def handleAddProduct (Number : String → JsNumber) (st : State) : State × List Alert :=
  if jsTrim st.orderDate = "" || jsTrim st.customerId = "" || st.productId = ""
      || st.productQty = "" || (Number st.productQty).isNaN
      || decide (Number st.productQty ≤ 0) then
    (st, [("Error", "All fields are required and quantity must be valid.")])
  else
    match st.products.find? (fun p => p.product_number == st.productId) with
    | none => (st, [("Error", "Product not found.")])
    | some prod =>
      let subtotal := prod.price * Number st.productQty
      let newProduct : DraftLine :=
        { product_number := prod.product_number, name := prod.name, price := prod.price,
          qty := Number st.productQty, subtotal := subtotal }
      ({ st with tempOrderProducts := st.tempOrderProducts ++ [newProduct],
                 productId := "", productQty := "" }, [])

end OrdersScreen

/-! ## `SummaryScreen.js` -/

namespace SummaryScreen

/-- The component state. -/
structure State where
  orders : List OrderSummary
  selectedOrder : Option OrderSummary
  orderProducts : List OrderProductDetail
  showDetail : Bool
deriving DecidableEq

/-- Function `loadOrders`; an error of the query is thrown to the caller. -/
def loadOrders (st : State) (s : Sys) : Except JsError State × Sys :=
  match executeQuery Query.orderSummaries s with
  | (.error err, s1) => (.error err, s1)
  | (.ok allRows, s1) => (.ok { st with orders := allRows }, s1)

/-- Function `loadOrderProducts`; an error of the query is thrown to the caller. -/
def loadOrderProducts (orderNum : Nat) (st : State) (s : Sys) : Except JsError State × Sys :=
  match executeQuery (Query.orderProducts orderNum) s with
  | (.error err, s1) => (.error err, s1)
  | (.ok allRows, s1) => (.ok { st with orderProducts := allRows }, s1)

/-- Function `handleDeleteOrder`, with the button pressed in its confirmation dialog
(`confirmed` for Delete): two `executeUpdate` calls, then `loadOrders`; any error shows the
alert. -/
def handleDeleteOrder (order_number : Nat) (confirmed : Bool) (st : State) (s : Sys) :
    State × Sys × List Alert :=
  if !confirmed then (st, s, [])
  else
    match executeUpdate (Statement.deleteOrderProducts order_number) s with
    | (.error _, s1) => (st, s1, [("Error", "Failed to delete order.")])
    | (.ok _, s1) =>
      match executeUpdate (Statement.deleteOrder order_number) s1 with
      | (.error _, s2) => (st, s2, [("Error", "Failed to delete order.")])
      | (.ok _, s2) =>
        match loadOrders st s2 with
        | (.error _, s3) => (st, s3, [("Error", "Failed to delete order.")])
        | (.ok st1, s3) => (st1, s3, [])

end SummaryScreen

/-! ## `ProductsScreen.js` -/

namespace ProductsScreen

/-- The component state. -/
structure State where
  productNumber : String
  name : String
  price : String
  products : List ProductRow
  editingId : Option String
  diceIcon : String
deriving DecidableEq

/-- Function `loadProducts`; an error of the query is thrown to the caller. -/
def loadProducts (st : State) (s : Sys) : Except JsError State × Sys :=
  match executeQuery Query.productsDesc s with
  | (.error err, s1) => (.error err, s1)
  | (.ok allRows, s1) => (.ok { st with products := allRows }, s1)

/-- Function `handleDelete`, with the button pressed in its confirmation dialog. -/
def handleDelete (item : ProductRow) (confirmed : Bool) (st : State) (s : Sys) :
    State × Sys × List Alert :=
  if !confirmed then (st, s, [])
  else
    match executeUpdate (Statement.deleteProduct item.product_number) s with
    | (.error _, s1) => (st, s1, [("Error", "Failed to delete product.")])
    | (.ok _, s1) =>
      match loadProducts st s1 with
      | (.error _, s2) => (st, s2, [("Error", "Failed to delete product.")])
      | (.ok st1, s2) => (st1, s2, [])

end ProductsScreen

/-! ## `LoginScreen.js` -/

namespace LoginScreen

/-- Function `authenticateUser`: the matched row, or `none` for `null`; errors are rethrown.
The login update is one `executeUpdate` call whose source is the two `UPDATE` texts joined. -/
def authenticateUser (username password : String) (s : Sys) : Res (Option UserRow) :=
  match initializeTables s with
  | (.error err, s1) => (.error err, s1)
  | (.ok _, s1) =>
    match executeQuery (Query.userByCredentials username password) s1 with
    | (.error err, s2) => (.error err, s2)
    | (.ok result, s2) =>
      if result.length > 0 then
        match executeUpdate (Statement.joined Statement.resetLogin (Statement.setLogin username)) s2 with
        | (.error err, s3) => (.error err, s3)
        | (.ok _, s3) => (.ok result.head?, s3)
      else (.ok none, s2)

end LoginScreen

/-! ## Vocabulary of the statements and summaries of the calls -/

open OrdersScreen

/-- Relation of a store `t` to a later `t'` that differs at most by missing tables having
been created, empty. -/
def Tables.Grown (t t' : Tables) : Prop :=
  (t'.tblusers = t.tblusers ∨ (t.tblusers = none ∧ t'.tblusers = some [])) ∧
  (t'.tblproducts = t.tblproducts ∨ (t.tblproducts = none ∧ t'.tblproducts = some [])) ∧
  (t'.tblcustomers = t.tblcustomers ∨ (t.tblcustomers = none ∧ t'.tblcustomers = some [])) ∧
  (t'.tblorders = t.tblorders ∨ (t.tblorders = none ∧ t'.tblorders = some [])) ∧
  (t'.tblorder_products = t.tblorder_products ∨
    (t.tblorder_products = none ∧ t'.tblorder_products = some [])) ∧
  t'.seq_users = t.seq_users ∧ t'.seq_orders = t.seq_orders

/-- What a call made of the system: the trace grew by `evs`. -/
structure Ran (s s' : Sys) (evs : List Event) : Prop where
  log : s'.log = evs ++ s.log
  faults : s'.faults = s.faults.drop evs.length

/-- No injected failure is pending. -/
def Sys.Quiet (s : Sys) : Prop := ∀ f ∈ s.faults, f = none

/-- The events a call added to the trace. -/
def newEvents (s s' : Sys) : List Event := s'.log.take (s'.log.length - s.log.length)

/-- What every call through `database.js` respects: the trace grows by `evs`, the store
changes at most by missing tables being created (`runAsync` apart, which the callers account
for), and the connection afterwards is the one found or a fresh one enforcing foreign keys. -/
structure Touch (s s' : Sys) (evs : List Event) : Prop where
  ran : Ran s s' evs
  connSome : ∀ c, s'.db = some c → s.db = some c ∨ (s.db = none ∧ c = ⟨true, none⟩)
  connNone : s'.db = none → s.db = none

/-- Summary of a call that only prepares the connection and the schema: it issues no
`runAsync` and no `COMMIT`, changes the store at most by creating missing tables, and fails
only through an injected failure, which the trace shows. -/
structure Setup (s s' : Sys) (r : Except JsError Unit) (evs : List Event)
    extends Touch s s' evs : Prop where
  noRun : ∀ ev ∈ evs, ∀ sql, ev.call ≠ .run sql
  grown : s.file.Grown s'.file
  failed : ∀ err, r = .error err → (∃ ev ∈ evs, ev.ok = false) ∧ ¬ s.Quiet
  noCommit : ∀ ev ∈ evs, ev.call ≠ .exec .commit

/-- Summary of `executeQuery`. -/
structure Read {α : Type} (q : Query α) (s s' : Sys) (r : Except JsError α) (evs : List Event)
    extends Touch s s' evs : Prop where
  noRun : ∀ ev ∈ evs, ∀ sql, ev.call ≠ .run sql
  grown : s.file.Grown s'.file
  failed : ∀ err, r = .error err → ∃ ev ∈ evs, ev.ok = false
  value : ∀ v, r = .ok v → q.eval s'.file = .ok v
  quiet : s.Quiet → r = q.eval s'.file
  noCommit : ∀ ev ∈ evs, ev.call ≠ .exec .commit

/-- Summary of `executeUpdate`. -/
structure Write (q : Statement) (s s' : Sys) (r : Except JsError Nat) (evs : List Event)
    extends Touch s s' evs : Prop where
  eventsOk : ∀ n, r = .ok n →
    ∃ evs0, evs = ⟨.run q.sql, true⟩ :: evs0 ∧ ∀ ev ∈ evs0, ∀ sql, ev.call ≠ .run sql
  eventsErr : ∀ err, r = .error err →
    (∃ ev ∈ evs, ev.ok = false) ∧ ∀ ev ∈ evs, ev.ok = true → ∀ sql, ev.call ≠ .run sql
  effectOk : ∀ n, r = .ok n →
    ∃ t c, s.file.Grown t ∧ s'.db = some c ∧ q.run c.foreign_keys t = .ok (s'.file, n)
  effectErr : ∀ err, r = .error err → s.file.Grown s'.file
  noCommit : ∀ ev ∈ evs, ev.call ≠ .exec .commit

/-- Summary of `executeTransaction`.  A failed call leaves the store as it was, at most with
missing tables created, unless its `ROLLBACK` failed; a call that returns leaves no
transaction open. -/
structure Txn (qs : List Statement) (s s' : Sys) (r : Except JsError Unit) (evs : List Event) :
    Prop where
  ran : Ran s s' evs
  failedRun : (∃ sql, ⟨.run sql, false⟩ ∈ evs) → ∃ err, r = .error err
  failed : ∀ err, r = .error err → ∃ ev ∈ evs, ev.ok = false
  committed : ⟨.exec .commit, true⟩ ∈ evs → r = .ok ()
  effectErr : ∀ err, r = .error err → ⟨.exec .rollback, false⟩ ∉ evs → s.file.Grown s'.file
  effectOk : r = .ok () → ∃ s1 s2 c, s.file.Grown s1.file ∧ s1.db = some c ∧
    runEach qs s1 = (.ok (), s2) ∧ s'.file = s2.file
  closedOk : r = .ok () → ∀ c, s'.db = some c → c.txn = none

/-- The rows of the five tables of `t'` are those of `t`, except that `tblorders` holds `os`
and `tblorder_products` holds `ls`. -/
def Tables.OrdersSet (t t' : Tables) (os : List OrderRow) (ls : List OrderProductRow) : Prop :=
  rows t'.tblusers = rows t.tblusers ∧ rows t'.tblproducts = rows t.tblproducts ∧
    rows t'.tblcustomers = rows t.tblcustomers ∧ rows t'.tblorders = os ∧
    rows t'.tblorder_products = ls

/-- The row of `tblorder_products` written for a draft line under an order number. -/
def OrdersScreen.lineRow (orderNumber : Nat) (item : DraftLine) : OrderProductRow :=
  ⟨orderNumber, item.product_number, item.qty, item.subtotal⟩

/-- No transaction is open on the connection of the module. -/
def Sys.NoTxn (s : Sys) : Prop := ∀ c, s.db = some c → c.txn = none

/-- A call that reads only: the trace grows, the store changes at most by missing tables
being created, and no transaction is opened. -/
def Reads (s s' : Sys) : Prop :=
  (∃ evs, Ran s s' evs) ∧ s.file.Grown s'.file ∧ (s.NoTxn → s'.NoTxn)

/-- Every order of `tblorders` has a line in `tblorder_products`. -/
def EveryOrderHasLine (t : Tables) : Prop :=
  ∀ o ∈ rows t.tblorders, ∃ l ∈ rows t.tblorder_products, l.order_number = o.order_number

/-- No native call of the step from `s` to `s'` failed. -/
def Clean (s s' : Sys) : Prop := ∀ ev ∈ newEvents s s', ev.ok = true

/-- A call from `s` to `s'` did not stop between two writes that belong together: when its
trace shows the header of an order inserted, it shows the `COMMIT` of the line items done, and
when it shows the `DELETE` of the line items of an order done, it shows the `DELETE` of the
header done, unless no line item was there to delete.  Every other failure of a native call is
admitted. -/
def Whole (s s' : Sys) : Prop :=
  ((⟨.run "INSERT INTO tblorders (date, customer_id, total_price) VALUES (?, ?, ?);", true⟩ :
        Event) ∈ newEvents s s' →
      (⟨.exec .commit, true⟩ : Event) ∈ newEvents s s') ∧
    ((⟨.run "DELETE FROM tblorder_products WHERE order_number = ?;", true⟩ : Event) ∈
        newEvents s s' →
      (⟨.run "DELETE FROM tblorders WHERE order_number = ?;", true⟩ : Event) ∈ newEvents s s' ∨
        rows s'.file.tblorder_products = rows s.file.tblorder_products)

/-- The states reached from a store without orders, no transaction being open, by calls of
`handleAddOrder` and of `handleDeleteOrder`, each call being admitted by `step`. -/
inductive Reach (step : Sys → Sys → Prop) : Sys → Prop where
  | start (s : Sys) (ho : rows s.file.tblorders = [])
      (hl : rows s.file.tblorder_products = []) (hc : s.NoTxn) : Reach step s
  | addOrder (st : OrdersScreen.State) (s : Sys) (h : Reach step s)
      (hs : step s (OrdersScreen.handleAddOrder st s).2.1) :
      Reach step (OrdersScreen.handleAddOrder st s).2.1
  | deleteOrder (n : Nat) (confirmed : Bool) (st : SummaryScreen.State) (s : Sys)
      (h : Reach step s)
      (hs : step s (SummaryScreen.handleDeleteOrder n confirmed st s).2.1) :
      Reach step (SummaryScreen.handleDeleteOrder n confirmed st s).2.1

deriving instance DecidableEq for Except

namespace Scenario

/-- Customer of the end-to-end scenarios. -/
def jane : CustomerRow := ⟨"1001", "Jane Doe", "(246) 123-4567"⟩

/-- Product of the end-to-end scenarios, price 3.50. -/
def cupcake : ProductRow := ⟨"2001", "Cupcake", 3.5⟩

/-- Two registered users; the second is flagged as logged in. -/
def users : List UserRow :=
  [⟨1, "Jane Doe", "jane@example.com", "jane", "secret1", 0⟩,
   ⟨2, "Bob Roe", "bob@example.com", "bob", "hunter22", 1⟩]

/-- A store with the five tables, one customer, one product, two users and no order. -/
def store : Tables :=
  { tblusers := some users, tblproducts := some [cupcake], tblcustomers := some [jane],
    tblorders := some [], tblorder_products := some [], seq_users := 2, seq_orders := 0 }

/-- The same store holding order 1 of four cupcakes. -/
def storeWithOrder : Tables :=
  { store with
    tblorders := some [⟨1, "2024-06-01", "1001", 14⟩],
    tblorder_products := some [⟨1, "2001", 4, 14⟩], seq_orders := 1 }

/-- The module after `getDatabase` and `initializeTables`: connection open with foreign keys
enforced, `isInitialized` true, the given store and the given injected outcomes. -/
def ready (t : Tables) (faults : List (Option String)) : Sys :=
  { db := some ⟨true, none⟩, isInitialized := true, file := t, faults := faults, log := [] }

/-- The order form with date and customer chosen, product `2001` and quantity `4` typed in,
and an empty draft. -/
def form : OrdersScreen.State :=
  { orderDate := "2024-06-01", customerId := "1001", productId := "2001", productQty := "4",
    orders := [], customers := [jane], orderNumbers := [], products := [cupcake],
    orderProducts := [], showDatePicker := false, currentOrderId := none,
    tempOrderProducts := [], isLoading := false, mounted := true }

/-- The form after `handleAddProduct`: one draft line, four cupcakes. -/
def draft : OrdersScreen.State := (OrdersScreen.handleAddProduct (fun _ => 4) form).1

/-- The summary screen before any load. -/
def summary : SummaryScreen.State :=
  { orders := [], selectedOrder := none, orderProducts := [], showDetail := false }

/-- The products screen showing the one product. -/
def catalog : ProductsScreen.State :=
  { productNumber := "", name := "", price := "", products := [cupcake], editingId := none,
    diceIcon := "dice" }

/-- Two line-item inserts for order 1; the second names a product that does not exist. -/
def twoInserts : List Statement :=
  [Statement.insertOrderProduct 1 "2001" 1 3.5, Statement.insertOrderProduct 1 "9999" 2 7]

/-- The ready module whose fourth native call is made to fail: in `handleAddOrder` the calls
are the connection test, the header insert, `BEGIN` and then the line-item insert. -/
def lineInsertFails : Sys := ready store [none, none, none, some "disk I/O error"]

/-- The ready module whose eleventh native call is made to fail: `handleAddOrder` makes nine
calls (connection test, header insert, `BEGIN`, line-item insert, `COMMIT`, four reloads),
`handleDeleteOrder` then deletes the line items, and its second `DELETE` is the eleventh. -/
def secondDeleteFails : Sys := ready store (List.replicate 10 none ++ [some "disk I/O error"])

/-- The module before the first `getDatabase`: no connection, `isInitialized` false. -/
def closed (t : Tables) (faults : List (Option String)) : Sys :=
  { db := none, isInitialized := false, file := t, faults := faults, log := [] }

end Scenario

/-! ## The writes and reads of the catalogue, customer and account screens -/

/-- Statement `INSERT INTO tblproducts (product_number, name, price) VALUES (?, ?, ?);`
The primary key refuses a `product_number` that is already present.  (The column `price REAL`
would take the NULL that SQLite makes of `NaN`; `validateInputs` lets no `NaN` come here, and
the row keeps the number it is given.) -/
def Statement.insertProduct (product_number name : String) (price : JsNumber) : Statement where
  sql := "INSERT INTO tblproducts (product_number, name, price) VALUES (?, ?, ?);"
  run _ t :=
    match t.tblproducts with
    | none => .error ⟨"no such table: tblproducts"⟩
    | some ps =>
      if ps.any (fun p => p.product_number == product_number) then
        .error ⟨"UNIQUE constraint failed: tblproducts.product_number"⟩
      else
        let ps' := ps ++ [⟨product_number, name, price⟩]
        .ok ({ t with tblproducts := some ps' }, 0)

/-- Statement `UPDATE tblproducts SET product_number = ?, name = ?, price = ?
WHERE product_number = ?;`  A change of key is refused when the new key is held by another row
and, with foreign keys enforced, when a row of `tblorder_products` refers to the old key. -/
def Statement.updateProduct (product_number name : String) (price : JsNumber)
    (editingId : String) : Statement where
  sql := "UPDATE tblproducts SET product_number = ?, name = ?, price = ? WHERE product_number = ?;"
  run fk t :=
    match t.tblproducts with
    | none => .error ⟨"no such table: tblproducts"⟩
    | some ps =>
      let moves := ps.any (fun p => p.product_number == editingId) && product_number != editingId
      if moves && ps.any (fun p => p.product_number == product_number) then
        .error ⟨"UNIQUE constraint failed: tblproducts.product_number"⟩
      else if fk && moves
          && (rows t.tblorder_products).any (fun l => l.product_number == editingId) then
        .error ⟨"FOREIGN KEY constraint failed"⟩
      else
        let ps' := ps.map (fun p =>
          if p.product_number == editingId then ⟨product_number, name, price⟩ else p)
        .ok ({ t with tblproducts := some ps' }, 0)

/-- Statement `INSERT INTO tblcustomers (customer_id, name, phone) VALUES (?, ?, ?);`
The primary key refuses a `customer_id` that is already present. -/
def Statement.insertCustomer (customer_id name phone : String) : Statement where
  sql := "INSERT INTO tblcustomers (customer_id, name, phone) VALUES (?, ?, ?);"
  run _ t :=
    match t.tblcustomers with
    | none => .error ⟨"no such table: tblcustomers"⟩
    | some cs =>
      if cs.any (fun c => c.customer_id == customer_id) then
        .error ⟨"UNIQUE constraint failed: tblcustomers.customer_id"⟩
      else
        let cs' := cs ++ [⟨customer_id, name, phone⟩]
        .ok ({ t with tblcustomers := some cs' }, 0)

/-- Statement `UPDATE tblcustomers SET customer_id = ?, name = ?, phone = ?
WHERE customer_id = ?;`  A change of key is refused when the new key is held by another row
and, with foreign keys enforced, when a row of `tblorders` refers to the old key. -/
def Statement.updateCustomer (customer_id name phone editingId : String) : Statement where
  sql := "UPDATE tblcustomers SET customer_id = ?, name = ?, phone = ? WHERE customer_id = ?;"
  run fk t :=
    match t.tblcustomers with
    | none => .error ⟨"no such table: tblcustomers"⟩
    | some cs =>
      let moves := cs.any (fun c => c.customer_id == editingId) && customer_id != editingId
      if moves && cs.any (fun c => c.customer_id == customer_id) then
        .error ⟨"UNIQUE constraint failed: tblcustomers.customer_id"⟩
      else if fk && moves && (rows t.tblorders).any (fun o => o.customer_id == editingId) then
        .error ⟨"FOREIGN KEY constraint failed"⟩
      else
        let cs' := cs.map (fun c =>
          if c.customer_id == editingId then ⟨customer_id, name, phone⟩ else c)
        .ok ({ t with tblcustomers := some cs' }, 0)

/-- Largest `user_id` present in `tblusers`. -/
def maxUserId (us : List UserRow) : Nat :=
  us.foldl (fun m u => max m u.user_id) 0

/-- Statement `INSERT INTO tblusers (full_name, email, username, password, is_logged_in)
VALUES (?, ?, ?, ?, 0);`  The key is `AUTOINCREMENT`; `username` is `UNIQUE`. -/
def Statement.insertUser (full_name email username password : String) : Statement where
  sql := "INSERT INTO tblusers (full_name, email, username, password, is_logged_in) VALUES (?, ?, ?, ?, 0);"
  run _ t :=
    match t.tblusers with
    | none => .error ⟨"no such table: tblusers"⟩
    | some us =>
      if us.any (fun u => u.username == username) then
        .error ⟨"UNIQUE constraint failed: tblusers.username"⟩
      else
        let n := max t.seq_users (maxUserId us) + 1
        let us' := us ++ [⟨n, full_name, email, username, password, 0⟩]
        .ok ({ t with tblusers := some us', seq_users := n }, n)

/-- Statement `UPDATE tblusers SET full_name = ?, email = ?, username = ?, password = ?
WHERE user_id = ?;`  Refused when another user holds the new `username`. -/
def Statement.updateUser (full_name email username password : String) (user_id : Nat) :
    Statement where
  sql := "UPDATE tblusers SET full_name = ?, email = ?, username = ?, password = ? WHERE user_id = ?;"
  run _ t :=
    match t.tblusers with
    | none => .error ⟨"no such table: tblusers"⟩
    | some us =>
      if us.any (fun u => u.user_id == user_id)
          && us.any (fun u => u.user_id != user_id && u.username == username) then
        .error ⟨"UNIQUE constraint failed: tblusers.username"⟩
      else
        let us' := us.map (fun u =>
          if u.user_id == user_id then
            { u with full_name := full_name, email := email, username := username,
                     password := password }
          else u)
        .ok ({ t with tblusers := some us' }, 0)

/-- Query `SELECT * FROM tblproducts WHERE product_number = ?;` -/
def Query.productByNumber (product_number : String) : Query (List ProductRow) where
  sql := "SELECT * FROM tblproducts WHERE product_number = ?;"
  eval t :=
    match t.tblproducts with
    | none => .error ⟨"no such table: tblproducts"⟩
    | some ps => .ok (ps.filter (fun p => p.product_number == product_number))

/-- Query `SELECT product_number FROM tblproducts;` -/
def Query.productNumbers : Query (List String) where
  sql := "SELECT product_number FROM tblproducts;"
  eval t :=
    match t.tblproducts with
    | none => .error ⟨"no such table: tblproducts"⟩
    | some ps => .ok (ps.map (fun p => p.product_number))

/-- Query `SELECT * FROM tblcustomers ORDER BY customer_id DESC;` -/
def Query.customersDesc : Query (List CustomerRow) where
  sql := "SELECT * FROM tblcustomers ORDER BY customer_id DESC;"
  eval t :=
    match t.tblcustomers with
    | none => .error ⟨"no such table: tblcustomers"⟩
    | some cs => .ok (cs.insertionSort (fun a b => b.customer_id ≤ a.customer_id))

/-- Query `SELECT * FROM tblcustomers WHERE customer_id = ?;` -/
def Query.customerById (customer_id : String) : Query (List CustomerRow) where
  sql := "SELECT * FROM tblcustomers WHERE customer_id = ?;"
  eval t :=
    match t.tblcustomers with
    | none => .error ⟨"no such table: tblcustomers"⟩
    | some cs => .ok (cs.filter (fun c => c.customer_id == customer_id))

/-- Query `SELECT customer_id FROM tblcustomers;` -/
def Query.customerIds : Query (List String) where
  sql := "SELECT customer_id FROM tblcustomers;"
  eval t :=
    match t.tblcustomers with
    | none => .error ⟨"no such table: tblcustomers"⟩
    | some cs => .ok (cs.map (fun c => c.customer_id))

/-- Query `SELECT user_id FROM tblusers WHERE username = ? AND user_id != ?;` -/
def Query.otherUsersNamed (username : String) (user_id : Nat) : Query (List Nat) where
  sql := "SELECT user_id FROM tblusers WHERE username = ? AND user_id != ?;"
  eval t :=
    match t.tblusers with
    | none => .error ⟨"no such table: tblusers"⟩
    | some us =>
      .ok ((us.filter (fun u => u.username == username && u.user_id != user_id)).map
            (fun u => u.user_id))

/-! ## `database.js`: closing the connection -/

/-- Native `db.closeAsync()` on the module's connection.  A transaction left open on the
connection is rolled back by the close. -/
def closeAsync (s : Sys) : Res Unit :=
  match s.db with
  | none => (.error ⟨"Cannot read properties of null"⟩, s)
  | some c =>
    match s.fault with
    | some msg => (.error ⟨msg⟩, s.step .close false)
    | none => (.ok (), { s.step .close true with file := c.txn.getD s.file })

/-- Function `closeDatabase`: close the connection when there is one, an error of the close
being logged only; then reset both module variables. -/
def closeDatabase (s : Sys) : Res Unit :=
  let s1 := if s.db.isSome then (closeAsync s).2 else s
  (.ok (), { s1 with db := none, isInitialized := false })

/-- Function `logout`: with a connection open, reset the login flag of every user through
`executeUpdate`; then `closeDatabase`.  An error is rethrown. -/
def logout (s : Sys) : Res Unit :=
  if s.db.isSome then
    match executeUpdate Statement.resetLogin s with
    | (.error err, s1) => (.error err, s1)
    | (.ok _, s1) => closeDatabase s1
  else closeDatabase s

/-- Function `isDatabaseReady`: `false` when the initialization or `getDatabase` throws. -/
def isDatabaseReady (s : Sys) : Bool × Sys :=
  match (if !s.isInitialized then initializeTables s else (.ok (), s)) with
  | (.error _, s1) => (false, s1)
  | (.ok _, s1) =>
    match getDatabase s1 with
    | (.error _, s2) => (false, s2)
    | (.ok _, s2) => (s2.db.isSome, s2)

/-! ## Connections the screens open for themselves

`CustomersScreen.js` and `MyAccountScreen.js` do not go through `database.js`: each keeps its
own connection to `myDatabase.db` in `dbRef.current`, opened without the foreign-key pragma. -/

/-- Native `execAsync(source)` on a connection held in a `dbRef`. -/
def Conn.execAsync (c : Conn) (e : Exec) (s : Sys) : Except JsError Conn × Sys :=
  match s.fault with
  | some msg => (.error ⟨msg⟩, s.step (.exec e) false)
  | none =>
    match e.apply c s.file with
    | .error err => (.error err, s.step (.exec e) false)
    | .ok (c1, t1) => (.ok c1, { s.step (.exec e) true with file := t1 })

/-- Native `runAsync(query, params)` on a connection held in a `dbRef`. -/
def Conn.runAsync (c : Conn) (q : Statement) (s : Sys) : Res Nat :=
  match s.fault with
  | some msg => (.error ⟨msg⟩, s.step (.run q.sql) false)
  | none =>
    match q.run c.foreign_keys s.file with
    | .error err => (.error err, s.step (.run q.sql) false)
    | .ok (t1, rowid) => (.ok rowid, { s.step (.run q.sql) true with file := t1 })

/-- Native `getAllAsync(query, params)` on a connection held in a `dbRef`. -/
def Conn.getAllAsync {α : Type} (_c : Conn) (q : Query α) (s : Sys) : Res α :=
  match s.fault with
  | some msg => (.error ⟨msg⟩, s.step (.getAll q.sql) false)
  | none =>
    match q.eval s.file with
    | .error err => (.error err, s.step (.getAll q.sql) false)
    | .ok r => (.ok r, s.step (.getAll q.sql) true)

/-- The lines `if (!dbRef.current) dbRef.current = await SQLite.openDatabaseAsync(…)`: the
connection held, or a newly opened one. -/
def openRef (dbRef : Option Conn) (s : Sys) : Except JsError Conn × Sys :=
  match dbRef with
  | some c => (.ok c, s)
  | none => openDatabaseAsync s

/-! ## More shared pieces of the screens -/

/-- JavaScript truthiness of a state variable that is `null` or a string (`editingId`). -/
def isSet (v : Option String) : Bool :=
  match v with
  | some x => x != ""
  | none => false

/-- JavaScript `s.length`: the number of UTF-16 code units. -/
def jsLength (s : String) : Nat :=
  (s.toList.map (fun c => if c.toNat < 0x10000 then 1 else 2)).sum

/-- JavaScript `s.includes(sub)`. -/
def jsIncludes (s sub : String) : Bool := decide (sub.toList <:+: s.toList)

/-- Regular-expression step `c?` for a character class: the inputs left after matching. -/
def optChar (p : Char → Bool) (cs : List Char) : List (List Char) :=
  match cs with
  | c :: rest => if p c then [rest, cs] else [cs]
  | [] => [cs]

/-- Regular-expression step `c{n}` for a character class. -/
def exactChars (p : Char → Bool) : Nat → List Char → List (List Char)
  | 0, cs => [cs]
  | _ + 1, [] => []
  | n + 1, c :: rest => if p c then exactChars p n rest else []

/-- Regular-expression step `c{lo,hi}` for a character class. -/
def rangeChars (p : Char → Bool) (lo hi : Nat) (cs : List Char) : List (List Char) :=
  (List.range (hi + 1 - lo)).flatMap (fun k => exactChars p (lo + k) cs)

/-- Regular-expression step `c+` for a character class. -/
def manyChars (p : Char → Bool) : List Char → List (List Char)
  | [] => []
  | c :: rest => if p c then rest :: manyChars p rest else []

/-- The test `/^[^\s@]+@[^\s@]+\.[^\s@]+$/.test(email)`. -/
def emailRegexTest (email : String) : Bool :=
  let plain := fun c : Char => !(isJsWhiteSpace c || c == '@')
  (((((manyChars plain email.toList).flatMap (exactChars (fun c => c == '@') 1)).flatMap
    (manyChars plain)).flatMap (exactChars (fun c => c == '.') 1)).flatMap
    (manyChars plain)).any List.isEmpty

/-- The test `/^\(?\d{3}\)?[\s-]?\d{3,4}[\s-]?\d{0,4}$/.test(text)`. -/
def phoneRegexTest (text : String) : Bool :=
  let sep := fun c : Char => isJsWhiteSpace c || c == '-'
  (((((((optChar (fun c => c == '(') text.toList).flatMap (exactChars Char.isDigit 3)).flatMap
    (optChar (fun c => c == ')'))).flatMap (optChar sep)).flatMap
    (rangeChars Char.isDigit 3 4)).flatMap (optChar sep)).flatMap
    (rangeChars Char.isDigit 0 4)).any List.isEmpty

/-- The key `Math.floor(1000 + Math.random() * 9000).toString()` for a value `r` of
`Math.random()`. -/
def randomKey (r : JsNumber) : String := (JsNumber.floor (1000 + r * 9000)).integerText

/-- The loop `do { randomNum = …; attempts++; } while (existing.includes(randomNum) &&
attempts < 20)` of the two key generators: `random i` is the value of the `i`-th call of
`Math.random()`; the result is the last key drawn and the number of draws.  `left` only bounds
the recursion: it starts at `20`, and the test `attempts < 20` ends the loop before it is used
up. -/
def rollKey (existing : List String) (random : Nat → JsNumber) : (left attempts : Nat) → String × Nat
  | 0, attempts => (randomKey (random attempts), attempts)
  | left + 1, attempts =>
    let randomNum := randomKey (random attempts)
    if existing.contains randomNum && decide (attempts + 1 < 20) then
      rollKey existing random left (attempts + 1)
    else (randomNum, attempts + 1)

/-- The list `diceIcons` of both screens. -/
def diceIcons : List String :=
  ["dice-one", "dice-two", "dice-three", "dice-four", "dice-five", "dice-six"]

/-- The icon `diceIcons[Math.floor(r * diceIcons.length)]` for a value `r` of `Math.random()`;
the text `undefined` stands for the value a position outside the list gives. -/
def randomIcon (r : JsNumber) : String :=
  match (JsNumber.floor (r * JsNumber.ofRat diceIcons.length)).index with
  | some k => diceIcons.getD k "undefined"
  | none => "undefined"

/-- The loop `while (newIcon === diceIcon) newIcon = diceIcons[Math.floor(Math.random() *
diceIcons.length)]`, drawing from `random` at index `i` on; it need not end, so it runs on
`fuel`, and `none` is the loop still running when the fuel is spent. -/
def rollIcon (diceIcon : String) (random : Nat → JsNumber) : (fuel i : Nat) → Option String
  | 0, _ => none
  | fuel + 1, i =>
    let newIcon := randomIcon (random i)
    if newIcon = diceIcon then rollIcon diceIcon random fuel (i + 1) else some newIcon

/-- What both key generators do once the existing keys are read: roll a key; when the last
key rolled is an existing one, the error alert and no change (`Except.error` carries the
alert); else the key for the form and the next dice icon.  `none` is the icon loop not
ending within `fuel`. -/
def pickKey (alert : Alert) (existing : List String) (diceIcon : String)
    (random : Nat → JsNumber) (fuel : Nat) : Option (Except Alert (String × String)) :=
  let rolled := rollKey existing random 20 0
  if existing.contains rolled.1 then some (.error alert)
  else
    match (if diceIcons.length > 1 then rollIcon diceIcon random fuel rolled.2
           else some diceIcon) with
    | none => none
    | some newIcon => some (.ok (rolled.1, newIcon))

/-! ## `OrdersScreen.js`: removing a draft line -/

/-- Function `handleRemoveProduct`, with the button pressed in its confirmation dialog
(`confirmed` for Yes): `tempOrderProducts.filter(item => item.product_number !== productNumber)`. -/
def OrdersScreen.handleRemoveProduct (productNumber : String) (confirmed : Bool)
    (st : OrdersScreen.State) : OrdersScreen.State :=
  if confirmed then
    { st with tempOrderProducts :=
        st.tempOrderProducts.filter (fun item => item.product_number != productNumber) }
  else st

/-! ## `ProductsScreen.js`: adding, editing, generating a number -/

namespace ProductsScreen

/-- Function `validateInputs`.  `parseFloat` is JavaScript's `parseFloat` on the price text. -/
def validateInputs (parseFloat : String → JsNumber) (st : State) : Bool × List Alert :=
  if jsTrim st.productNumber = "" || jsTrim st.name = "" || jsTrim st.price = "" then
    (false, [("Error", "All fields are required.")])
  else if (parseFloat st.price).isNaN then
    (false, [("Error", "Price must be a number.")])
  else (true, [])

/-- The alert of the `catch` block of `handleAddOrUpdate`. -/
def failureAlert (st : State) : Alert :=
  ("Error", if isSet st.editingId then "Failed to update product." else "Failed to add product.")

/-- The end of the `try` block of `handleAddOrUpdate`: the form is cleared and the list
reloaded. -/
def finishSave (st : State) (s : Sys) : State × Sys × List Alert :=
  let cleared := { st with editingId := none, productNumber := "", name := "", price := "" }
  match loadProducts cleared s with
  | (.error _, s1) => (cleared, s1, [failureAlert st])
  | (.ok st1, s1) => (st1, s1, [])

/-- Function `handleAddOrUpdate`. -/
def handleAddOrUpdate (parseFloat : String → JsNumber) (st : State) (s : Sys) :
    State × Sys × List Alert :=
  if !(validateInputs parseFloat st).1 then (st, s, (validateInputs parseFloat st).2)
  else
    match st.editingId, isSet st.editingId with
    | some editingId, true =>
      match executeUpdate (Statement.updateProduct st.productNumber st.name
          (parseFloat st.price) editingId) s with
      | (.error _, s1) => (st, s1, [failureAlert st])
      | (.ok _, s1) => finishSave st s1
    | _, _ =>
      match executeQuery (Query.productByNumber st.productNumber) s with
      | (.error _, s1) => (st, s1, [failureAlert st])
      | (.ok existing, s1) =>
        if existing.length > 0 then (st, s1, [("Error", "Product number already exists.")])
        else
          match executeUpdate (Statement.insertProduct st.productNumber st.name
              (parseFloat st.price)) s1 with
          | (.error _, s2) => (st, s2, [failureAlert st])
          | (.ok _, s2) => finishSave st s2

/-- The handler `onRightIconPress` of the product-number field.  `random` gives the values of
the successive calls of `Math.random()`.  A query that throws rejects the handler; `none` is
the handler still in its icon loop when `fuel` is spent. -/
def onRightIconPress (random : Nat → JsNumber) (fuel : Nat) (st : State) (s : Sys) :
    Except JsError (Option (State × List Alert)) × Sys :=
  if isSet st.editingId then (.ok (some (st, [])), s)
  else
    match executeQuery Query.productNumbers s with
    | (.error err, s1) => (.error err, s1)
    | (.ok existingNumbers, s1) =>
      match pickKey ("Error", "Could not generate a unique product number.") existingNumbers
          st.diceIcon random fuel with
      | none => (.ok none, s1)
      | some (.error alert) => (.ok (some (st, [alert])), s1)
      | some (.ok (randomNum, newIcon)) =>
        (.ok (some ({ st with productNumber := randomNum, diceIcon := newIcon }, [])), s1)

end ProductsScreen

/-! ## `CustomersScreen.js` -/

namespace CustomersScreen

/-- The component state, with the connection held in `dbRef.current`. -/
structure State where
  customerId : String
  customerName : String
  phone : String
  customers : List CustomerRow
  editingId : Option String
  diceIcon : String
  dbRef : Option Conn
deriving DecidableEq

/-- How a handler of this screen ends: it throws (its promise is rejected) or returns, having
shown the alerts. -/
abbrev Outcome := Except JsError (List Alert)

/-- Function `createTables`: open the connection when none is held, then run
`PRAGMA journal_mode = WAL; CREATE TABLE IF NOT EXISTS tblcustomers (…)`, whose effect on the
store is that of the `CREATE TABLE` of `database.js`. -/
def createTables (st : State) (s : Sys) : Except JsError Unit × State × Sys :=
  match openRef st.dbRef s with
  | (.error err, s1) => (.error err, st, s1)
  | (.ok c, s1) =>
    match c.execAsync .createCustomers s1 with
    | (.error err, s2) => (.error err, { st with dbRef := some c }, s2)
    | (.ok c1, s2) => (.ok (), { st with dbRef := some c1 }, s2)

/-- Function `loadCustomers`. -/
def loadCustomers (st : State) (s : Sys) : Except JsError Unit × State × Sys :=
  match openRef st.dbRef s with
  | (.error err, s1) => (.error err, st, s1)
  | (.ok c, s1) =>
    match c.getAllAsync Query.customersDesc s1 with
    | (.error err, s2) => (.error err, { st with dbRef := some c }, s2)
    | (.ok allRows, s2) => (.ok (), { st with dbRef := some c, customers := allRows }, s2)

/-- Function `validateInputs`. -/
def validateInputs (st : State) : Bool × List Alert :=
  if jsTrim st.customerId = "" || jsTrim st.customerName = "" || jsTrim st.phone = "" then
    (false, [("Error", "All fields are required.")])
  else
    let cleanedPhone := st.phone.toList.filter Char.isDigit
    if cleanedPhone.length < 7 || cleanedPhone.length > 15 then
      (false, [("Error", "Please enter a valid phone number (at least 7 digits, max 15).")])
    else if !phoneRegexTest (String.mk (st.phone.toList.filter (fun c => !isJsWhiteSpace c))) then
      (false, [("Error", "Phone number format is invalid.")])
    else (true, [])

/-- The alert of the `catch` block of `handleAddOrUpdate`. -/
def failureAlert (st : State) : Alert :=
  ("Error", if isSet st.editingId then "Failed to update customer." else "Failed to add customer.")

/-- The statement `handleAddOrUpdate` runs once the duplicate check is passed. -/
def saveStatement (st : State) : Statement :=
  match st.editingId, isSet st.editingId with
  | some editingId, true =>
    Statement.updateCustomer st.customerId st.customerName st.phone editingId
  | _, _ => Statement.insertCustomer st.customerId st.customerName st.phone

/-- Function `handleAddOrUpdate`. -/
def handleAddOrUpdate (st : State) (s : Sys) : Outcome × State × Sys :=
  match createTables st s with
  | (.error err, st1, s1) => (.error err, st1, s1)
  | (.ok _, st1, s1) =>
    if !(validateInputs st1).1 then (.ok (validateInputs st1).2, st1, s1)
    else
      match openRef st1.dbRef s1 with
      | (.error err, s2) => (.error err, st1, s2)
      | (.ok db, s2) =>
        let st2 := { st1 with dbRef := some db }
        match db.getAllAsync (Query.customerById st2.customerId) s2 with
        | (.error _, s3) => (.ok [failureAlert st2], st2, s3)
        | (.ok existing, s3) =>
          let duplicate :=
            if !isSet st2.editingId then decide (existing.length > 0)
            else decide (existing.length > 0) && some st2.customerId != st2.editingId
          if duplicate then (.ok [("Error", "Customer ID already exists.")], st2, s3)
          else
            match db.runAsync (saveStatement st2) s3 with
            | (.error _, s4) => (.ok [failureAlert st2], st2, s4)
            | (.ok _, s4) =>
              let cleared :=
                { st2 with editingId := none, customerId := "", customerName := "", phone := "" }
              match loadCustomers cleared s4 with
              | (.error _, st3, s5) => (.ok [failureAlert st2], st3, s5)
              | (.ok _, st3, s5) => (.ok [], st3, s5)

/-- The handler `onRightIconPress` of the customer-id field; `none` is the handler still in
its icon loop when `fuel` is spent. -/
def onRightIconPress (random : Nat → JsNumber) (fuel : Nat) (st : State) (s : Sys) :
    Except JsError (Option (State × List Alert)) × Sys :=
  if isSet st.editingId then (.ok (some (st, [])), s)
  else
    match openRef st.dbRef s with
    | (.error err, s1) => (.error err, s1)
    | (.ok db, s1) =>
      let st1 := { st with dbRef := some db }
      match db.getAllAsync Query.customerIds s1 with
      | (.error err, s2) => (.error err, s2)
      | (.ok existingIds, s2) =>
        match pickKey ("Error", "Could not generate a unique customer ID.") existingIds
            st1.diceIcon random fuel with
        | none => (.ok none, s2)
        | some (.error alert) => (.ok (some (st1, [alert])), s2)
        | some (.ok (randomNum, newIcon)) =>
          (.ok (some ({ st1 with customerId := randomNum, diceIcon := newIcon }, [])), s2)

end CustomersScreen

/-! ## `RegisterScreen.js` -/

namespace RegisterScreen

/-- The component state. -/
structure State where
  fullname : String
  email : String
  username : String
  password : String
  showPassword : Bool
deriving DecidableEq

/-- Function `validateInputs`. -/
def validateInputs (st : State) : Bool × List Alert :=
  if jsTrim st.fullname = "" || jsTrim st.email = "" || jsTrim st.username = ""
      || jsTrim st.password = "" then
    (false, [("Error", "All fields are required.")])
  else if !emailRegexTest st.email then
    (false, [("Error", "Please enter a valid email address.")])
  else if st.password.toList.contains ' ' then
    (false, [("Error", "Password cannot contain spaces.")])
  else if jsLength st.password < 6 then
    (false, [("Error", "Password must be at least 6 characters long.")])
  else (true, [])

/-- Function `saveData` (the navigation to the login screen after a success is left out). -/
def saveData (st : State) (s : Sys) : State × Sys × List Alert :=
  if !(validateInputs st).1 then (st, s, (validateInputs st).2)
  else
    match executeUpdate
        (Statement.insertUser st.fullname st.email st.username st.password) s with
    | (.ok _, s1) =>
      ({ st with fullname := "", email := "", username := "", password := "" }, s1,
        [("Registration Successful", "Your account has been created successfully!")])
    | (.error error, s1) =>
      if error.message != "" && jsIncludes error.message "UNIQUE constraint failed" then
        (st, s1, [("Error", "Username already taken. Please choose another.")])
      else (st, s1, [("Error", "Failed to register user.")])

end RegisterScreen

/-! ## `MyAccountScreen.js` -/

namespace MyAccountScreen

/-- The component state, with the connection held in `dbRef.current`; `user` is `null` until
the account is loaded. -/
structure State where
  user : Option UserRow
  fullName : String
  email : String
  username : String
  password : String
  showPassword : Bool
  dbRef : Option Conn
deriving DecidableEq

/-- Function `createUsersTable`: open the connection when none is held, then run the
`CREATE TABLE IF NOT EXISTS tblusers` of `database.js`. -/
def createUsersTable (st : State) (s : Sys) : Except JsError Unit × State × Sys :=
  match openRef st.dbRef s with
  | (.error err, s1) => (.error err, st, s1)
  | (.ok c, s1) =>
    match c.execAsync .createUsers s1 with
    | (.error err, s2) => (.error err, { st with dbRef := some c }, s2)
    | (.ok c1, s2) => (.ok (), { st with dbRef := some c1 }, s2)

/-- Function `validateInputs`. -/
def validateInputs (st : State) : Bool × List Alert :=
  if jsTrim st.fullName = "" || jsTrim st.email = "" || jsTrim st.username = ""
      || jsTrim st.password = "" then
    (false, [("Error", "All fields are required.")])
  else if !emailRegexTest st.email then
    (false, [("Error", "Please enter a valid email address.")])
  else if st.password.toList.contains ' ' then
    (false, [("Error", "Password cannot contain spaces.")])
  else if jsLength st.password < 6 then
    (false, [("Error", "Password must be at least 6 characters long.")])
  else (true, [])

/-- Function `handleSave`: it throws when `createUsersTable` or the opening of the connection
throws, and else returns having shown the alerts.  Reading `user.user_id` while `user` is
`null` throws inside the `try` block. -/
def handleSave (st : State) (s : Sys) : Except JsError (List Alert) × State × Sys :=
  if !(validateInputs st).1 then (.ok (validateInputs st).2, st, s)
  else
    match createUsersTable st s with
    | (.error err, st1, s1) => (.error err, st1, s1)
    | (.ok _, st1, s1) =>
      match openRef st1.dbRef s1 with
      | (.error err, s2) => (.error err, st1, s2)
      | (.ok db, s2) =>
        let st2 := { st1 with dbRef := some db }
        match st2.user with
        | none => (.ok [("Error", "Failed to update account.")], st2, s2)
        | some user =>
          match db.getAllAsync (Query.otherUsersNamed st2.username user.user_id) s2 with
          | (.error _, s3) => (.ok [("Error", "Failed to update account.")], st2, s3)
          | (.ok usersWithSameUsername, s3) =>
            if usersWithSameUsername.length > 0 then
              (.ok [("Error", "Username already taken. Please choose another.")], st2, s3)
            else
              match db.runAsync (Statement.updateUser st2.fullName st2.email st2.username
                  st2.password user.user_id) s3 with
              | (.error _, s4) => (.ok [("Error", "Failed to update account.")], st2, s4)
              | (.ok _, s4) => (.ok [("Success", "Account updated successfully!")], st2, s4)

end MyAccountScreen

/-! ## Vocabulary and scenarios of the schema, uniqueness and generator claims -/

/-- The five tables exist. -/
def Tables.Complete (t : Tables) : Prop :=
  t.tblusers.isSome ∧ t.tblproducts.isSome ∧ t.tblcustomers.isSome ∧ t.tblorders.isSome ∧
    t.tblorder_products.isSome

/-- The key drawn by the `i`-th call of `Math.random()`. -/
def keyAt (random : Nat → JsNumber) (i : Nat) : String := randomKey (random i)

/-- The dice icon drawn by the `i`-th call of `Math.random()`. -/
def iconAt (random : Nat → JsNumber) (i : Nat) : String := randomIcon (random i)

namespace Scenario

/-- A new store file: no table has been created yet. -/
def noTables : Tables :=
  { tblusers := none, tblproducts := none, tblcustomers := none, tblorders := none,
    tblorder_products := none, seq_users := 0, seq_orders := 0 }

/-- The values of JavaScript's `Number` on the quantity texts of the scenarios; every other
text stands for one that converts to `NaN`. -/
def number (text : String) : JsNumber :=
  if text = "4" then 4
  else if text = "3" then 3
  else if text = "2" then 2
  else if text = "1.5" then 1.5
  else if text = "1" then 1
  else if text = "0" then 0
  else if text = "" then 0
  else if text = "Infinity" then .infinity false
  else .nan

/-- The draft with a second line for the same product. -/
def doubled : OrdersScreen.State :=
  { draft with tempOrderProducts :=
      [⟨"2001", "Cupcake", 3.5, 4, 14⟩, ⟨"2001", "Cupcake", 3.5, 2, 7⟩] }

/-- Values of `Math.random()` whose first key is `2001`, the number of the cupcake, and whose
later keys are `5500`; as an icon draw each later value gives `dice-four`. -/
def draws (i : Nat) : JsNumber := if i = 0 then 0.111328125 else 0.5

/-- The products form filled in for a new product under the number of the cupcake. -/
def secondCupcake : ProductsScreen.State :=
  { catalog with productNumber := "2001", name := "Muffin", price := "2.00" }

/-- The customers form editing Jane Doe under her own id, with a new phone number. -/
def janeEdited : CustomersScreen.State :=
  { customerId := "1001", customerName := "Jane Doe", phone := "(246) 765-4321",
    customers := [jane], editingId := some "1001", diceIcon := "dice", dbRef := none }

/-- The account form of the first user, keeping the username `jane` and changing the name. -/
def janeAccount : MyAccountScreen.State :=
  { user := some ⟨1, "Jane Doe", "jane@example.com", "jane", "secret1", 0⟩,
    fullName := "Jane A. Doe", email := "jane@example.com", username := "jane",
    password := "secret1", showPassword := false, dbRef := none }

end Scenario

/-! ## The load of the orders screen -/

/-- The retry loops of `initDb`: `while (retryCount < maxRetries) { try { await attempt();
break; } catch (error) { retryCount++; if (retryCount === maxRetries) throw error; await
delay; } }` with `maxRetries = 3`.  `left` only bounds the recursion: it starts at `3`, and the
loop condition ends the loop before it is used up.  The delay of one second is not modelled. -/
def retryLoop {σ α : Type} (attempt : σ → Except JsError α × σ) :
    (left retryCount : Nat) → σ → Except JsError Unit × σ
  | 0, _, s => (.ok (), s)
  | left + 1, retryCount, s =>
    if retryCount < 3 then
      match attempt s with
      | (.ok _, s1) => (.ok (), s1)
      | (.error error, s1) =>
        if retryCount + 1 = 3 then (.error error, s1)
        else retryLoop attempt left (retryCount + 1) s1
    else (.ok (), s)

/-- Function `initDb` of the mount effect.  `isInitializing` is the flag of the effect, which
its clean-up clears; it and `mountedRef.current` are taken not to change during the call. -/
def OrdersScreen.initDb (isInitializing : Bool) (st : State) (s : Sys) :
    State × Sys × List Alert :=
  if !isInitializing then (st, s, [])
  else
    let st0 := resetState st
    let failed (s1 : Sys) : State × Sys × List Alert :=
      if st.mounted then
        ({ st0 with isLoading := false }, s1,
          [("Error", "Failed to initialize database. Please try again.")])
      else (st0, s1, [])
    match retryLoop initializeTables 3 0 s with
    | (.error _, s1) => failed s1
    | (.ok _, s1) =>
      match retryLoop (executeQuery Query.select1) 3 0 s1 with
      | (.error _, s2) => failed s2
      | (.ok _, s2) =>
        match loadInitialData st0 s2 with
        | (st3, s3, alerts) =>
          (if st.mounted then { st3 with isLoading := false } else st3, s3, alerts)

/-! ## Vocabulary and scenarios of the validation and retry claims -/

/-- An attempt instrumented with a counter of the calls made. -/
def counted {σ α : Type} (attempt : σ → Except JsError α × σ) (sn : σ × Nat) :
    Except JsError α × (σ × Nat) :=
  ((attempt sn.1).1, ((attempt sn.1).2, sn.2 + 1))

/-- The number of digits `0`-`9` of a text: the length of `text.replace(/[^0-9]/g, '')`. -/
def digitCount (text : String) : Nat := (text.toList.filter Char.isDigit).length

namespace Spec

/-- Leap years of the Gregorian calendar. -/
def isLeapYear (y : Nat) : Bool := (y % 4 == 0 && y % 100 != 0) || y % 400 == 0

/-- The number of days of month `m` in year `y`. -/
def daysInMonth (y m : Nat) : Nat :=
  if m = 2 then (if isLeapYear y then 29 else 28)
  else if m = 4 ∨ m = 6 ∨ m = 9 ∨ m = 11 then 30
  else 31

/-- The value of a decimal digit. -/
def digitValue (c : Char) : Nat := c.toNat - '0'.toNat

/-- A real calendar date written as `YYYY-MM-DD`, in the words of the specification: four
digits, two digits and two digits separated by `-`, the month between 1 and 12 and the day
between 1 and the number of days of that month. -/
def isCalendarDate (text : String) : Bool :=
  match text.toList with
  | [y1, y2, y3, y4, '-', m1, m2, '-', d1, d2] =>
    let y := digitValue y1 * 1000 + digitValue y2 * 100 + digitValue y3 * 10 + digitValue y4
    let m := digitValue m1 * 10 + digitValue m2
    let d := digitValue d1 * 10 + digitValue d2
    y1.isDigit && y2.isDigit && y3.isDigit && y4.isDigit && m1.isDigit && m2.isDigit
      && d1.isDigit && d2.isDigit
      && decide (1 ≤ m) && decide (m ≤ 12) && decide (1 ≤ d) && decide (d ≤ daysInMonth y m)
  | _ => false

end Spec

namespace Scenario

/-- The draft of four cupcakes dated with month 13 and day 45. -/
def misdated : OrdersScreen.State := { draft with orderDate := "2024-13-45" }

/-- The values of JavaScript's `parseFloat` on the price texts of the scenarios; every other
text stands for one that gives `NaN`. -/
def priceOf (text : String) : JsNumber :=
  if text = "2.00" then 2
  else if text = "-5" then -5
  else .nan

/-- The products form filled in for a new product with the price text `-5`. -/
def refund : ProductsScreen.State :=
  { catalog with productNumber := "3001", name := "Refund", price := "-5" }

/-- The customers form with a phone of six digits. -/
def shortPhone : CustomersScreen.State :=
  { customerId := "1002", customerName := "Ann Lee", phone := "123-456", customers := [jane],
    editingId := none, diceIcon := "dice", dbRef := none }

/-- The ready module on the store holding order 1 whose fourth native call is made to fail:
in `executeTransaction twoInserts` the calls are `BEGIN`, the first insert, the second insert,
which its foreign key refuses, and then the `ROLLBACK`. -/
def rollbackFails : Sys := ready storeWithOrder [none, none, none, some "database is locked"]

/-- The closed module on a new store whose third native call, the first `CREATE TABLE`, is made
to fail. -/
def createFails : Sys := closed noTables [none, none, some "disk I/O error"]

/-- The closed module on a new store in which the opening of the store fails twice and then
succeeds. -/
def opensThird : Sys :=
  closed noTables [some "unable to open database file", some "unable to open database file"]

/-- The closed module on a new store in which the opening of the store fails three times. -/
def neverOpens : Sys :=
  closed noTables [some "unable to open database file", some "unable to open database file",
    some "unable to open database file"]

/-- The closed module on the store of the scenarios whose eighth, ninth and tenth native calls
are made to fail: in `initDb` the first call of `initializeTables` makes seven calls (the
opening, the pragmas, five `CREATE TABLE`) and the next three are the `SELECT 1` of the
connection test and of its two retries. -/
def selectFails : Sys :=
  closed store (List.replicate 7 none ++
    [some "disk I/O error", some "disk I/O error", some "disk I/O error"])

/-- The ready module whose sixth native call is made to fail: in `handleAddOrder` the first
five calls commit the order and the sixth is the first query of the reload. -/
def reloadFails : Sys := ready store (List.replicate 5 none ++ [some "disk I/O error"])

/-- A product priced 0.10. -/
def mint : ProductRow := ⟨"3001", "Mint", 0.1⟩

/-- A product priced 0.20. -/
def toffee : ProductRow := ⟨"3002", "Toffee", 0.2⟩

/-- The store of the scenarios with the two further products. -/
def sweetStore : Tables := { store with tblproducts := some [cupcake, mint, toffee] }

/-- The order form with the three products loaded. -/
def sweetForm : OrdersScreen.State := { form with products := [cupcake, mint, toffee] }

/-- The draft of one mint and one toffee, each added through `handleAddProduct`. -/
def sweetDraft : OrdersScreen.State :=
  (OrdersScreen.handleAddProduct number
    { (OrdersScreen.handleAddProduct number
        { sweetForm with productId := "3001", productQty := "1" }).1 with
      productId := "3002", productQty := "1" }).1

end Scenario

/-! ## The shape of an email address, in the words of the specification -/

namespace Spec

/-- A character of the runs of the email shape: neither white space nor `@`. -/
def plainChar (c : Char) : Bool := !(isJsWhiteSpace c || c == '@')

/-- The shape `local@domain.tld` in the words of the specification: a non-empty run without
white space or `@`, then `@`, then such a run, then `.`, then such a run. -/
def EmailShape (email : String) : Prop :=
  ∃ a b c : List Char, a ≠ [] ∧ b ≠ [] ∧ c ≠ [] ∧
    (∀ x ∈ a, plainChar x = true) ∧ (∀ x ∈ b, plainChar x = true) ∧
    (∀ x ∈ c, plainChar x = true) ∧ email.toList = a ++ '@' :: (b ++ '.' :: c)

end Spec

namespace Scenario

/-- The registration form filled in with valid values for a new user. -/
def signup : RegisterScreen.State :=
  { fullname := "Ann Lee", email := "ann@example.com", username := "ann", password := "s3cret!",
    showPassword := false }

end Scenario

/-! ## Lemmas -/

open Scenario

theorem Tables.Grown.same (t : Tables) : t.Grown t := by
  simp [Tables.Grown]

theorem Tables.Grown.andThen {a b c : Tables} (h1 : a.Grown b) (h2 : b.Grown c) : a.Grown c := by
  obtain ⟨a1, a2, a3, a4, a5, a6, a7⟩ := h1
  obtain ⟨b1, b2, b3, b4, b5, b6, b7⟩ := h2
  refine ⟨?_, ?_, ?_, ?_, ?_, by omega, by omega⟩
  · rcases a1 with h | ⟨h, h'⟩ <;> rcases b1 with g | ⟨g, g'⟩ <;> simp_all
  · rcases a2 with h | ⟨h, h'⟩ <;> rcases b2 with g | ⟨g, g'⟩ <;> simp_all
  · rcases a3 with h | ⟨h, h'⟩ <;> rcases b3 with g | ⟨g, g'⟩ <;> simp_all
  · rcases a4 with h | ⟨h, h'⟩ <;> rcases b4 with g | ⟨g, g'⟩ <;> simp_all
  · rcases a5 with h | ⟨h, h'⟩ <;> rcases b5 with g | ⟨g, g'⟩ <;> simp_all

theorem Ran.nil (s : Sys) : Ran s s [] := ⟨by simp, by simp⟩

theorem Ran.append {a b c : Sys} {e1 e2 : List Event} (h1 : Ran a b e1) (h2 : Ran b c e2) :
    Ran a c (e2 ++ e1) := by
  refine ⟨by simp [h2.log, h1.log], ?_⟩
  rw [h2.faults, h1.faults, List.drop_drop, List.length_append]
  congr 1; omega

theorem Ran.newEvents_eq {s s' : Sys} {evs : List Event} (h : Ran s s' evs) :
    newEvents s s' = evs := by
  simp [newEvents, h.log]

theorem Ran.quiet {s s' : Sys} {evs : List Event} (h : Ran s s' evs) (hq : s.Quiet) :
    s'.Quiet := by
  intro f hf
  rw [h.faults] at hf
  exact hq f (List.mem_of_mem_drop hf)

theorem Sys.Quiet.fault {s : Sys} (hq : s.Quiet) : s.fault = none := by
  unfold Sys.fault
  cases hfs : s.faults with
  | nil => rfl
  | cons f fs =>
    have := hq f (by simp [hfs])
    simp [this]

theorem Touch.still (s : Sys) : Touch s s [] :=
  ⟨Ran.nil s, fun _ hc => Or.inl hc, id⟩

theorem Touch.compose {a b c : Sys} {e1 e2 : List Event}
    (h1 : Touch a b e1) (h2 : Touch b c e2) : Touch a c (e2 ++ e1) where
  ran := h1.ran.append h2.ran
  connSome := by
    intro x hx
    rcases h2.connSome x hx with h | ⟨h, h'⟩
    · exact h1.connSome x h
    · exact Or.inr ⟨h1.connNone h, h'⟩
  connNone := fun h => h1.connNone (h2.connNone h)

theorem Setup.skip (s : Sys) : Setup s s (.ok ()) [] where
  toTouch := Touch.still s
  noRun := by simp
  grown := Tables.Grown.same _
  failed := by intro err h; cases h
  noCommit := by simp

theorem Setup.seq {a b c : Sys} {r : Except JsError Unit} {e1 e2 : List Event}
    (h1 : Setup a b (.ok ()) e1) (h2 : Setup b c r e2) : Setup a c r (e2 ++ e1) where
  toTouch := h1.toTouch.compose h2.toTouch
  noRun := by
    intro ev hev
    rcases List.mem_append.1 hev with h | h
    · exact h2.noRun ev h
    · exact h1.noRun ev h
  grown := h1.grown.andThen h2.grown
  failed := by
    intro err hr
    obtain ⟨⟨ev, hev, hok⟩, hq⟩ := h2.failed err hr
    exact ⟨⟨ev, List.mem_append.2 (Or.inl hev), hok⟩, fun hqa => hq (h1.ran.quiet hqa)⟩
  noCommit := by
    intro ev hev
    rcases List.mem_append.1 hev with h | h
    · exact h2.noCommit ev h
    · exact h1.noCommit ev h

theorem Setup.toNew {s s' : Sys} {r : Except JsError Unit} {evs : List Event}
    (h : Setup s s' r evs) : Setup s s' r (newEvents s s') := by
  rw [h.ran.newEvents_eq]; exact h

theorem Setup.setInit {s s' : Sys} {r : Except JsError Unit} {evs : List Event}
    (h : Setup s s' r evs) (b : Bool) : Setup s { s' with isInitialized := b } r evs :=
  ⟨⟨⟨h.ran.log, h.ran.faults⟩, h.connSome, h.connNone⟩, h.noRun, h.grown, h.failed, h.noCommit⟩

theorem not_quiet_of_fault {s : Sys} {msg : String} (h : s.fault = some msg) : ¬ s.Quiet := by
  intro hq
  rw [hq.fault] at h
  cases h

theorem newEvents_self (s : Sys) : newEvents s s = [] := by simp [newEvents]

theorem take_new_one (a : Event) (l : List Event) :
    List.take (l.length + 1 - l.length) (a :: l) = [a] := by
  have : l.length + 1 - l.length = 1 := by omega
  simp [this]

theorem take_new_two (a b : Event) (l : List Event) :
    List.take (l.length + 1 + 1 - l.length) (a :: b :: l) = [a, b] := by
  have : l.length + 1 + 1 - l.length = 2 := by omega
  simp [this]

theorem getDatabase_spec (s : Sys) :
    Setup s (getDatabase s).2 (getDatabase s).1 (newEvents s (getDatabase s).2) := by
  rcases s with ⟨db, ini, file, faults, log⟩
  cases db with
  | some c =>
    simpa [getDatabase, newEvents] using Setup.skip (Sys.mk (some c) ini file faults log)
  | none =>
    rcases faults with _ | ⟨_ | m1, _ | ⟨_ | m2, fs⟩⟩ <;>
    simp [getDatabase, openDatabaseAsync, execAsync, Sys.fault, Sys.step, Exec.apply, newEvents,
      take_new_one, take_new_two] <;>
    refine ⟨⟨⟨?_, ?_⟩, ?_, ?_⟩, ?_, ?_, ?_, ?_⟩ <;>
    simp [Sys.Quiet, Tables.Grown.same]

theorem getDatabase_done (s : Sys) (h : (getDatabase s).1 = .ok ()) :
    (getDatabase s).2.db.isSome = true := by
  rcases s with ⟨db, ini, file, faults, log⟩
  cases db with
  | some c => simp [getDatabase]
  | none =>
    revert h
    rcases faults with _ | ⟨_ | m1, _ | ⟨_ | m2, fs⟩⟩ <;>
    simp [getDatabase, openDatabaseAsync, execAsync, Sys.fault, Sys.step, Exec.apply]

theorem execAsync_db (e : Exec) (s : Sys) (hdb : s.db.isSome = true) :
    (execAsync e s).2.db.isSome = true := by
  rcases s with ⟨db, ini, file, faults, log⟩
  cases db with
  | none => simp at hdb
  | some c =>
    rcases faults with _ | ⟨_ | m1, fs⟩ <;> simp [execAsync, Sys.fault, Sys.step]
    · cases e.apply c file <;> simp
    · cases e.apply c file <;> simp

theorem execAsync_create_spec (e : Exec) (he : e ∈ createTables) (s : Sys)
    (hdb : s.db.isSome = true) :
    Setup s (execAsync e s).2 (execAsync e s).1 (newEvents s (execAsync e s).2) := by
  rcases s with ⟨db, ini, file, faults, log⟩
  cases db with
  | none => simp at hdb
  | some c =>
    simp only [createTables, List.mem_cons, List.mem_singleton, List.not_mem_nil, or_false] at he
    rcases he with rfl | rfl | rfl | rfl | rfl <;>
    rcases faults with _ | ⟨_ | m1, fs⟩ <;>
    simp [execAsync, Sys.fault, Sys.step, Exec.apply, newEvents, take_new_one] <;>
    refine ⟨⟨⟨?_, ?_⟩, ?_, ?_⟩, ?_, ?_, ?_, ?_⟩ <;>
    simp [Sys.Quiet, Tables.Grown, rows] <;>
    cases file <;> simp <;> rename_i a b c d e f g <;>
    first | (cases a <;> simp) | (cases b <;> simp) | (cases c <;> simp) | (cases d <;> simp) | (cases e <;> simp)

theorem execEach_spec (es : List Exec) (hes : ∀ e ∈ es, e ∈ createTables) (s : Sys)
    (hdb : s.db.isSome = true) :
    Setup s (execEach es s).2 (execEach es s).1 (newEvents s (execEach es s).2) := by
  induction es generalizing s with
  | nil => simpa [execEach, newEvents_self] using Setup.skip s
  | cons e es ih =>
    have h1 := execAsync_create_spec e (hes e (by simp)) s hdb
    have hd := execAsync_db e s hdb
    unfold execEach
    cases h : execAsync e s with
    | mk r s1 =>
      rw [h] at h1 hd
      cases r with
      | error err => exact h1
      | ok u =>
        simp only
        have h2 := ih (fun e he => hes e (by simp [he])) s1 hd
        exact (h1.seq h2).toNew

theorem initializeTables_spec (s : Sys) :
    Setup s (initializeTables s).2 (initializeTables s).1 (newEvents s (initializeTables s).2) := by
  unfold initializeTables
  cases hi : s.isInitialized with
  | true => simpa [newEvents_self] using Setup.skip s
  | false =>
    simp only [Bool.not_false, if_true]
    have h1 := getDatabase_spec s
    have hd := getDatabase_done s
    cases h : getDatabase s with
    | mk r s1 =>
      rw [h] at h1 hd
      cases r with
      | error err => exact (h1.setInit false).toNew
      | ok u =>
        simp only
        have hs1 : s1.db.isSome = true := hd rfl
        have hn : s1.db.isNone = false := by
          cases hd : s1.db <;> simp_all
        simp only [hn, Bool.false_eq_true, if_false]
        have h2 := execEach_spec createTables (fun e he => he) s1 hs1
        cases h' : execEach createTables s1 with
        | mk r2 s2 =>
          rw [h'] at h2
          cases r2 with
          | error err => exact ((h1.seq h2).setInit false).toNew
          | ok u => exact (h1.seq h2).toNew

theorem connect_spec (s : Sys) :
    Setup s (connect s).2 (connect s).1 (newEvents s (connect s).2) ∧
      ((connect s).1 = .ok () → (connect s).2.db.isSome = true) := by
  unfold connect
  have h0 : Setup s (if !s.isInitialized then initializeTables s else (.ok (), s)).2
      (if !s.isInitialized then initializeTables s else (.ok (), s)).1
      (newEvents s (if !s.isInitialized then initializeTables s else (.ok (), s)).2) := by
    split
    · exact initializeTables_spec s
    · simpa [newEvents_self] using Setup.skip s
  cases h : (if !s.isInitialized then initializeTables s else (.ok (), s)) with
  | mk r s1 =>
    rw [h] at h0
    cases r with
    | error err => exact ⟨h0, by simp⟩
    | ok u =>
      simp only
      have h1 := getDatabase_spec s1
      have hd := getDatabase_done s1
      cases h' : getDatabase s1 with
      | mk r2 s2 =>
        rw [h'] at h1 hd
        cases r2 with
        | error err => exact ⟨(h0.seq h1).toNew, by simp⟩
        | ok u =>
          have hs : s2.db.isSome = true := hd rfl
          have hn : s2.db.isNone = false := by
            cases hd : s2.db <;> simp_all
          simp only [hn, Bool.false_eq_true, if_false]
          exact ⟨(h0.seq h1).toNew, fun _ => hs⟩

theorem Touch.oneCall (s : Sys) (c : Call) (ok : Bool) : Touch s (s.step c ok) [⟨c, ok⟩] :=
  ⟨⟨by simp [Sys.step], by simp [Sys.step, List.drop_one]⟩, fun _ h => Or.inl h, id⟩

theorem Touch.stepFile (s : Sys) (c : Call) (ok : Bool) (t : Tables) :
    Touch s { s.step c ok with file := t } [⟨c, ok⟩] :=
  ⟨⟨by simp [Sys.step], by simp [Sys.step, List.drop_one]⟩, fun _ h => Or.inl h, id⟩

theorem runAsync_cases (q : Statement) (s : Sys) (c : Conn) (hdb : s.db = some c) :
    (∃ n t, runAsync q s = (.ok n, { s.step (.run q.sql) true with file := t }) ∧
        s.fault = none ∧ q.run c.foreign_keys s.file = .ok (t, n)) ∨
      (∃ err, runAsync q s = (.error err, s.step (.run q.sql) false)) := by
  unfold runAsync
  simp only [hdb]
  cases hf : s.fault with
  | some msg => exact Or.inr ⟨_, rfl⟩
  | none =>
    simp only
    cases hr : q.run c.foreign_keys s.file with
    | error err => exact Or.inr ⟨_, rfl⟩
    | ok p => exact Or.inl ⟨p.2, p.1, rfl, trivial, rfl⟩

theorem getAllAsync_cases {α : Type} (q : Query α) (s : Sys) (hdb : s.db.isSome = true) :
    (∃ v, getAllAsync q s = (.ok v, s.step (.getAll q.sql) true) ∧
        s.fault = none ∧ q.eval s.file = .ok v) ∨
      (∃ err, getAllAsync q s = (.error err, s.step (.getAll q.sql) false) ∧
        (s.fault = none → q.eval s.file = .error err)) := by
  unfold getAllAsync
  cases hd : s.db with
  | none => simp [hd] at hdb
  | some c =>
    simp only
    cases hf : s.fault with
    | some msg => exact Or.inr ⟨_, rfl, by simp⟩
    | none =>
      simp only
      cases hr : q.eval s.file with
      | error err => exact Or.inr ⟨_, rfl, fun _ => rfl⟩
      | ok v => exact Or.inl ⟨v, rfl, trivial, rfl⟩

theorem executeQuery_spec {α : Type} (q : Query α) (s : Sys) :
    Read q s (executeQuery q s).2 (executeQuery q s).1 (newEvents s (executeQuery q s).2) := by
  unfold executeQuery
  obtain ⟨h0, hd⟩ := connect_spec s
  cases h : connect s with
  | mk r s1 =>
    rw [h] at h0 hd
    cases r with
    | error err =>
      exact ⟨h0.toTouch, h0.noRun, h0.grown, fun _ _ => (h0.failed err rfl).1, by simp,
        fun hq => absurd hq (h0.failed err rfl).2, h0.noCommit⟩
    | ok u =>
      simp only
      have hs1 := hd rfl
      rcases getAllAsync_cases q s1 hs1 with ⟨v, hv, hf, he⟩ | ⟨err, hv, he⟩
      · rw [hv]
        have ht := (h0.toTouch.compose (Touch.oneCall s1 (.getAll q.sql) true))
        rw [ht.ran.newEvents_eq]
        refine ⟨ht, ?_, ?_, by simp, ?_, ?_, ?_⟩
        · intro ev hev
          rcases List.mem_append.1 hev with h | h
          · simp at h; subst h; simp
          · rw [← h0.ran.newEvents_eq] at h; exact h0.noRun ev h
        · simpa [Sys.step] using h0.grown
        · intro v' hv'; simp at hv'; subst hv'; simpa [Sys.step] using he
        · intro _; simp [Sys.step, he]
        · intro ev hev
          rcases List.mem_append.1 hev with h | h
          · simp at h; subst h; simp
          · rw [← h0.ran.newEvents_eq] at h; exact h0.noCommit ev h
      · rw [hv]
        have ht := (h0.toTouch.compose (Touch.oneCall s1 (.getAll q.sql) false))
        rw [ht.ran.newEvents_eq]
        refine ⟨ht, ?_, ?_, ?_, by simp, ?_, ?_⟩
        · intro ev hev
          rcases List.mem_append.1 hev with h | h
          · simp at h; subst h; simp
          · rw [← h0.ran.newEvents_eq] at h; exact h0.noRun ev h
        · simpa [Sys.step] using h0.grown
        · intro _ _; exact ⟨_, List.mem_append.2 (Or.inl (List.mem_singleton.2 rfl)), rfl⟩
        · intro hq
          have := he (h0.ran.quiet hq).fault
          simp [Sys.step, this]
        · intro ev hev
          rcases List.mem_append.1 hev with h | h
          · simp at h; subst h; simp
          · rw [← h0.ran.newEvents_eq] at h; exact h0.noCommit ev h

theorem executeUpdate_spec (q : Statement) (s : Sys) :
    Write q s (executeUpdate q s).2 (executeUpdate q s).1 (newEvents s (executeUpdate q s).2) := by
  unfold executeUpdate
  obtain ⟨h0, hd⟩ := connect_spec s
  cases h : connect s with
  | mk r s1 =>
    rw [h] at h0 hd
    cases r with
    | error err =>
      refine ⟨h0.toTouch, by simp, ?_, by simp, fun _ _ => h0.grown, h0.noCommit⟩
      intro _ _
      exact ⟨(h0.failed err rfl).1, fun ev hev _ => h0.noRun ev hev⟩
    | ok u =>
      simp only
      have hs1 := hd rfl
      obtain ⟨c, hc⟩ := Option.isSome_iff_exists.1 hs1
      rcases runAsync_cases q s1 c hc with ⟨n, t, hv, hf, he⟩ | ⟨err, hv⟩
      · rw [hv]
        have ht := (h0.toTouch.compose (Touch.stepFile s1 (.run q.sql) true t))
        rw [ht.ran.newEvents_eq]
        have hnc : ∀ ev ∈ [(⟨.run q.sql, true⟩ : Event)] ++ newEvents s s1,
            ev.call ≠ .exec .commit := by
          intro ev hev
          rcases List.mem_append.1 hev with h | h
          · simp at h; subst h; simp
          · exact h0.noCommit ev h
        rw [h0.ran.newEvents_eq] at hnc
        refine ⟨ht, ?_, by simp, ?_, by simp, hnc⟩
        · intro _ _
          exact ⟨_, rfl, h0.ran.newEvents_eq ▸ h0.noRun⟩
        · intro n' hn'
          simp at hn'; subst hn'
          exact ⟨s1.file, c, h0.grown, by simpa [Sys.step] using hc, he⟩
      · rw [hv]
        have ht := (h0.toTouch.compose (Touch.oneCall s1 (.run q.sql) false))
        rw [ht.ran.newEvents_eq]
        have hnc : ∀ ev ∈ [(⟨.run q.sql, false⟩ : Event)] ++ newEvents s s1,
            ev.call ≠ .exec .commit := by
          intro ev hev
          rcases List.mem_append.1 hev with h | h
          · simp at h; subst h; simp
          · exact h0.noCommit ev h
        rw [h0.ran.newEvents_eq] at hnc
        refine ⟨ht, by simp, ?_, by simp, ?_, hnc⟩
        · intro _ _
          refine ⟨⟨_, List.mem_append.2 (Or.inl (List.mem_singleton.2 rfl)), rfl⟩, ?_⟩
          intro ev hev hok
          rcases List.mem_append.1 hev with h | h
          · simp at h; subst h; simp at hok
          · rw [← h0.ran.newEvents_eq] at h; exact h0.noRun ev h
        · intro _ _; simpa [Sys.step] using h0.grown

theorem runEach_spec (qs : List Statement) (s : Sys) (c : Conn) (hdb : s.db = some c) :
    (runEach qs s).2.db = some c ∧
      Ran s (runEach qs s).2 (newEvents s (runEach qs s).2) ∧
      (∀ ev ∈ newEvents s (runEach qs s).2, ∃ sql, ev.call = .run sql) ∧
      ((runEach qs s).1 = .ok () → ∀ ev ∈ newEvents s (runEach qs s).2, ev.ok = true) ∧
      (∀ err, (runEach qs s).1 = .error err →
        ∃ sql, ⟨.run sql, false⟩ ∈ newEvents s (runEach qs s).2) := by
  induction qs generalizing s with
  | nil => simp [runEach, newEvents_self, hdb, Ran.nil]
  | cons q qs ih =>
    unfold runEach
    rcases runAsync_cases q s c hdb with ⟨n, t, hv, hf, he⟩ | ⟨err, hv⟩
    · rw [hv]
      simp only
      have ht := Touch.stepFile s (.run q.sql) true t
      obtain ⟨i1, i2, i3, i4, i5⟩ := ih { s.step (.run q.sql) true with file := t }
        (by simpa [Sys.step] using hdb)
      have hr := ht.ran.append i2
      rw [hr.newEvents_eq]
      refine ⟨i1, hr, ?_, ?_, ?_⟩
      · intro ev hev
        rcases List.mem_append.1 hev with h | h
        · exact i3 ev h
        · simp at h; subst h; exact ⟨_, rfl⟩
      · intro hok ev hev
        rcases List.mem_append.1 hev with h | h
        · exact i4 hok ev h
        · simp at h; subst h; rfl
      · intro err herr
        obtain ⟨sql, hm⟩ := i5 err herr
        exact ⟨sql, List.mem_append.2 (Or.inl hm)⟩
    · rw [hv]
      have ht := Touch.oneCall s (.run q.sql) false
      rw [ht.ran.newEvents_eq]
      refine ⟨by simpa [Sys.step] using hdb, ht.ran, ?_, by simp, ?_⟩
      · intro ev hev
        simp at hev; subst hev; exact ⟨_, rfl⟩
      · intro _ _; exact ⟨q.sql, by simp⟩

theorem execAsync_begin (s : Sys) (c : Conn) (hdb : s.db = some c) :
    (execAsync .begin s = (.ok (), { s.step (.exec .begin) true with
        db := some { c with txn := some s.file } }) ∧ c.txn = none) ∨
      (∃ err, execAsync .begin s = (.error err, s.step (.exec .begin) false)) := by
  rcases s with ⟨db, ini, file, faults, log⟩
  simp only at hdb
  subst hdb
  rcases c with ⟨fk, txn⟩
  rcases faults with _ | ⟨_ | m1, fs⟩ <;> cases txn <;>
    simp [execAsync, Sys.fault, Sys.step, Exec.apply]

theorem execAsync_commit (s : Sys) (c : Conn) (saved : Tables) (hdb : s.db = some c)
    (htx : c.txn = some saved) :
    execAsync .commit s = (.ok (), { s.step (.exec .commit) true with
        db := some { c with txn := none } }) ∨
      (∃ err, execAsync .commit s = (.error err, s.step (.exec .commit) false)) := by
  rcases s with ⟨db, ini, file, faults, log⟩
  simp only at hdb
  subst hdb
  rcases c with ⟨fk, txn⟩
  simp only at htx
  subst htx
  rcases faults with _ | ⟨_ | m1, fs⟩ <;>
    simp [execAsync, Sys.fault, Sys.step, Exec.apply]

theorem execAsync_rollback (s : Sys) (c : Conn) (saved : Tables) (hdb : s.db = some c)
    (htx : c.txn = some saved) :
    execAsync .rollback s = (.ok (), { s.step (.exec .rollback) true with
        db := some { c with txn := none }, file := saved }) ∨
      (∃ err, execAsync .rollback s = (.error err, s.step (.exec .rollback) false)) := by
  rcases s with ⟨db, ini, file, faults, log⟩
  simp only at hdb
  subst hdb
  rcases c with ⟨fk, txn⟩
  simp only at htx
  subst htx
  rcases faults with _ | ⟨_ | m1, fs⟩ <;>
    simp [execAsync, Sys.fault, Sys.step, Exec.apply]

theorem Ran.oneStep (s : Sys) (c : Call) (ok : Bool) : Ran s (s.step c ok) [⟨c, ok⟩] :=
  (Touch.oneCall s c ok).ran

theorem Ran.stepSet (s : Sys) (c : Call) (ok : Bool) (db : Option Conn) (t : Tables) :
    Ran s { s.step c ok with db := db, file := t } [⟨c, ok⟩] :=
  ⟨by simp [Sys.step], by simp [Sys.step, List.drop_one]⟩

/-- The end of a failed body of `executeTransaction`: the `ROLLBACK` on the connection that
`BEGIN` left, from a state `s4` whose trace since `BEGIN` holds no successful `COMMIT`. -/
theorem rollback_end (s s1 s4 : Sys) (c : Conn) (err : JsError) (e0 e4 : List Event)
    (hg : s.file.Grown s1.file) (hran : Ran s s4 (e4 ++ ([⟨.exec .begin, true⟩] ++ e0)))
    (hdb : s4.db = some { c with txn := some s1.file })
    (hnc0 : ∀ ev ∈ e0, ev.call ≠ .exec .commit)
    (hnc4 : (⟨.exec .commit, true⟩ : Event) ∉ e4)
    (hfail : ∃ ev ∈ e4, ev.ok = false) (qs : List Statement) :
    Txn qs s
      (match execAsync .rollback s4 with
        | (.error err1, s5) => (.error err1, s5)
        | (.ok _, s5) => (.error err, s5) : Res Unit).2
      (match execAsync .rollback s4 with
        | (.error err1, s5) => (.error err1, s5)
        | (.ok _, s5) => (.error err, s5) : Res Unit).1
      (newEvents s (match execAsync .rollback s4 with
        | (.error err1, s5) => (.error err1, s5)
        | (.ok _, s5) => (.error err, s5) : Res Unit).2) := by
  have hmem : ∀ okb, (⟨.exec .commit, true⟩ : Event) ∉
      [(⟨.exec .rollback, okb⟩ : Event)] ++ (e4 ++ ([⟨.exec .begin, true⟩] ++ e0)) := by
    intro okb hm
    rcases List.mem_append.1 hm with h | h
    · simp at h
    · rcases List.mem_append.1 h with h | h
      · exact hnc4 h
      · rcases List.mem_append.1 h with h | h
        · simp at h
        · exact absurd rfl (hnc0 _ h)
  have hfail2 : ∀ okb, ∃ ev ∈
      [(⟨.exec .rollback, okb⟩ : Event)] ++ (e4 ++ ([⟨.exec .begin, true⟩] ++ e0)),
      ev.ok = false := by
    intro okb
    obtain ⟨ev, hev, hok⟩ := hfail
    exact ⟨ev, by simp [hev], hok⟩
  rcases execAsync_rollback s4 _ s1.file hdb rfl with hrb | ⟨e1, hrb⟩
  · rw [hrb]
    simp only
    have hr := hran.append (Ran.stepSet s4 (.exec .rollback) true
      (some { c with txn := none }) s1.file)
    rw [hr.newEvents_eq]
    exact ⟨hr, fun _ => ⟨_, rfl⟩, fun _ _ => hfail2 true,
      fun hm => absurd hm (hmem true), fun _ _ _ => hg, by simp, by simp⟩
  · rw [hrb]
    simp only
    have hr := hran.append (Ran.oneStep s4 (.exec .rollback) false)
    rw [hr.newEvents_eq]
    exact ⟨hr, fun _ => ⟨_, rfl⟩, fun _ _ => hfail2 false,
      fun hm => absurd hm (hmem false), fun _ _ hno => absurd (by simp) hno, by simp, by simp⟩

theorem executeTransaction_spec (qs : List Statement) (s : Sys) :
    Txn qs s (executeTransaction qs s).2 (executeTransaction qs s).1
      (newEvents s (executeTransaction qs s).2) := by
  unfold executeTransaction
  obtain ⟨h0, hd⟩ := connect_spec s
  cases h : connect s with
  | mk r s1 =>
    rw [h] at h0 hd
    cases r with
    | error err =>
      refine ⟨h0.ran, ?_, fun _ _ => (h0.failed err rfl).1,
        fun hm => absurd rfl (h0.noCommit _ hm), fun _ _ _ => h0.grown, by simp, by simp⟩
      rintro ⟨sql, hm⟩
      exact absurd rfl (h0.noRun _ hm sql)
    | ok u =>
      simp only
      have hs1 := hd rfl
      obtain ⟨c, hc⟩ := Option.isSome_iff_exists.1 hs1
      have h0r := h0.ran
      rw [h0.ran.newEvents_eq] at h0r
      have hnr := h0.noRun
      have hnc := h0.noCommit
      generalize newEvents s s1 = e0 at h0r hnr hnc
      rcases execAsync_begin s1 c hc with ⟨hb, hct⟩ | ⟨err, hb⟩
      · rw [hb]
        simp only
        -- state after BEGIN
        generalize hs2 : ({ s1.step (.exec .begin) true with
          db := some { c with txn := some s1.file } } : Sys) = s2
        have hr2 : Ran s1 s2 [⟨.exec .begin, true⟩] := by
          subst hs2
          exact ⟨by simp [Sys.step], by simp [Sys.step, List.drop_one]⟩
        have hdb2 : s2.db = some { c with txn := some s1.file } := by subst hs2; rfl
        have hf2 : s2.file = s1.file := by subst hs2; rfl
        obtain ⟨r1, r2, r3, r4, r5⟩ := runEach_spec qs s2 _ hdb2
        cases hre : runEach qs s2 with
        | mk rr s3 =>
          rw [hre] at r1 r2 r3 r4 r5
          generalize newEvents s2 s3 = e3 at r2 r3 r4 r5
          have hnc3 : (⟨.exec .commit, true⟩ : Event) ∉ e3 := by
            intro hm
            obtain ⟨sql, hsql⟩ := r3 _ hm
            cases hsql
          cases rr with
          | error err =>
            simp only
            simp only at r1 r2 r5
            have hsome : s3.db.isSome = true := by rw [r1]; rfl
            simp only [hsome, if_true]
            have hran : Ran s s3 (e3 ++ ([⟨.exec .begin, true⟩] ++ e0)) :=
              (h0r.append hr2).append r2
            refine rollback_end s s1 s3 c err e0 e3 h0.grown hran r1 hnc hnc3 ?_ qs
            obtain ⟨sql, hm⟩ := r5 err rfl
            exact ⟨_, hm, rfl⟩
          | ok u =>
            simp only at r1 r2 r4
            simp only
            rcases execAsync_commit s3 _ s1.file r1 rfl with hcm | ⟨e1, hcm⟩
            · rw [hcm]
              simp only
              have hr5 : Ran s3 ({ s3.step (.exec .commit) true with
                  db := some { c with txn := none } } : Sys) [⟨.exec .commit, true⟩] :=
                ⟨by simp [Sys.step], by simp [Sys.step, List.drop_one]⟩
              have hran := ((h0r.append hr2).append r2).append hr5
              rw [hran.newEvents_eq]
              refine ⟨hran, ?_, by simp, fun _ => rfl, by simp, ?_, ?_⟩
              · rintro ⟨sql, hm⟩
                rcases List.mem_append.1 hm with h | h
                · simp at h
                · rcases List.mem_append.1 h with h | h
                  · have := r4 trivial _ h
                    simp at this
                  · rcases List.mem_append.1 h with h | h
                    · simp at h
                    · exact absurd rfl (hnr _ h sql)
              · intro _
                exact ⟨s2, s3, _, by rw [hf2]; exact h0.grown, hdb2, hre, by simp [Sys.step]⟩
              · intro _ c' hc'
                simp only [Option.some.injEq] at hc'
                subst hc'
                rfl
            · rw [hcm]
              simp only
              have hdb4 : (s3.step (.exec .commit) false).db =
                  some { c with txn := some s1.file } := by simpa [Sys.step] using r1
              have hsome : (s3.step (.exec .commit) false).db.isSome = true := by
                rw [hdb4]; rfl
              simp only [hsome, if_true]
              have hran : Ran s (s3.step (.exec .commit) false)
                  (([⟨.exec .commit, false⟩] ++ e3) ++ ([⟨.exec .begin, true⟩] ++ e0)) := by
                have := ((h0r.append hr2).append r2).append
                  (Ran.oneStep s3 (.exec .commit) false)
                simpa using this
              refine rollback_end s s1 _ c e1 e0 _ h0.grown hran hdb4 hnc ?_
                ⟨⟨.exec .commit, false⟩, by simp, rfl⟩ qs
              intro hm
              rcases List.mem_append.1 hm with h | h
              · simp at h
              · exact hnc3 h
      · rw [hb]
        have hran := h0r.append (Ran.oneStep s1 (.exec .begin) false)
        simp only
        rw [hran.newEvents_eq]
        refine ⟨hran, ?_, ?_, ?_, ?_, by simp, by simp⟩
        · rintro ⟨sql, hm⟩
          rcases List.mem_append.1 hm with h | h
          · simp at h
          · exact absurd rfl (hnr _ h sql)
        · intro _ _; exact ⟨_, List.mem_append.2 (Or.inl (List.mem_singleton.2 rfl)), rfl⟩
        · intro hm
          rcases List.mem_append.1 hm with h | h
          · simp at h
          · exact absurd rfl (hnc _ h)
        · intro _ _ _; simpa [Sys.step] using h0.grown

theorem Tables.Grown.rows_eq {t t' : Tables} (h : t.Grown t') :
    rows t'.tblusers = rows t.tblusers ∧ rows t'.tblproducts = rows t.tblproducts ∧
      rows t'.tblcustomers = rows t.tblcustomers ∧ rows t'.tblorders = rows t.tblorders ∧
      rows t'.tblorder_products = rows t.tblorder_products := by
  obtain ⟨a1, a2, a3, a4, a5, -, -⟩ := h
  refine ⟨?_, ?_, ?_, ?_, ?_⟩
  · rcases a1 with h | ⟨h, h'⟩ <;> simp [h, *, rows]
  · rcases a2 with h | ⟨h, h'⟩ <;> simp [h, *, rows]
  · rcases a3 with h | ⟨h, h'⟩ <;> simp [h, *, rows]
  · rcases a4 with h | ⟨h, h'⟩ <;> simp [h, *, rows]
  · rcases a5 with h | ⟨h, h'⟩ <;> simp [h, *, rows]

theorem Tables.Grown.users {t t' : Tables} (h : t.Grown t') {l : List UserRow}
    (hl : t.tblusers = some l) : t'.tblusers = some l := by
  rcases h.1 with h | ⟨h, -⟩ <;> simp_all

theorem Tables.Grown.products {t t' : Tables} (h : t.Grown t') {l : List ProductRow}
    (hl : t.tblproducts = some l) : t'.tblproducts = some l := by
  rcases h.2.1 with h | ⟨h, -⟩ <;> simp_all

theorem Tables.Grown.order_products {t t' : Tables} (h : t.Grown t') {l : List OrderProductRow}
    (hl : t.tblorder_products = some l) : t'.tblorder_products = some l := by
  rcases h.2.2.2.2.1 with h | ⟨h, -⟩ <;> simp_all

theorem Tables.Grown.ordersSet {t t' : Tables} (h : t.Grown t') :
    t.OrdersSet t' (rows t.tblorders) (rows t.tblorder_products) := h.rows_eq

theorem Tables.OrdersSet.grown_right {a b c : Tables} {os : List OrderRow}
    {ls : List OrderProductRow} (h1 : a.OrdersSet b os ls) (h2 : b.Grown c) :
    a.OrdersSet c os ls := by
  obtain ⟨g1, g2, g3, g4, g5⟩ := h2.rows_eq
  obtain ⟨k1, k2, k3, k4, k5⟩ := h1
  exact ⟨g1.trans k1, g2.trans k2, g3.trans k3, g4.trans k4, g5.trans k5⟩

theorem foldl_max_ge (os : List OrderRow) (m : Nat) :
    m ≤ os.foldl (fun m o => max m o.order_number) m ∧
      ∀ o ∈ os, o.order_number ≤ os.foldl (fun m o => max m o.order_number) m := by
  induction os generalizing m with
  | nil => simp
  | cons a as ih =>
    simp only [List.foldl_cons, List.mem_cons]
    obtain ⟨h1, h2⟩ := ih (max m a.order_number)
    refine ⟨by omega, ?_⟩
    rintro o (rfl | ho)
    · omega
    · exact h2 o ho

theorem le_maxOrderNumber {os : List OrderRow} {o : OrderRow} (h : o ∈ os) :
    o.order_number ≤ maxOrderNumber os :=
  (foldl_max_ge os 0).2 o h

theorem insertOrder_run {date customer_id : String} {total_price : JsNumber} {fk : Bool}
    {t t' : Tables} {n : Nat}
    (h : (Statement.insertOrder date customer_id total_price).run fk t = .ok (t', n)) :
    t.OrdersSet t' (rows t.tblorders ++ [⟨n, date, customer_id, total_price⟩])
        (rows t.tblorder_products) ∧
      ∀ o ∈ rows t.tblorders, o.order_number < n := by
  unfold Statement.insertOrder at h
  simp only at h
  split at h
  · cases h
  · rename_i os hos
    split at h
    · cases h
    · split at h
      · cases h
      · simp only [Except.ok.injEq, Prod.mk.injEq] at h
        obtain ⟨rfl, rfl⟩ := h
        refine ⟨by simp [Tables.OrdersSet, rows, hos], ?_⟩
        intro o ho
        have := le_maxOrderNumber (by simpa [rows, hos] using ho : o ∈ os)
        omega

theorem insertOrderProduct_run {order_number : Nat} {product_number : String}
    {qty subtotal : JsNumber} {fk : Bool} {t t' : Tables} {n : Nat}
    (h : (Statement.insertOrderProduct order_number product_number qty subtotal).run fk t
      = .ok (t', n)) :
    t.OrdersSet t' (rows t.tblorders)
      (rows t.tblorder_products ++ [⟨order_number, product_number, qty, subtotal⟩]) := by
  unfold Statement.insertOrderProduct at h
  simp only at h
  split at h
  · cases h
  · rename_i ls hls
    split at h
    · cases h
    · split at h
      · cases h
      · split at h
        · cases h
        · simp only [Except.ok.injEq, Prod.mk.injEq] at h
          obtain ⟨rfl, -⟩ := h
          simp [Tables.OrdersSet, rows, hls]

theorem deleteOrderProducts_run {order_number : Nat} {fk : Bool} {t t' : Tables} {n : Nat}
    (h : (Statement.deleteOrderProducts order_number).run fk t = .ok (t', n)) :
    t.OrdersSet t' (rows t.tblorders)
      ((rows t.tblorder_products).filter (fun l => l.order_number != order_number)) := by
  unfold Statement.deleteOrderProducts at h
  simp only at h
  split at h
  · cases h
  · rename_i ls hls
    simp only [Except.ok.injEq, Prod.mk.injEq] at h
    obtain ⟨rfl, -⟩ := h
    simp [Tables.OrdersSet, rows, hls]

theorem deleteOrder_run {order_number : Nat} {fk : Bool} {t t' : Tables} {n : Nat}
    (h : (Statement.deleteOrder order_number).run fk t = .ok (t', n)) :
    t.OrdersSet t' ((rows t.tblorders).filter (fun o => o.order_number != order_number))
      (rows t.tblorder_products) := by
  unfold Statement.deleteOrder at h
  simp only at h
  split at h
  · cases h
  · rename_i os hos
    split at h
    · cases h
    · simp only [Except.ok.injEq, Prod.mk.injEq] at h
      obtain ⟨rfl, -⟩ := h
      simp [Tables.OrdersSet, rows, hos]

theorem runEach_lineInserts (n : Nat) (items : List DraftLine) (s s' : Sys) (c : Conn)
    (hdb : s.db = some c) (h : runEach (lineInserts n items) s = (.ok (), s')) :
    s.file.OrdersSet s'.file (rows s.file.tblorders)
      (rows s.file.tblorder_products ++ items.map (lineRow n)) := by
  induction items generalizing s with
  | nil =>
    simp [lineInserts, runEach] at h
    subst h
    simpa using (Tables.Grown.same s.file).ordersSet
  | cons item items ih =>
    simp only [lineInserts, List.map_cons, runEach] at h
    rcases runAsync_cases (Statement.insertOrderProduct n item.product_number item.qty
      item.subtotal) s c hdb with ⟨m, t, hv, hf, he⟩ | ⟨err, hv⟩
    · rw [hv] at h
      simp only at h
      have h1 := insertOrderProduct_run he
      have h2 := ih _ (by simpa [Sys.step] using hdb) h
      simp only at h2
      obtain ⟨g1, g2, g3, g4, g5⟩ := h1
      obtain ⟨k1, k2, k3, k4, k5⟩ := h2
      refine ⟨k1.trans g1, k2.trans g2, k3.trans g3, k4.trans (by rw [g4]), ?_⟩
      rw [k5, g5]
      simp [lineRow]
    · rw [hv] at h
      simp at h

theorem totalPrice_eq_foldl (items : List DraftLine) :
    totalPrice items = (items.map (fun item => item.subtotal)).foldl (fun sum x => sum + x) 0 := by
  unfold totalPrice
  rw [List.foldl_map]

/-- Summary of the writes of `handleAddOrder`. -/
theorem commitOrder_spec (st : State) (s : Sys) :
    Ran s (commitOrder st s).2 (newEvents s (commitOrder st s).2) ∧
      (∀ err, (commitOrder st s).1 = .error err →
        ∃ ev ∈ newEvents s (commitOrder st s).2, ev.ok = false) ∧
      (∀ n, (commitOrder st s).1 = .ok n →
        s.file.OrdersSet (commitOrder st s).2.file
          (rows s.file.tblorders ++
            [⟨n, st.orderDate, st.customerId, totalPrice st.tempOrderProducts⟩])
          (rows s.file.tblorder_products ++ st.tempOrderProducts.map (lineRow n)) ∧
        ∀ o ∈ rows s.file.tblorders, o.order_number < n) := by
  unfold commitOrder
  have h1 := executeQuery_spec Query.select1 s
  cases hq : executeQuery Query.select1 s with
  | mk r1 s1 =>
    rw [hq] at h1
    cases r1 with
    | error err => exact ⟨h1.ran, fun _ _ => h1.failed err rfl, by simp⟩
    | ok v =>
      simp only
      have h1r := h1.ran
      have h1g := h1.grown
      simp only at h1r h1g
      generalize newEvents s s1 = e1 at h1r
      have h2 := executeUpdate_spec
        (Statement.insertOrder st.orderDate st.customerId (totalPrice st.tempOrderProducts)) s1
      cases hu : executeUpdate
        (Statement.insertOrder st.orderDate st.customerId (totalPrice st.tempOrderProducts)) s1 with
      | mk r2 s2 =>
        rw [hu] at h2
        have h2r := h2.ran
        simp only at h2r
        cases r2 with
        | error err =>
          simp only
          have hran := h1r.append h2r
          rw [hran.newEvents_eq]
          refine ⟨hran, ?_, by simp⟩
          intro _ _
          obtain ⟨ev, hev, hok⟩ := (h2.eventsErr err rfl).1
          exact ⟨ev, List.mem_append.2 (Or.inl hev), hok⟩
        | ok n =>
          simp only
          obtain ⟨t, c, hg, hc, hrun⟩ := h2.effectOk n rfl
          simp only at hc hrun
          generalize newEvents s1 s2 = e2 at h2r
          have h3 := executeTransaction_spec (lineInserts n st.tempOrderProducts) s2
          cases ht : executeTransaction (lineInserts n st.tempOrderProducts) s2 with
          | mk r3 s3 =>
            rw [ht] at h3
            have h3r := h3.ran
            simp only at h3r
            have hran := (h1r.append h2r).append h3r
            cases r3 with
            | error err =>
              simp only
              rw [hran.newEvents_eq]
              refine ⟨hran, ?_, by simp⟩
              intro _ _
              obtain ⟨ev, hev, hok⟩ := h3.failed err rfl
              exact ⟨ev, List.mem_append.2 (Or.inl hev), hok⟩
            | ok u =>
              simp only
              rw [hran.newEvents_eq]
              refine ⟨hran, by simp, ?_⟩
              intro n' hn'
              simp only [Except.ok.injEq] at hn'
              subst hn'
              obtain ⟨sa, sb, c', hga, hca, hre, hfile⟩ := h3.effectOk rfl
              simp only at hfile
              obtain ⟨hins, hfresh⟩ := insertOrder_run hrun
              have hl := runEach_lineInserts n st.tempOrderProducts sa sb c' hca hre
              rw [← hfile] at hl
              -- s.file ~ s1.file ~ t --insert--> s2.file ~ sa.file --lines--> s3.file
              have e1 := (h1g.andThen hg).rows_eq
              have e2 := hga.rows_eq
              obtain ⟨i1, i2, i3, i4, i5⟩ := hins
              obtain ⟨l1, l2, l3, l4, l5⟩ := hl
              refine ⟨⟨?_, ?_, ?_, ?_, ?_⟩, ?_⟩
              · rw [l1, e2.1, i1, e1.1]
              · rw [l2, e2.2.1, i2, e1.2.1]
              · rw [l3, e2.2.2.1, i3, e1.2.2.1]
              · rw [l4, e2.2.2.2.1, i4, e1.2.2.2.1]
              · rw [l5, e2.2.2.2.2, i5, e1.2.2.2.2]
              · intro o ho
                rw [← e1.2.2.2.1] at ho
                exact hfresh o ho

theorem Reads.nothing (s : Sys) : Reads s s := ⟨⟨[], Ran.nil s⟩, Tables.Grown.same _, id⟩

theorem Reads.chain {a b c : Sys} (h1 : Reads a b) (h2 : Reads b c) : Reads a c := by
  obtain ⟨⟨e1, r1⟩, g1, c1⟩ := h1
  obtain ⟨⟨e2, r2⟩, g2, c2⟩ := h2
  exact ⟨⟨_, r1.append r2⟩, g1.andThen g2, fun h => c2 (c1 h)⟩

theorem Touch.noTxn {s s' : Sys} {evs : List Event} (h : Touch s s' evs) (hc : s.NoTxn) :
    s'.NoTxn := by
  intro c hc'
  rcases h.connSome c hc' with h1 | ⟨-, h2⟩
  · exact hc c h1
  · rw [h2]

theorem executeQuery_reads {α : Type} (q : Query α) (s : Sys) : Reads s (executeQuery q s).2 :=
  ⟨⟨_, (executeQuery_spec q s).ran⟩, (executeQuery_spec q s).grown,
    (executeQuery_spec q s).toTouch.noTxn⟩

theorem loadInitialData_reads (st : State) (s : Sys) : Reads s (loadInitialData st s).2.1 := by
  unfold loadInitialData
  split
  · exact Reads.nothing s
  · have h1 := executeQuery_reads Query.customersByName s
    cases hq1 : executeQuery Query.customersByName s with
    | mk r1 s1 =>
      rw [hq1] at h1
      cases r1 with
      | error err => exact h1
      | ok v1 =>
        simp only
        have h2 := h1.chain (executeQuery_reads Query.productsByName s1)
        cases hq2 : executeQuery Query.productsByName s1 with
        | mk r2 s2 =>
          rw [hq2] at h2
          cases r2 with
          | error err => exact h2
          | ok v2 =>
            simp only
            have h3 := h2.chain (executeQuery_reads Query.ordersDesc s2)
            cases hq3 : executeQuery Query.ordersDesc s2 with
            | mk r3 s3 =>
              rw [hq3] at h3
              cases r3 with
              | error err => exact h3
              | ok v3 =>
                simp only
                have h4 := h3.chain (executeQuery_reads Query.orderNumbersDesc s3)
                cases hq4 : executeQuery Query.orderNumbersDesc s3 with
                | mk r4 s4 =>
                  rw [hq4] at h4
                  cases r4 with
                  | error err => exact h4
                  | ok v4 => exact h4

theorem loadInitialData_alerts (st : State) (s : Sys) :
    ("Error", "Failed to add order. Please try again.") ∉ (loadInitialData st s).2.2 := by
  unfold loadInitialData
  split
  · simp
  · split
    · simp
    · split
      · simp
      · split
        · simp
        · split
          · simp
          · simp

theorem validateInputs_alerts (st : State) (h : (validateInputs st).1 = false) :
    (validateInputs st).2 ≠ [] ∧
      ("Error", "Failed to add order. Please try again.") ∉ (validateInputs st).2 := by
  unfold validateInputs at h ⊢
  split
  · simp
  · split
    · simp
    · split
      · simp
      · split
        · simp
        · rename_i h1 h2 h3 h4
          simp [h1, h2, h3, h4] at h

/-- What `handleAddOrder` does, by cases. -/
theorem handleAddOrder_cases (st : State) (s : Sys) :
    ((handleAddOrder st s).2.1 = s ∧
        ((validateInputs st).1 = false ∨ st.tempOrderProducts = []) ∧
        (handleAddOrder st s).2.2 ≠ [] ∧
        ("Error", "Failed to add order. Please try again.") ∉ (handleAddOrder st s).2.2) ∨
      ((validateInputs st).1 = true ∧ st.tempOrderProducts ≠ [] ∧
        ∃ err, (commitOrder st s).1 = .error err ∧
          (handleAddOrder st s).2.1 = (commitOrder st s).2 ∧
          (handleAddOrder st s).2.2 = [("Error", "Failed to add order. Please try again.")]) ∨
      ((validateInputs st).1 = true ∧ st.tempOrderProducts ≠ [] ∧
        ∃ n, (commitOrder st s).1 = .ok n ∧
          Reads (commitOrder st s).2 (handleAddOrder st s).2.1 ∧
          ("Error", "Failed to add order. Please try again.") ∉ (handleAddOrder st s).2.2) := by
  unfold handleAddOrder
  cases hv : (validateInputs st).1 with
  | false =>
    have ha := validateInputs_alerts st hv
    refine Or.inl ⟨by simp, Or.inl rfl, ?_, ?_⟩
    · simpa using ha.1
    · simpa using ha.2
  | true =>
    simp only [Bool.not_true, Bool.false_eq_true, if_false]
    by_cases hl : st.tempOrderProducts.length = 0
    · simp only [hl, if_true]
      refine Or.inl ⟨trivial, Or.inr (List.length_eq_zero.1 hl), by simp, by simp⟩
    · simp only [hl, if_false]
      have hne : st.tempOrderProducts ≠ [] := fun h => hl (by simp [h])
      cases hc : commitOrder st s with
      | mk r s1 =>
        cases r with
        | error err => exact Or.inr (Or.inl ⟨trivial, hne, err, rfl, rfl, rfl⟩)
        | ok n =>
          refine Or.inr (Or.inr ⟨trivial, hne, n, rfl, ?_, ?_⟩)
          · simp only
            have := loadInitialData_reads (resetState { st with isLoading := true }) s1
            cases hld : loadInitialData (resetState { st with isLoading := true }) s1 with
            | mk a b =>
              cases b with
              | mk b1 b2 =>
                rw [hld] at this
                exact this
          · simp only
            have := loadInitialData_alerts (resetState { st with isLoading := true }) s1
            cases hld : loadInitialData (resetState { st with isLoading := true }) s1 with
            | mk a b =>
              cases b with
              | mk b1 b2 =>
                rw [hld] at this
                exact this

/-- A call of `commitOrder` that throws has left the store as it was, or has inserted the
header without the line items being committed; one that returns leaves no transaction open. -/
theorem commitOrder_whole (st : State) (s : Sys) (hc : s.NoTxn) :
    (∀ err, (commitOrder st s).1 = .error err →
        (s.file.Grown (commitOrder st s).2.file ∧ (commitOrder st s).2.NoTxn) ∨
        ((⟨.run "INSERT INTO tblorders (date, customer_id, total_price) VALUES (?, ?, ?);",
            true⟩ : Event) ∈ newEvents s (commitOrder st s).2 ∧
          (⟨.exec .commit, true⟩ : Event) ∉ newEvents s (commitOrder st s).2)) ∧
      (∀ n, (commitOrder st s).1 = .ok n → (commitOrder st s).2.NoTxn) := by
  unfold commitOrder
  have h1 := executeQuery_spec Query.select1 s
  cases hq : executeQuery Query.select1 s with
  | mk r1 s1 =>
    rw [hq] at h1
    cases r1 with
    | error err => exact ⟨fun _ _ => Or.inl ⟨h1.grown, h1.toTouch.noTxn hc⟩, by simp⟩
    | ok v =>
      simp only
      have h1r := h1.ran
      have h1g := h1.grown
      have h1c := h1.noCommit
      have hc1 := h1.toTouch.noTxn hc
      simp only at h1r h1g h1c hc1
      generalize newEvents s s1 = e1 at h1r h1c
      have h2 := executeUpdate_spec
        (Statement.insertOrder st.orderDate st.customerId (totalPrice st.tempOrderProducts)) s1
      cases hu : executeUpdate
        (Statement.insertOrder st.orderDate st.customerId (totalPrice st.tempOrderProducts)) s1 with
      | mk r2 s2 =>
        rw [hu] at h2
        have h2r := h2.ran
        have hc2 := h2.toTouch.noTxn hc1
        simp only at h2r hc2
        cases r2 with
        | error err =>
          simp only
          exact ⟨fun _ _ => Or.inl ⟨h1g.andThen (h2.effectErr err rfl), hc2⟩, by simp⟩
        | ok n =>
          simp only
          obtain ⟨e0, he0, -⟩ := h2.eventsOk n rfl
          have h2c := h2.noCommit
          simp only at he0 h2c
          generalize newEvents s1 s2 = e2 at h2r he0 h2c
          have h3 := executeTransaction_spec (lineInserts n st.tempOrderProducts) s2
          cases ht : executeTransaction (lineInserts n st.tempOrderProducts) s2 with
          | mk r3 s3 =>
            rw [ht] at h3
            have h3r := h3.ran
            simp only at h3r
            have hran := (h1r.append h2r).append h3r
            cases r3 with
            | error err =>
              simp only
              rw [hran.newEvents_eq]
              refine ⟨fun _ _ => Or.inr ⟨?_, ?_⟩, by simp⟩
              · rw [he0]
                simp [Statement.insertOrder]
              · intro hm
                rcases List.mem_append.1 hm with h | h
                · have := h3.committed h
                  cases this
                · rcases List.mem_append.1 h with h | h
                  · exact absurd rfl (h2c _ h)
                  · exact absurd rfl (h1c _ h)
            | ok u =>
              simp only
              exact ⟨by simp, fun _ _ => h3.closedOk rfl⟩

theorem loadOrders_reads (st : SummaryScreen.State) (s : Sys) :
    Reads s (SummaryScreen.loadOrders st s).2 := by
  unfold SummaryScreen.loadOrders
  have h := executeQuery_reads Query.orderSummaries s
  cases hq : executeQuery Query.orderSummaries s with
  | mk r s1 =>
    rw [hq] at h
    cases r <;> exact h

/-- What `handleDeleteOrder` does to the store, by cases: nothing beyond creating missing
tables (the second `DELETE` not having succeeded), or a failure after the first `DELETE`, or
both deletes done. -/
theorem handleDeleteOrder_cases (n : Nat) (confirmed : Bool) (st : SummaryScreen.State)
    (s : Sys) :
    (∃ evs, Ran s (SummaryScreen.handleDeleteOrder n confirmed st s).2.1 evs) ∧
    ((s.file.Grown (SummaryScreen.handleDeleteOrder n confirmed st s).2.1.file ∧
        ⟨.run (Statement.deleteOrder n).sql, true⟩ ∉
          newEvents s (SummaryScreen.handleDeleteOrder n confirmed st s).2.1) ∨
      ((∃ ev ∈ newEvents s (SummaryScreen.handleDeleteOrder n confirmed st s).2.1,
          ev.ok = false) ∧
        ⟨.run (Statement.deleteOrder n).sql, true⟩ ∉
          newEvents s (SummaryScreen.handleDeleteOrder n confirmed st s).2.1) ∨
      s.file.OrdersSet (SummaryScreen.handleDeleteOrder n confirmed st s).2.1.file
        ((rows s.file.tblorders).filter (fun o => o.order_number != n))
        ((rows s.file.tblorder_products).filter (fun l => l.order_number != n))) := by
  unfold SummaryScreen.handleDeleteOrder
  cases confirmed with
  | false =>
    simp only [Bool.not_false, if_true]
    exact ⟨⟨[], Ran.nil s⟩, Or.inl ⟨Tables.Grown.same _, by simp [newEvents_self]⟩⟩
  | true =>
    simp only [Bool.not_true, Bool.false_eq_true, if_false]
    have h1 := executeUpdate_spec (Statement.deleteOrderProducts n) s
    cases hu1 : executeUpdate (Statement.deleteOrderProducts n) s with
    | mk r1 s1 =>
      rw [hu1] at h1
      cases r1 with
      | error err =>
        refine ⟨⟨_, h1.ran⟩, Or.inl ⟨h1.effectErr err rfl, ?_⟩⟩
        intro hm
        exact absurd rfl ((h1.eventsErr err rfl).2 _ hm rfl _)
      | ok n1 =>
        simp only
        have h1r := h1.ran
        obtain ⟨e0, he0, hn0⟩ := h1.eventsOk n1 rfl
        obtain ⟨t1, c1, hg1, hc1, hrun1⟩ := h1.effectOk n1 rfl
        simp only at h1r he0 hc1 hrun1
        generalize newEvents s s1 = e1 at h1r he0
        have h2 := executeUpdate_spec (Statement.deleteOrder n) s1
        cases hu2 : executeUpdate (Statement.deleteOrder n) s1 with
        | mk r2 s2 =>
          rw [hu2] at h2
          have h2r := h2.ran
          simp only at h2r
          cases r2 with
          | error err =>
            simp only
            have hran := h1r.append h2r
            rw [hran.newEvents_eq]
            refine ⟨⟨_, hran⟩, Or.inr (Or.inl ⟨?_, ?_⟩)⟩
            · obtain ⟨ev, hev, hok⟩ := (h2.eventsErr err rfl).1
              exact ⟨ev, List.mem_append.2 (Or.inl hev), hok⟩
            · intro hm
              rcases List.mem_append.1 hm with h | h
              · exact absurd rfl ((h2.eventsErr err rfl).2 _ h rfl _)
              · rw [he0] at h
                rcases List.mem_cons.1 h with h | h
                · have : (Statement.deleteOrder n).sql = (Statement.deleteOrderProducts n).sql := by
                    simpa using h
                  revert this
                  simp [Statement.deleteOrder, Statement.deleteOrderProducts]
                · exact absurd rfl (hn0 _ h _)
          | ok n2 =>
            simp only
            obtain ⟨t2, c2, hg2, hc2, hrun2⟩ := h2.effectOk n2 rfl
            simp only at hc2 hrun2
            have h3 := loadOrders_reads st s2
            have hfin : ∀ s3, Reads s2 s3 →
                (∃ evs, Ran s s3 evs) ∧
                s.file.OrdersSet s3.file
                  ((rows s.file.tblorders).filter (fun o => o.order_number != n))
                  ((rows s.file.tblorder_products).filter (fun l => l.order_number != n)) := by
              intro s3 hr3
              obtain ⟨⟨e3, hr3e⟩, hg3, -⟩ := hr3
              refine ⟨⟨_, (h1r.append h2r).append hr3e⟩, ?_⟩
              have d1 := deleteOrderProducts_run hrun1
              have d2 := deleteOrder_run hrun2
              obtain ⟨a1, a2, a3, a4, a5⟩ := hg1.rows_eq
              obtain ⟨b1, b2, b3, b4, b5⟩ := d1
              obtain ⟨c1, c2, c3, c4, c5⟩ := hg2.rows_eq
              obtain ⟨f1, f2, f3, f4, f5⟩ := d2
              obtain ⟨g1, g2, g3, g4, g5⟩ := hg3.rows_eq
              refine ⟨?_, ?_, ?_, ?_, ?_⟩
              · rw [g1, f1, c1, b1, a1]
              · rw [g2, f2, c2, b2, a2]
              · rw [g3, f3, c3, b3, a3]
              · rw [g4, f4, c4, b4, a4]
              · rw [g5, f5, c5, b5, a5]
            cases hl : SummaryScreen.loadOrders st s2 with
            | mk r3 s3 =>
              rw [hl] at h3
              have := hfin s3 h3
              cases r3 with
              | error err => exact ⟨this.1, Or.inr (Or.inr this.2)⟩
              | ok st1 => exact ⟨this.1, Or.inr (Or.inr this.2)⟩

/-- What `handleDeleteOrder` does when no transaction is open: it opens none, and it leaves
the store as it was, or stops after the first `DELETE`, the header being kept, or has done
both deletes. -/
theorem handleDeleteOrder_whole (n : Nat) (confirmed : Bool) (st : SummaryScreen.State)
    (s : Sys) (hc : s.NoTxn) :
    (SummaryScreen.handleDeleteOrder n confirmed st s).2.1.NoTxn ∧
    (s.file.Grown (SummaryScreen.handleDeleteOrder n confirmed st s).2.1.file ∨
      ((⟨.run "DELETE FROM tblorder_products WHERE order_number = ?;", true⟩ : Event) ∈
          newEvents s (SummaryScreen.handleDeleteOrder n confirmed st s).2.1 ∧
        (⟨.run "DELETE FROM tblorders WHERE order_number = ?;", true⟩ : Event) ∉
          newEvents s (SummaryScreen.handleDeleteOrder n confirmed st s).2.1 ∧
        rows (SummaryScreen.handleDeleteOrder n confirmed st s).2.1.file.tblorders =
          rows s.file.tblorders) ∨
      s.file.OrdersSet (SummaryScreen.handleDeleteOrder n confirmed st s).2.1.file
        ((rows s.file.tblorders).filter (fun o => o.order_number != n))
        ((rows s.file.tblorder_products).filter (fun l => l.order_number != n))) := by
  have hcases := (handleDeleteOrder_cases n confirmed st s).2
  unfold SummaryScreen.handleDeleteOrder at hcases ⊢
  cases confirmed with
  | false =>
    simp only [Bool.not_false, if_true]
    exact ⟨hc, Or.inl (Tables.Grown.same _)⟩
  | true =>
    simp only [Bool.not_true, Bool.false_eq_true, if_false] at hcases ⊢
    have h1 := executeUpdate_spec (Statement.deleteOrderProducts n) s
    cases hu1 : executeUpdate (Statement.deleteOrderProducts n) s with
    | mk r1 s1 =>
      rw [hu1] at h1 hcases
      have hc1 := h1.toTouch.noTxn hc
      cases r1 with
      | error err => exact ⟨hc1, Or.inl (h1.effectErr err rfl)⟩
      | ok n1 =>
        simp only at hcases ⊢
        have h1r := h1.ran
        obtain ⟨e0, he0, hn0⟩ := h1.eventsOk n1 rfl
        obtain ⟨t1, c1, hg1, -, hrun1⟩ := h1.effectOk n1 rfl
        simp only at h1r he0 hc1 hrun1
        generalize newEvents s s1 = e1 at h1r he0
        have h2 := executeUpdate_spec (Statement.deleteOrder n) s1
        cases hu2 : executeUpdate (Statement.deleteOrder n) s1 with
        | mk r2 s2 =>
          rw [hu2] at h2 hcases
          have h2r := h2.ran
          have hc2 := h2.toTouch.noTxn hc1
          simp only at h2r hc2
          cases r2 with
          | error err =>
            simp only at hcases ⊢
            have hran := h1r.append h2r
            rw [hran.newEvents_eq] at hcases ⊢
            refine ⟨hc2, Or.inr (Or.inl ⟨?_, ?_, ?_⟩)⟩
            rotate_left 2
            · have d1 := (deleteOrderProducts_run hrun1).2.2.2.1
              rw [(h2.effectErr err rfl).rows_eq.2.2.2.1, d1, hg1.rows_eq.2.2.2.1]
            · rw [he0]
              simp [Statement.deleteOrderProducts]
            · intro hm
              rcases List.mem_append.1 hm with h | h
              · exact absurd rfl ((h2.eventsErr err rfl).2 _ h rfl _)
              · rw [he0] at h
                rcases List.mem_cons.1 h with h | h
                · revert h
                  simp [Statement.deleteOrderProducts]
                · exact absurd rfl (hn0 _ h _)
          | ok n2 =>
            simp only at hcases ⊢
            have h3 := loadOrders_reads st s2
            cases hl : SummaryScreen.loadOrders st s2 with
            | mk r3 s3 =>
              rw [hl] at h3 hcases
              have hc3 := h3.2.2 hc2
              have hset : s.file.OrdersSet s3.file
                  ((rows s.file.tblorders).filter (fun o => o.order_number != n))
                  ((rows s.file.tblorder_products).filter (fun l => l.order_number != n)) := by
                obtain ⟨d1, d2⟩ := h2.eventsOk n2 rfl
                have hin : (⟨.run (Statement.deleteOrder n).sql, true⟩ : Event) ∈
                    newEvents s s3 := by
                  obtain ⟨⟨e3, hr3⟩, -, -⟩ := h3
                  rw [((h1r.append h2r).append hr3).newEvents_eq, d2.1]
                  simp
                cases r3 with
                | error err =>
                  simp only at hcases
                  rcases hcases with ⟨-, hno⟩ | ⟨-, hno⟩ | hset
                  · exact absurd hin hno
                  · exact absurd hin hno
                  · exact hset
                | ok st1 =>
                  simp only at hcases
                  rcases hcases with ⟨-, hno⟩ | ⟨-, hno⟩ | hset
                  · exact absurd hin hno
                  · exact absurd hin hno
                  · exact hset
              cases r3 with
              | error err => exact ⟨hc3, Or.inr (Or.inr hset)⟩
              | ok st1 => exact ⟨hc3, Or.inr (Or.inr hset)⟩

theorem deleteProduct_refused {item : ProductRow} {t : Tables} {ps : List ProductRow}
    {ls : List OrderProductRow} {l : OrderProductRow}
    (hps : t.tblproducts = some ps) (hls : t.tblorder_products = some ls)
    (hitem : item ∈ ps) (hl : l ∈ ls) (href : l.product_number = item.product_number) :
    (Statement.deleteProduct item.product_number).run true t
      = .error ⟨"FOREIGN KEY constraint failed"⟩ := by
  unfold Statement.deleteProduct
  simp only [hps]
  have h1 : ps.any (fun p => p.product_number == item.product_number) = true :=
    List.any_eq_true.2 ⟨item, hitem, by simp⟩
  have h2 : (rows t.tblorder_products).any (fun l => l.product_number == item.product_number)
      = true := by
    rw [hls]
    exact List.any_eq_true.2 ⟨l, hl, by simp [href]⟩
  simp [h1, h2]

theorem handleDelete_refused (item : ProductRow) (st : ProductsScreen.State) (s : Sys)
    (ps : List ProductRow) (ls : List OrderProductRow) (l : OrderProductRow)
    (hfk : ∀ c, s.db = some c → c.foreign_keys = true)
    (hps : s.file.tblproducts = some ps) (hls : s.file.tblorder_products = some ls)
    (hitem : item ∈ ps) (hl : l ∈ ls) (href : l.product_number = item.product_number) :
    (ProductsScreen.handleDelete item true st s).2.2 = [("Error", "Failed to delete product.")] ∧
      s.file.Grown (ProductsScreen.handleDelete item true st s).2.1.file := by
  unfold ProductsScreen.handleDelete
  simp only [Bool.not_true, Bool.false_eq_true, if_false]
  have h1 := executeUpdate_spec (Statement.deleteProduct item.product_number) s
  cases hu : executeUpdate (Statement.deleteProduct item.product_number) s with
  | mk r s1 =>
    rw [hu] at h1
    cases r with
    | error err => exact ⟨rfl, h1.effectErr err rfl⟩
    | ok n =>
      exfalso
      obtain ⟨t, c, hg, hc, hrun⟩ := h1.effectOk n rfl
      simp only at hc hrun
      have hcfk : c.foreign_keys = true := by
        rcases h1.connSome c hc with h | ⟨-, h⟩
        · exact hfk c h
        · rw [h]
      rw [hcfk, deleteProduct_refused (hg.products hps) (hg.order_products hls) hitem hl href]
        at hrun
      cases hrun

theorem authenticateUser_rejects (username password : String) (s : Sys) (T : List UserRow)
    (hT : s.file.tblusers = some T)
    (hno : ∀ r ∈ T, ¬ (r.username = username ∧ r.password = password)) :
    (LoginScreen.authenticateUser username password s).2.file.tblusers = some T ∧
      ((LoginScreen.authenticateUser username password s).1 = .ok none ∨
        ∃ err, (LoginScreen.authenticateUser username password s).1 = .error err ∧
          ∃ ev ∈ newEvents s (LoginScreen.authenticateUser username password s).2,
            ev.ok = false) ∧
      (s.Quiet → (LoginScreen.authenticateUser username password s).1 = .ok none) := by
  unfold LoginScreen.authenticateUser
  have h1 := initializeTables_spec s
  cases hi : initializeTables s with
  | mk r1 s1 =>
    rw [hi] at h1
    cases r1 with
    | error err =>
      exact ⟨h1.grown.users hT, Or.inr ⟨err, rfl, (h1.failed err rfl).1⟩,
        fun hq => absurd hq (h1.failed err rfl).2⟩
    | ok u =>
      simp only
      have h1r := h1.ran
      have h1g := h1.grown
      simp only at h1r h1g
      generalize newEvents s s1 = e1 at h1r
      have h2 := executeQuery_spec (Query.userByCredentials username password) s1
      cases hq : executeQuery (Query.userByCredentials username password) s1 with
      | mk r2 s2 =>
        rw [hq] at h2
        have h2r := h2.ran
        have hT2 : s2.file.tblusers = some T := (h1g.andThen h2.grown).users hT
        have heval : (Query.userByCredentials username password).eval s2.file = .ok [] := by
          unfold Query.userByCredentials
          simp only [hT2]
          congr 1
          apply List.filter_eq_nil_iff.2
          intro r hr
          have := hno r hr
          simpa using this
        simp only at h2r
        have hran := h1r.append h2r
        cases r2 with
        | error err =>
          simp only
          rw [hran.newEvents_eq]
          refine ⟨hT2, Or.inr ⟨err, rfl, ?_⟩, ?_⟩
          · obtain ⟨ev, hev, hok⟩ := h2.failed err rfl
            exact ⟨ev, List.mem_append.2 (Or.inl hev), hok⟩
          · intro hq'
            have := h2.quiet (h1r.quiet hq')
            rw [heval] at this
            cases this
        | ok result =>
          have hv := h2.value result rfl
          simp only at hv
          rw [heval] at hv
          simp only [Except.ok.injEq] at hv
          subst hv
          simp [hT2]

theorem validateInputs_alert_shape (st : State) (h : (validateInputs st).1 = false) :
    ∃ msg, (validateInputs st).2 = [("Error", msg)] := by
  unfold validateInputs at h ⊢
  split
  · exact ⟨_, rfl⟩
  · split
    · exact ⟨_, rfl⟩
    · split
      · exact ⟨_, rfl⟩
      · split
        · exact ⟨_, rfl⟩
        · rename_i h1 h2 h3 h4
          simp [h1, h2, h3, h4] at h

theorem find_of_nodup_keys (ps : List ProductRow) (p : ProductRow) (hp : p ∈ ps)
    (hkeys : (ps.map (fun x => x.product_number)).Nodup) :
    ps.find? (fun x => x.product_number == p.product_number) = some p := by
  induction ps with
  | nil => cases hp
  | cons a as ih =>
    simp only [List.map_cons, List.nodup_cons] at hkeys
    rcases List.mem_cons.1 hp with rfl | hmem
    · simp
    · have hne : a.product_number ≠ p.product_number := by
        intro h
        exact hkeys.1 (h ▸ List.mem_map_of_mem _ hmem)
      simp [List.find?_cons, hne, ih hmem hkeys.2]

theorem ready_noTxn (t : Tables) (faults : List (Option String)) : (ready t faults).NoTxn := by
  intro c hc
  simp only [ready, Option.some.injEq] at hc
  rw [← hc]

theorem EveryOrderHasLine.of_rows {t t' : Tables} (h : EveryOrderHasLine t)
    (ho : rows t'.tblorders = rows t.tblorders)
    (hl : rows t'.tblorder_products = rows t.tblorder_products) : EveryOrderHasLine t' := by
  intro o hmem
  rw [ho] at hmem
  obtain ⟨l, hlm, hnum⟩ := h o hmem
  exact ⟨l, by rw [hl]; exact hlm, hnum⟩

/-! ### The schema and the closing of the connection -/

theorem execEach_outcome (s : Sys) (c : Conn) (hdb : s.db = some c) :
    ((execEach createTables s).1 = .ok () ∧ Clean s (execEach createTables s).2 ∧
       (∀ e ∈ createTables, ⟨.exec e, true⟩ ∈ newEvents s (execEach createTables s).2) ∧
       (execEach createTables s).2.file.Complete ∧
       (execEach createTables s).2.isInitialized = s.isInitialized) ∨
    (∃ msg, (execEach createTables s).1 = .error ⟨msg⟩ ∧ some msg ∈ s.faults) := by
  rcases s with ⟨db, ini, file, faults, log⟩
  simp only at hdb
  subst hdb
  rcases faults with _ | ⟨_ | m1, _ | ⟨_ | m2, _ | ⟨_ | m3, _ | ⟨_ | m4, _ | ⟨_ | m5, fs⟩⟩⟩⟩⟩ <;>
  simp [execEach, createTables, execAsync, Sys.fault, Sys.step,
    Exec.apply, newEvents, Clean, Tables.Complete, Nat.add_assoc]

theorem getDatabase_outcome (s : Sys) (hdb : s.db = none) :
    ((getDatabase s).1 = .ok () ∧ Clean s (getDatabase s).2 ∧
       (getDatabase s).2.isInitialized = true ∧ (getDatabase s).2.db = some ⟨true, none⟩) ∨
    (∃ msg, (getDatabase s).1 = .error ⟨msg⟩ ∧ some msg ∈ s.faults ∧
       (getDatabase s).2.isInitialized = false ∧ (getDatabase s).2.db = none) := by
  rcases s with ⟨db, ini, file, faults, log⟩
  simp only at hdb
  subst hdb
  rcases faults with _ | ⟨_ | m1, _ | ⟨_ | m2, fs⟩⟩ <;>
  simp [getDatabase, openDatabaseAsync, execAsync, Sys.fault, Sys.step,
    Exec.apply, newEvents, Clean, Nat.add_assoc]

theorem Ran.mem_faults {s s' : Sys} {evs : List Event} (h : Ran s s' evs)
    {f : Option String} (hf : f ∈ s'.faults) : f ∈ s.faults := by
  rw [h.faults] at hf
  exact List.mem_of_mem_drop hf

theorem Ran.newEvents_append {a b c : Sys} {e1 e2 : List Event} (h1 : Ran a b e1)
    (h2 : Ran b c e2) : newEvents a c = newEvents b c ++ newEvents a b := by
  rw [(h1.append h2).newEvents_eq, h1.newEvents_eq, h2.newEvents_eq]

theorem initializeTables_outcome (s : Sys) (hi : s.isInitialized = false) :
    ((initializeTables s).1 = .ok () ∧ Clean s (initializeTables s).2 ∧
       (∀ e ∈ createTables, ⟨.exec e, true⟩ ∈ newEvents s (initializeTables s).2) ∧
       (initializeTables s).2.file.Complete ∧
       (s.db = none → (initializeTables s).2.isInitialized = true)) ∨
    (∃ msg, (initializeTables s).1 = .error ⟨msg⟩ ∧ some msg ∈ s.faults ∧
       (initializeTables s).2.isInitialized = false) := by
  have hg := getDatabase_spec s
  have hd := getDatabase_done s
  have hgo : s.db = none → _ := getDatabase_outcome s
  have hgs : ∀ c, s.db = some c → getDatabase s = (.ok (), s) := by
    intro c hc; simp [getDatabase, hc]
  unfold initializeTables
  simp only [hi, Bool.not_false, if_true]
  cases h : getDatabase s with
  | mk r s1 =>
    rw [h] at hg hd hgo
    cases r with
    | error err =>
      right
      cases hdb : s.db with
      | some c => rw [hgs c hdb] at h; simp at h
      | none =>
        rcases hgo hdb with ⟨hok, _⟩ | ⟨msg, hm, hf, _⟩
        · simp at hok
        · simp only at hm
          exact ⟨msg, by simp [hm], hf, rfl⟩
    | ok u =>
      have hs1 : s1.db.isSome = true := hd rfl
      obtain ⟨c, hc⟩ := Option.isSome_iff_exists.1 hs1
      have hn : s1.db.isNone = false := by simp [hc]
      simp only [hn, Bool.false_eq_true, if_false]
      have he := execEach_spec createTables (fun e he => he) s1 hs1
      have hclean1 : Clean s s1 := by
        cases hdb : s.db with
        | some c0 =>
          rw [hgs c0 hdb] at h
          simp at h
          subst h
          intro ev hev
          simp [newEvents_self] at hev
        | none =>
          rcases hgo hdb with ⟨_, hcl, _⟩ | ⟨msg, hm, _⟩
          · exact hcl
          · simp at hm
      have hflag1 : s.db = none → s1.isInitialized = true := by
        intro hdb
        rcases hgo hdb with ⟨_, _, hfl, _⟩ | ⟨msg, hm, _⟩
        · exact hfl
        · simp at hm
      rcases execEach_outcome s1 c hc with ⟨hok, hcl, hev, hcomp, hkeep⟩ | ⟨msg, hm, hf⟩
      · left
        cases h' : execEach createTables s1 with
        | mk r2 s2 =>
          rw [h'] at hok hcl hev hcomp he hkeep
          simp only at hok
          subst hok
          simp only
          refine ⟨trivial, ?_, ?_, hcomp, fun hdb => hkeep.trans (hflag1 hdb)⟩
          · intro ev hin
            rw [Ran.newEvents_append hg.ran he.ran] at hin
            rcases List.mem_append.1 hin with h1 | h1
            · exact hcl ev h1
            · exact hclean1 ev h1
          · intro e hin
            rw [Ran.newEvents_append hg.ran he.ran]
            exact List.mem_append.2 (Or.inl (hev e hin))
      · right
        cases h' : execEach createTables s1 with
        | mk r2 s2 =>
          rw [h'] at hm
          simp only at hm
          subst hm
          exact ⟨msg, rfl, hg.ran.mem_faults hf, rfl⟩

theorem Tables.Grown.of_complete {t t' : Tables} (h : t.Grown t') (hc : t.Complete) : t' = t := by
  rcases t with ⟨u, p, c, o, l, su, so⟩
  rcases t' with ⟨u', p', c', o', l', su', so'⟩
  simp only [Tables.Grown, Tables.Complete] at h hc
  obtain ⟨h1, h2, h3, h4, h5, h6, h7⟩ := h
  obtain ⟨c1, c2, c3, c4, c5⟩ := hc
  have e1 : u' = u := by
    rcases h1 with h | ⟨h, _⟩
    · exact h
    · rw [h] at c1; simp at c1
  have e2 : p' = p := by
    rcases h2 with h | ⟨h, _⟩
    · exact h
    · rw [h] at c2; simp at c2
  have e3 : c' = c := by
    rcases h3 with h | ⟨h, _⟩
    · exact h
    · rw [h] at c3; simp at c3
  have e4 : o' = o := by
    rcases h4 with h | ⟨h, _⟩
    · exact h
    · rw [h] at c4; simp at c4
  have e5 : l' = l := by
    rcases h5 with h | ⟨h, _⟩
    · exact h
    · rw [h] at c5; simp at c5
  subst e1 e2 e3 e4 e5 h6 h7
  rfl

theorem initializeTables_skip (s : Sys) (hi : s.isInitialized = true) :
    initializeTables s = (.ok (), s) := by
  simp [initializeTables, hi]

theorem initializeTables_ok_of_quiet (s : Sys) (hq : s.Quiet) : (initializeTables s).1 = .ok () := by
  have h := initializeTables_spec s
  cases hr : (initializeTables s).1 with
  | ok u => rfl
  | error err => exact absurd hq (h.failed err hr).2

theorem closeDatabase_file (s : Sys) (c : Conn) (hdb : s.db = some c) (htxn : c.txn = none) :
    (closeDatabase s).1 = .ok () ∧ (closeDatabase s).2.file = s.file ∧
      (closeDatabase s).2.db = none ∧ (closeDatabase s).2.isInitialized = false := by
  unfold closeDatabase closeAsync
  simp only [hdb, Option.isSome_some, if_true]
  cases s.fault <;> simp [Sys.step, htxn]

theorem resetLogin_run {fk : Bool} {t t' : Tables} {n : Nat}
    (h : Statement.resetLogin.run fk t = .ok (t', n)) :
    rows t'.tblusers = (rows t.tblusers).map (fun u => { u with is_logged_in := 0 }) := by
  simp only [Statement.resetLogin] at h
  cases hu : t.tblusers with
  | none => simp [hu] at h
  | some us =>
    simp [hu] at h
    rw [← h.1]
    simp [rows]

/-! ### The connections of the screens and the duplicate checks -/

theorem Sys.Quiet.afterStep {s : Sys} (hq : s.Quiet) (c : Call) (ok : Bool) :
    (s.step c ok).Quiet := by
  intro f hf
  exact hq f (List.mem_of_mem_tail hf)

theorem openRef_spec (dbRef : Option Conn) (s : Sys) :
    (openRef dbRef s).2.file = s.file ∧
      (∀ c, dbRef = some c → openRef dbRef s = (.ok c, s)) ∧
      (s.Quiet → (openRef dbRef s).2.Quiet ∧ ∃ c, (openRef dbRef s).1 = .ok c) := by
  unfold openRef
  cases dbRef with
  | some c => exact ⟨rfl, (fun c' h => by cases h; rfl), fun hq => ⟨hq, c, rfl⟩⟩
  | none =>
    simp only [openDatabaseAsync]
    cases hf : s.fault with
    | some msg =>
      refine ⟨rfl, (fun c h => by cases h), fun hq => ?_⟩
      rw [hq.fault] at hf; cases hf
    | none =>
      exact ⟨rfl, (fun c h => by cases h), fun hq => ⟨hq.afterStep .openDatabase true, _, rfl⟩⟩

theorem Conn.execAsync_create (c : Conn) (e : Exec) (he : e = .createCustomers ∨ e = .createUsers)
    (s : Sys) :
    s.file.Grown (c.execAsync e s).2.file ∧
      (∀ c1, (c.execAsync e s).1 = .ok c1 → c1 = c) ∧
      (s.Quiet → (c.execAsync e s).2.Quiet ∧ (c.execAsync e s).1 = .ok c) := by
  unfold Conn.execAsync
  cases hf : s.fault with
  | some msg =>
    refine ⟨Tables.Grown.same _, (by simp), fun hq => ?_⟩
    rw [hq.fault] at hf; cases hf
  | none =>
    rcases he with rfl | rfl
    · refine ⟨?_, (by simp [Exec.apply]),
        fun hq => ⟨hq.afterStep (.exec .createCustomers) true, by simp [Exec.apply]⟩⟩
      simp only [Exec.apply, Sys.step, Tables.Grown, rows]
      cases s.file.tblcustomers <;> simp
    · refine ⟨?_, (by simp [Exec.apply]),
        fun hq => ⟨hq.afterStep (.exec .createUsers) true, by simp [Exec.apply]⟩⟩
      simp only [Exec.apply, Sys.step, Tables.Grown, rows]
      cases s.file.tblusers <;> simp

theorem Conn.getAllAsync_spec {α : Type} (c : Conn) (q : Query α) (s : Sys) :
    (c.getAllAsync q s).2.file = s.file ∧
      (∀ v, (c.getAllAsync q s).1 = .ok v → q.eval s.file = .ok v) ∧
      (s.Quiet → (c.getAllAsync q s).2.Quiet ∧ (c.getAllAsync q s).1 = q.eval s.file) := by
  unfold Conn.getAllAsync
  cases hf : s.fault with
  | some msg =>
    refine ⟨rfl, (by simp), fun hq => ?_⟩
    rw [hq.fault] at hf; cases hf
  | none =>
    simp only
    cases hr : q.eval s.file with
    | error err => exact ⟨rfl, (by simp), fun hq => ⟨hq.afterStep (.getAll q.sql) false, rfl⟩⟩
    | ok v => exact ⟨rfl, (by simp), fun hq => ⟨hq.afterStep (.getAll q.sql) true, rfl⟩⟩

theorem Conn.runAsync_spec (c : Conn) (q : Statement) (s : Sys) :
    (∀ err, (c.runAsync q s).1 = .error err → (c.runAsync q s).2.file = s.file) ∧
      (∀ n, (c.runAsync q s).1 = .ok n → q.run c.foreign_keys s.file = .ok ((c.runAsync q s).2.file, n)) ∧
      (s.Quiet → (c.runAsync q s).2.Quiet ∧
        ∀ t n, q.run c.foreign_keys s.file = .ok (t, n) →
          (c.runAsync q s).1 = .ok n ∧ (c.runAsync q s).2.file = t) := by
  unfold Conn.runAsync
  cases hf : s.fault with
  | some msg =>
    refine ⟨fun _ _ => rfl, (by simp), fun hq => ?_⟩
    rw [hq.fault] at hf; cases hf
  | none =>
    simp only
    cases hr : q.run c.foreign_keys s.file with
    | error err =>
      exact ⟨fun _ _ => rfl, (by simp), fun hq => ⟨hq.afterStep (.run q.sql) false, by simp⟩⟩
    | ok v =>
      refine ⟨(by simp), (by simp), fun hq => ⟨hq.afterStep (.run q.sql) true, ?_⟩⟩
      intro t n h
      cases h
      exact ⟨rfl, rfl⟩

theorem products_validate_shape (parseFloat : String → JsNumber)
    (st : ProductsScreen.State)
    (h : (ProductsScreen.validateInputs parseFloat st).1 = false) :
    ∃ msg, (ProductsScreen.validateInputs parseFloat st).2 = [("Error", msg)] := by
  unfold ProductsScreen.validateInputs at h ⊢
  split_ifs at h ⊢ <;> exact ⟨_, rfl⟩

theorem customers_validate_shape (st : CustomersScreen.State)
    (h : (CustomersScreen.validateInputs st).1 = false) :
    ∃ msg, (CustomersScreen.validateInputs st).2 = [("Error", msg)] := by
  simp only [CustomersScreen.validateInputs] at h ⊢
  split_ifs at h ⊢ <;> exact ⟨_, rfl⟩

theorem register_validate_shape (st : RegisterScreen.State)
    (h : (RegisterScreen.validateInputs st).1 = false) :
    ∃ msg, (RegisterScreen.validateInputs st).2 = [("Error", msg)] := by
  unfold RegisterScreen.validateInputs at h ⊢
  split_ifs at h ⊢ <;> exact ⟨_, rfl⟩

theorem account_validate_shape (st : MyAccountScreen.State)
    (h : (MyAccountScreen.validateInputs st).1 = false) :
    ∃ msg, (MyAccountScreen.validateInputs st).2 = [("Error", msg)] := by
  unfold MyAccountScreen.validateInputs at h ⊢
  split_ifs at h ⊢ <;> exact ⟨_, rfl⟩

theorem productByNumber_found {k : String} {t : Tables} {p : ProductRow}
    (hp : p ∈ rows t.tblproducts) (hk : p.product_number = k) :
    ∃ existing, (Query.productByNumber k).eval t = .ok existing ∧ existing.length > 0 := by
  simp only [Query.productByNumber]
  cases ht : t.tblproducts with
  | none => simp [rows, ht] at hp
  | some ps =>
    simp only [rows, ht, Option.getD_some] at hp
    refine ⟨_, rfl, List.length_pos_of_mem (List.mem_filter.2 ⟨hp, by simp [hk]⟩)⟩

theorem products_create_existing (parseFloat : String → JsNumber)
    (st : ProductsScreen.State) (s : Sys) (p : ProductRow)
    (hed : isSet st.editingId = false) (hp : p ∈ rows s.file.tblproducts)
    (hkey : p.product_number = st.productNumber) :
    (∃ msg, (ProductsScreen.handleAddOrUpdate parseFloat st s).2.2 = [("Error", msg)]) ∧
      (ProductsScreen.handleAddOrUpdate parseFloat st s).1 = st ∧
      s.file.Grown (ProductsScreen.handleAddOrUpdate parseFloat st s).2.1.file ∧
      (∀ ev ∈ newEvents s (ProductsScreen.handleAddOrUpdate parseFloat st s).2.1,
        ∀ sql, ev.call ≠ .run sql) ∧
      ((ProductsScreen.validateInputs parseFloat st).1 = true → s.Quiet →
        (ProductsScreen.handleAddOrUpdate parseFloat st s).2.2 =
          [("Error", "Product number already exists.")]) := by
  unfold ProductsScreen.handleAddOrUpdate
  cases hv : (ProductsScreen.validateInputs parseFloat st).1 with
  | false =>
    obtain ⟨msg, hmsg⟩ := products_validate_shape parseFloat st hv
    simp only [Bool.not_false, if_true]
    exact ⟨⟨msg, hmsg⟩, trivial, Tables.Grown.same _, (by simp [newEvents_self]), by simp⟩
  | true =>
    simp only [Bool.not_true, Bool.false_eq_true, if_false]
    rw [hed]
    have hq := executeQuery_spec (Query.productByNumber st.productNumber) s
    split
    · rename_i h1 h2; cases h2
    · cases hx : executeQuery (Query.productByNumber st.productNumber) s with
      | mk r s1 =>
        rw [hx] at hq
        have hp1 : p ∈ rows s1.file.tblproducts := by rw [hq.grown.rows_eq.2.1]; exact hp
        obtain ⟨existing, hev, hlen⟩ := productByNumber_found hp1 hkey
        cases r with
        | error err =>
          simp only
          refine ⟨⟨_, rfl⟩, trivial, hq.grown, hq.noRun, ?_⟩
          intro _ hquiet
          have := hq.quiet hquiet
          rw [hev] at this
          cases this
        | ok found =>
          have hf := hq.value found rfl
          rw [hev] at hf
          cases hf
          simp only [hlen, if_true]
          exact ⟨⟨_, rfl⟩, trivial, hq.grown, hq.noRun, fun _ _ => trivial⟩

theorem connect_quiet (s : Sys) (hq : s.Quiet) :
    ∃ s1 c, connect s = (.ok (), s1) ∧ s1.db = some c ∧ s1.Quiet ∧ s.file.Grown s1.file := by
  obtain ⟨h0, hd⟩ := connect_spec s
  cases h : connect s with
  | mk r s1 =>
    rw [h] at h0 hd
    cases r with
    | error err => exact absurd hq (h0.failed err rfl).2
    | ok u =>
      obtain ⟨c, hc⟩ := Option.isSome_iff_exists.1 (hd rfl)
      exact ⟨s1, c, rfl, hc, h0.ran.quiet hq, h0.grown⟩

theorem executeUpdate_quiet (q : Statement) (s : Sys) (hq : s.Quiet) :
    ∃ t fk, s.file.Grown t ∧
      (∀ err, q.run fk t = .error err → (executeUpdate q s).1 = .error err) ∧
      (∀ t1 n, q.run fk t = .ok (t1, n) →
        (executeUpdate q s).1 = .ok n ∧ (executeUpdate q s).2.file = t1) := by
  obtain ⟨s1, c, hc, hdb, hq1, hg⟩ := connect_quiet s hq
  refine ⟨s1.file, c.foreign_keys, hg, ?_, ?_⟩
  · intro err he
    simp [executeUpdate, hc, runAsync, hdb, hq1.fault, he]
  · intro t1 n he
    simp [executeUpdate, hc, runAsync, hdb, hq1.fault, he]

theorem insertUser_refused {full_name email username password : String} {fk : Bool}
    {t : Tables} {u : UserRow} (hu : u ∈ rows t.tblusers) (hk : u.username = username) :
    (Statement.insertUser full_name email username password).run fk t =
      .error ⟨"UNIQUE constraint failed: tblusers.username"⟩ := by
  simp only [Statement.insertUser]
  cases ht : t.tblusers with
  | none => simp [rows, ht] at hu
  | some us =>
    simp only [rows, ht, Option.getD_some] at hu
    have : us.any (fun u => u.username == username) = true :=
      List.any_eq_true.2 ⟨u, hu, by simp [hk]⟩
    simp [this]

theorem register_create_existing (st : RegisterScreen.State) (s : Sys) (u : UserRow)
    (hu : u ∈ rows s.file.tblusers) (hkey : u.username = st.username) :
    (∃ msg, (RegisterScreen.saveData st s).2.2 = [("Error", msg)]) ∧
      (RegisterScreen.saveData st s).1 = st ∧
      s.file.Grown (RegisterScreen.saveData st s).2.1.file ∧
      (∀ ev ∈ newEvents s (RegisterScreen.saveData st s).2.1, ev.ok = true →
        ∀ sql, ev.call ≠ .run sql) ∧
      ((RegisterScreen.validateInputs st).1 = true → s.Quiet →
        (RegisterScreen.saveData st s).2.2 =
          [("Error", "Username already taken. Please choose another.")]) := by
  unfold RegisterScreen.saveData
  cases hv : (RegisterScreen.validateInputs st).1 with
  | false =>
    obtain ⟨msg, hmsg⟩ := register_validate_shape st hv
    simp only [Bool.not_false, if_true]
    exact ⟨⟨msg, hmsg⟩, trivial, Tables.Grown.same _, (by simp [newEvents_self]), by simp⟩
  | true =>
    simp only [Bool.not_true, Bool.false_eq_true, if_false]
    have hw := executeUpdate_spec
      (Statement.insertUser st.fullname st.email st.username st.password) s
    have hqu := executeUpdate_quiet
      (Statement.insertUser st.fullname st.email st.username st.password) s
    cases hx : executeUpdate
        (Statement.insertUser st.fullname st.email st.username st.password) s with
    | mk r s1 =>
      rw [hx] at hw hqu
      cases r with
      | ok n =>
        obtain ⟨t, c, hg, _, hrun⟩ := hw.effectOk n rfl
        have hu1 : u ∈ rows t.tblusers := by rw [hg.rows_eq.1]; exact hu
        rw [insertUser_refused hu1 hkey] at hrun
        cases hrun
      | error err =>
        simp only
        have hquiet : s.Quiet → err.message = "UNIQUE constraint failed: tblusers.username" := by
          intro hq
          obtain ⟨t, fk, hg, herr, _⟩ := hqu hq
          have hu1 : u ∈ rows t.tblusers := by rw [hg.rows_eq.1]; exact hu
          have := herr _ (insertUser_refused hu1 hkey)
          simp only at this
          cases this
          rfl
        split
        · refine ⟨⟨_, rfl⟩, rfl, hw.effectErr err rfl, (hw.eventsErr err rfl).2, ?_⟩
          intro _ _; rfl
        · rename_i hcond
          refine ⟨⟨_, rfl⟩, rfl, hw.effectErr err rfl, (hw.eventsErr err rfl).2, ?_⟩
          intro _ hq
          exfalso
          apply hcond
          rw [hquiet hq]
          decide!

theorem customerById_found {k : String} {t : Tables} {p : CustomerRow}
    (hp : p ∈ rows t.tblcustomers) (hk : p.customer_id = k) :
    ∃ existing, (Query.customerById k).eval t = .ok existing ∧ existing.length > 0 := by
  simp only [Query.customerById]
  cases ht : t.tblcustomers with
  | none => simp [rows, ht] at hp
  | some ps =>
    simp only [rows, ht, Option.getD_some] at hp
    refine ⟨_, rfl, List.length_pos_of_mem (List.mem_filter.2 ⟨hp, by simp [hk]⟩)⟩

theorem customers_duplicate_refused (st st' : CustomersScreen.State) (s s' : Sys)
    (out : CustomersScreen.Outcome) (p : CustomerRow)
    (hrun : CustomersScreen.handleAddOrUpdate st s = (out, st', s'))
    (hdup : (if !isSet st.editingId then true else some st.customerId != st.editingId) = true)
    (hp : p ∈ rows s.file.tblcustomers) (hkey : p.customer_id = st.customerId) :
    ((∃ err, out = .error err) ∨ ∃ msg, out = .ok [("Error", msg)]) ∧
      (∃ d, st' = { st with dbRef := d }) ∧
      s.file.Grown s'.file ∧
      ((CustomersScreen.validateInputs st).1 = true → s.Quiet →
        out = .ok [("Error", "Customer ID already exists.")]) := by
  unfold CustomersScreen.handleAddOrUpdate CustomersScreen.createTables at hrun
  have ho := openRef_spec st.dbRef s
  cases h1 : openRef st.dbRef s with
  | mk r1 s1 =>
    rw [h1] at ho hrun
    cases r1 with
    | error err =>
      simp only [Prod.mk.injEq] at hrun
      obtain ⟨rfl, rfl, rfl⟩ := hrun
      refine ⟨Or.inl ⟨_, rfl⟩, ⟨st.dbRef, rfl⟩, by rw [ho.1]; exact Tables.Grown.same _, ?_⟩
      intro _ hq
      obtain ⟨_, c, hc⟩ := ho.2.2 hq
      simp at hc
    | ok c =>
      simp only at hrun ho
      have he := Conn.execAsync_create c .createCustomers (Or.inl rfl) s1
      cases h2 : c.execAsync .createCustomers s1 with
      | mk r2 s2 =>
        rw [h2] at he hrun
        rw [ho.1] at he
        cases r2 with
        | error err =>
          simp only [Prod.mk.injEq] at hrun
          obtain ⟨rfl, rfl, rfl⟩ := hrun
          refine ⟨Or.inl ⟨_, rfl⟩, ⟨_, rfl⟩, he.1, ?_⟩
          intro _ hq
          have := (he.2.2 (ho.2.2 hq).1).2
          simp at this
        | ok c1 =>
          have hc1 : c1 = c := he.2.1 c1 rfl
          subst hc1
          simp only at hrun he
          have hveq : CustomersScreen.validateInputs { st with dbRef := some c1 } =
              CustomersScreen.validateInputs st := rfl
          rw [hveq] at hrun
          cases hv : (CustomersScreen.validateInputs st).1 with
          | false =>
            obtain ⟨msg, hmsg⟩ := customers_validate_shape st hv
            simp only [hv, Bool.not_false, if_true, Prod.mk.injEq] at hrun
            obtain ⟨rfl, rfl, rfl⟩ := hrun
            exact ⟨Or.inr ⟨msg, by rw [hmsg]⟩, ⟨_, rfl⟩, he.1, by simp⟩
          | true =>
            simp only [hv, Bool.not_true, Bool.false_eq_true, if_false, openRef] at hrun
            have hg := Conn.getAllAsync_spec c1 (Query.customerById st.customerId) s2
            have hp2 : p ∈ rows s2.file.tblcustomers := by rw [he.1.rows_eq.2.2.1]; exact hp
            obtain ⟨existing, hev, hlen⟩ := customerById_found hp2 hkey
            cases h3 : c1.getAllAsync (Query.customerById st.customerId) s2 with
            | mk r3 s3 =>
              rw [h3] at hg hrun
              simp only at hg
              cases r3 with
              | error err =>
                simp only [Prod.mk.injEq] at hrun
                obtain ⟨rfl, rfl, rfl⟩ := hrun
                refine ⟨Or.inr ⟨_, rfl⟩, ⟨_, rfl⟩, by rw [hg.1]; exact he.1, ?_⟩
                intro _ hq
                have := (hg.2.2 (he.2.2 (ho.2.2 hq).1).1).2
                rw [hev] at this
                cases this
              | ok found =>
                have hf := hg.2.1 found rfl
                rw [hev] at hf
                cases hf
                have hd : (if (!isSet st.editingId) = true then decide (existing.length > 0)
                    else decide (existing.length > 0) && some st.customerId != st.editingId)
                    = true := by
                  by_cases hs : (!isSet st.editingId) = true
                  · rw [if_pos hs]; simpa using hlen
                  · rw [if_neg hs] at hdup ⊢
                    simp only [Bool.and_eq_true, decide_eq_true_eq]
                    exact ⟨hlen, hdup⟩
                simp only [hd, if_true, Prod.mk.injEq] at hrun
                obtain ⟨rfl, rfl, rfl⟩ := hrun
                exact ⟨Or.inr ⟨_, rfl⟩, ⟨_, rfl⟩, by rw [hg.1]; exact he.1, fun _ _ => rfl⟩

theorem Conn.execAsync_ok (c c1 : Conn) (e : Exec) (s s1 : Sys)
    (h : c.execAsync e s = (.ok c1, s1)) : e.apply c s.file = .ok (c1, s1.file) := by
  unfold Conn.execAsync at h
  split at h
  · simp at h
  · split at h
    · simp at h
    · rename_i c2 t1 heq
      simp only [Prod.mk.injEq, Except.ok.injEq] at h
      obtain ⟨rfl, rfl⟩ := h
      exact heq

theorem updateCustomer_own (e name phone : String) (fk : Bool) (t : Tables)
    (cs : List CustomerRow) (ht : t.tblcustomers = some cs) :
    (Statement.updateCustomer e name phone e).run fk t =
      .ok ({ t with tblcustomers := some (cs.map (fun c =>
        if c.customer_id == e then ⟨e, name, phone⟩ else c)) }, 0) := by
  simp [Statement.updateCustomer, ht]

theorem customersDesc_ok (t : Tables) (cs : List CustomerRow) (ht : t.tblcustomers = some cs) :
    ∃ v, Query.customersDesc.eval t = .ok v := by
  simp [Query.customersDesc, ht]

theorem customerById_ok (k : String) (t : Tables) (cs : List CustomerRow)
    (ht : t.tblcustomers = some cs) :
    ∃ v, (Query.customerById k).eval t = .ok v := by
  simp [Query.customerById, ht]

theorem customers_own_id_kept (st st' : CustomersScreen.State) (s s' : Sys)
    (out : CustomersScreen.Outcome) (e : String)
    (hrun : CustomersScreen.handleAddOrUpdate st s = (out, st', s'))
    (hed : st.editingId = some e) (hset : isSet st.editingId = true) (hown : st.customerId = e) :
    out ≠ .ok [("Error", "Customer ID already exists.")] ∧
      ((CustomersScreen.validateInputs st).1 = true → s.Quiet →
        out = .ok [] ∧
          s'.file = { s.file with tblcustomers := some ((rows s.file.tblcustomers).map (fun c =>
            if c.customer_id == e then ⟨e, st.customerName, st.phone⟩ else c)) }) := by
  unfold CustomersScreen.handleAddOrUpdate CustomersScreen.createTables at hrun
  have ho := openRef_spec st.dbRef s
  cases h1 : openRef st.dbRef s with
  | mk r1 s1 =>
    rw [h1] at ho hrun
    cases r1 with
    | error err =>
      simp only [Prod.mk.injEq] at hrun
      obtain ⟨rfl, rfl, rfl⟩ := hrun
      refine ⟨by simp, ?_⟩
      intro _ hq
      obtain ⟨_, c, hc⟩ := ho.2.2 hq
      simp at hc
    | ok c =>
      simp only at hrun ho
      have he := Conn.execAsync_create c .createCustomers (Or.inl rfl) s1
      cases h2 : c.execAsync .createCustomers s1 with
      | mk r2 s2 =>
        rw [h2] at he hrun
        cases r2 with
        | error err =>
          simp only [Prod.mk.injEq] at hrun
          obtain ⟨rfl, rfl, rfl⟩ := hrun
          refine ⟨by simp, ?_⟩
          intro _ hq
          have := (he.2.2 (ho.2.2 hq).1).2
          simp at this
        | ok c1 =>
          have hc1 : c1 = c := he.2.1 c1 rfl
          subst hc1
          have hfile2 := Conn.execAsync_ok _ _ _ _ _ h2
          simp only [Exec.apply, Except.ok.injEq, Prod.mk.injEq, true_and] at hfile2
          rw [ho.1] at hfile2
          simp only at hrun he
          have hveq : CustomersScreen.validateInputs { st with dbRef := some c1 } =
              CustomersScreen.validateInputs st := rfl
          rw [hveq] at hrun
          cases hv : (CustomersScreen.validateInputs st).1 with
          | false =>
            simp only [hv, Bool.not_false, if_true, Prod.mk.injEq] at hrun
            obtain ⟨rfl, rfl, rfl⟩ := hrun
            refine ⟨?_, by simp⟩
            simp only [CustomersScreen.validateInputs]
            split_ifs <;> simp
          | true =>
            simp only [hv, Bool.not_true, Bool.false_eq_true, if_false, openRef] at hrun
            have hg := Conn.getAllAsync_spec c1 (Query.customerById st.customerId) s2
            cases h3 : c1.getAllAsync (Query.customerById st.customerId) s2 with
            | mk r3 s3 =>
              rw [h3] at hg hrun
              simp only at hg
              cases r3 with
              | error err =>
                simp only [Prod.mk.injEq] at hrun
                obtain ⟨rfl, rfl, rfl⟩ := hrun
                refine ⟨by simp [CustomersScreen.failureAlert, hset], ?_⟩
                intro _ hq
                have := (hg.2.2 (he.2.2 (ho.2.2 hq).1).1).2
                obtain ⟨v, hv'⟩ := customerById_ok st.customerId s2.file _
                  (by rw [← hfile2])
                rw [hv'] at this
                cases this
              | ok found =>
                have hd : (if (!isSet st.editingId) = true then decide (found.length > 0)
                    else decide (found.length > 0) && some st.customerId != st.editingId)
                    = false := by
                  have hne : (some st.customerId != st.editingId) = false := by simp [hed, hown]
                  simp [hset, hne]
                simp only [hd, Bool.false_eq_true, if_false] at hrun
                have hsave : CustomersScreen.saveStatement { st with dbRef := some c1 } =
                    Statement.updateCustomer e st.customerName st.phone e := by
                  simp only [CustomersScreen.saveStatement, hed]
                  rw [hed] at hset
                  simp only [hset, hown]
                rw [hsave] at hrun
                have hr := Conn.runAsync_spec c1
                  (Statement.updateCustomer e st.customerName st.phone e) s3
                cases h4 : c1.runAsync
                    (Statement.updateCustomer e st.customerName st.phone e) s3 with
                | mk r4 s4 =>
                  rw [h4] at hr hrun
                  simp only at hr
                  have hupd := updateCustomer_own e st.customerName st.phone c1.foreign_keys
                    s3.file (rows s.file.tblcustomers) (by rw [hg.1, ← hfile2])
                  cases r4 with
                  | error err =>
                    simp only [Prod.mk.injEq] at hrun
                    obtain ⟨rfl, rfl, rfl⟩ := hrun
                    refine ⟨by simp [CustomersScreen.failureAlert, hset], ?_⟩
                    intro _ hq
                    have := ((hr.2.2 (hg.2.2 (he.2.2 (ho.2.2 hq).1).1).1).2 _ _ hupd).1
                    simp at this
                  | ok n =>
                    have hfile4 := hr.2.1 n rfl
                    rw [hupd] at hfile4
                    simp only [Except.ok.injEq, Prod.mk.injEq] at hfile4
                    simp only [CustomersScreen.loadCustomers, openRef] at hrun
                    have hl := Conn.getAllAsync_spec c1 Query.customersDesc s4
                    cases h5 : c1.getAllAsync Query.customersDesc s4 with
                    | mk r5 s5 =>
                      rw [h5] at hl hrun
                      simp only at hl
                      cases r5 with
                      | error err =>
                        simp only [Prod.mk.injEq] at hrun
                        obtain ⟨rfl, rfl, rfl⟩ := hrun
                        refine ⟨by simp [CustomersScreen.failureAlert, hset], ?_⟩
                        intro _ hq
                        have hq4 := (hr.2.2 (hg.2.2 (he.2.2 (ho.2.2 hq).1).1).1).1
                        have := (hl.2.2 hq4).2
                        obtain ⟨v, hv'⟩ := customersDesc_ok s4.file _ (by rw [← hfile4.1])
                        rw [hv'] at this
                        cases this
                      | ok loaded =>
                        simp only [Prod.mk.injEq] at hrun
                        obtain ⟨rfl, rfl, rfl⟩ := hrun
                        refine ⟨by simp, fun _ _ => ⟨rfl, ?_⟩⟩
                        rw [hl.1, ← hfile4.1, hg.1, ← hfile2]

theorem otherUsersNamed_found {k : String} {id : Nat} {t : Tables} {v : UserRow}
    (hv : v ∈ rows t.tblusers) (hk : v.username = k) (hid : v.user_id ≠ id) :
    ∃ found, (Query.otherUsersNamed k id).eval t = .ok found ∧ found.length > 0 := by
  simp only [Query.otherUsersNamed]
  cases ht : t.tblusers with
  | none => simp [rows, ht] at hv
  | some us =>
    simp only [rows, ht, Option.getD_some] at hv
    refine ⟨_, rfl, List.length_pos_of_mem
      (List.mem_map.2 ⟨v, List.mem_filter.2 ⟨hv, by simp [hk, hid]⟩, rfl⟩)⟩

theorem otherUsersNamed_none (k : String) (id : Nat) (t : Tables) (us : List UserRow)
    (ht : t.tblusers = some us) (hown : ∀ v ∈ us, v.username = k → v.user_id = id) :
    (Query.otherUsersNamed k id).eval t = .ok [] := by
  simp only [Query.otherUsersNamed, ht]
  congr 1
  simp only [List.map_eq_nil_iff, List.filter_eq_nil_iff]
  intro v hv
  simp only [Bool.and_eq_true, beq_iff_eq, bne_iff_ne, ne_eq, not_and, not_not]
  exact hown v hv

theorem updateUser_own (full_name email username password : String) (id : Nat) (fk : Bool)
    (t : Tables) (us : List UserRow) (ht : t.tblusers = some us)
    (hown : ∀ v ∈ us, v.username = username → v.user_id = id) :
    (Statement.updateUser full_name email username password id).run fk t =
      .ok ({ t with tblusers := some (us.map (fun u =>
        if u.user_id == id then
          { u with full_name := full_name, email := email, username := username,
                   password := password }
        else u)) }, 0) := by
  have h2 : us.any (fun u => u.user_id != id && u.username == username) = false := by
    rw [Bool.eq_false_iff]
    intro h
    obtain ⟨v, hv, hc⟩ := List.any_eq_true.1 h
    simp only [Bool.and_eq_true, beq_iff_eq, bne_iff_ne, ne_eq] at hc
    exact hc.1 (hown v hv hc.2)
  simp only [Statement.updateUser, ht, h2, Bool.and_false, Bool.false_eq_true, if_false]

theorem account_taken_refused (st st' : MyAccountScreen.State) (s s' : Sys)
    (out : Except JsError (List Alert)) (u v : UserRow)
    (hrun : MyAccountScreen.handleSave st s = (out, st', s'))
    (hu : st.user = some u) (hv : v ∈ rows s.file.tblusers) (hname : v.username = st.username)
    (hother : v.user_id ≠ u.user_id) :
    ((∃ err, out = .error err) ∨ ∃ msg, out = .ok [("Error", msg)]) ∧
      (∃ d, st' = { st with dbRef := d }) ∧
      s.file.Grown s'.file ∧
      ((MyAccountScreen.validateInputs st).1 = true → s.Quiet →
        out = .ok [("Error", "Username already taken. Please choose another.")]) := by
  unfold MyAccountScreen.handleSave MyAccountScreen.createUsersTable at hrun
  cases hval : (MyAccountScreen.validateInputs st).1 with
  | false =>
    obtain ⟨msg, hmsg⟩ := account_validate_shape st hval
    simp only [hval, Bool.not_false, if_true, Prod.mk.injEq] at hrun
    obtain ⟨rfl, rfl, rfl⟩ := hrun
    exact ⟨Or.inr ⟨msg, by rw [hmsg]⟩, ⟨_, rfl⟩, Tables.Grown.same _, by simp⟩
  | true =>
    simp only [hval, Bool.not_true, Bool.false_eq_true, if_false] at hrun
    have ho := openRef_spec st.dbRef s
    cases h1 : openRef st.dbRef s with
    | mk r1 s1 =>
      rw [h1] at ho hrun
      cases r1 with
      | error err =>
        simp only [Prod.mk.injEq] at hrun
        obtain ⟨rfl, rfl, rfl⟩ := hrun
        refine ⟨Or.inl ⟨_, rfl⟩, ⟨st.dbRef, rfl⟩, by rw [ho.1]; exact Tables.Grown.same _, ?_⟩
        intro _ hq
        obtain ⟨_, c, hc⟩ := ho.2.2 hq
        simp at hc
      | ok c =>
        simp only at hrun ho
        have he := Conn.execAsync_create c .createUsers (Or.inr rfl) s1
        cases h2 : c.execAsync .createUsers s1 with
        | mk r2 s2 =>
          rw [h2] at he hrun
          rw [ho.1] at he
          cases r2 with
          | error err =>
            simp only [Prod.mk.injEq] at hrun
            obtain ⟨rfl, rfl, rfl⟩ := hrun
            refine ⟨Or.inl ⟨_, rfl⟩, ⟨_, rfl⟩, he.1, ?_⟩
            intro _ hq
            have := (he.2.2 (ho.2.2 hq).1).2
            simp at this
          | ok c1 =>
            have hc1 : c1 = c := he.2.1 c1 rfl
            subst hc1
            simp only [openRef, hu] at hrun he
            have hg := Conn.getAllAsync_spec c1 (Query.otherUsersNamed st.username u.user_id) s2
            have hv2 : v ∈ rows s2.file.tblusers := by rw [he.1.rows_eq.1]; exact hv
            obtain ⟨existing, hev, hlen⟩ := otherUsersNamed_found hv2 hname hother
            cases h3 : c1.getAllAsync (Query.otherUsersNamed st.username u.user_id) s2 with
            | mk r3 s3 =>
              rw [h3] at hg hrun
              simp only at hg
              cases r3 with
              | error err =>
                simp only [Prod.mk.injEq] at hrun
                obtain ⟨rfl, rfl, rfl⟩ := hrun
                refine ⟨Or.inr ⟨_, rfl⟩, ⟨some c1, by rw [hu]⟩, by rw [hg.1]; exact he.1, ?_⟩
                intro _ hq
                have := (hg.2.2 (he.2.2 (ho.2.2 hq).1).1).2
                rw [hev] at this
                cases this
              | ok found =>
                have hf := hg.2.1 found rfl
                rw [hev] at hf
                cases hf
                simp only [hlen, if_true, Prod.mk.injEq] at hrun
                obtain ⟨rfl, rfl, rfl⟩ := hrun
                exact ⟨Or.inr ⟨_, rfl⟩, ⟨some c1, by rw [hu]⟩, by rw [hg.1]; exact he.1,
                  fun _ _ => rfl⟩

theorem account_own_name_kept (st st' : MyAccountScreen.State) (s s' : Sys)
    (out : Except JsError (List Alert)) (u : UserRow)
    (hrun : MyAccountScreen.handleSave st s = (out, st', s'))
    (hu : st.user = some u)
    (hown : ∀ v ∈ rows s.file.tblusers, v.username = st.username → v.user_id = u.user_id) :
    out ≠ .ok [("Error", "Username already taken. Please choose another.")] ∧
      ((MyAccountScreen.validateInputs st).1 = true → s.Quiet →
        out = .ok [("Success", "Account updated successfully!")] ∧
          s'.file = { s.file with tblusers := some ((rows s.file.tblusers).map (fun w =>
            if w.user_id == u.user_id then
              { w with full_name := st.fullName, email := st.email, username := st.username,
                       password := st.password }
            else w)) }) := by
  unfold MyAccountScreen.handleSave MyAccountScreen.createUsersTable at hrun
  cases hval : (MyAccountScreen.validateInputs st).1 with
  | false =>
    simp only [hval, Bool.not_false, if_true, Prod.mk.injEq] at hrun
    obtain ⟨rfl, rfl, rfl⟩ := hrun
    refine ⟨?_, by simp⟩
    simp only [MyAccountScreen.validateInputs]
    split_ifs <;> simp
  | true =>
    simp only [hval, Bool.not_true, Bool.false_eq_true, if_false] at hrun
    have ho := openRef_spec st.dbRef s
    cases h1 : openRef st.dbRef s with
    | mk r1 s1 =>
      rw [h1] at ho hrun
      cases r1 with
      | error err =>
        simp only [Prod.mk.injEq] at hrun
        obtain ⟨rfl, rfl, rfl⟩ := hrun
        refine ⟨by simp, ?_⟩
        intro _ hq
        obtain ⟨_, c, hc⟩ := ho.2.2 hq
        simp at hc
      | ok c =>
        simp only at hrun ho
        have he := Conn.execAsync_create c .createUsers (Or.inr rfl) s1
        cases h2 : c.execAsync .createUsers s1 with
        | mk r2 s2 =>
          rw [h2] at he hrun
          cases r2 with
          | error err =>
            simp only [Prod.mk.injEq] at hrun
            obtain ⟨rfl, rfl, rfl⟩ := hrun
            refine ⟨by simp, ?_⟩
            intro _ hq
            have := (he.2.2 (ho.2.2 hq).1).2
            simp at this
          | ok c1 =>
            have hc1 : c1 = c := he.2.1 c1 rfl
            subst hc1
            have hfile2 := Conn.execAsync_ok _ _ _ _ _ h2
            simp only [Exec.apply, Except.ok.injEq, Prod.mk.injEq, true_and] at hfile2
            rw [ho.1] at hfile2
            simp only [openRef, hu] at hrun he
            have hg := Conn.getAllAsync_spec c1 (Query.otherUsersNamed st.username u.user_id) s2
            have hnone := otherUsersNamed_none st.username u.user_id s2.file
              (rows s.file.tblusers) (by rw [← hfile2]) hown
            cases h3 : c1.getAllAsync (Query.otherUsersNamed st.username u.user_id) s2 with
            | mk r3 s3 =>
              rw [h3] at hg hrun
              simp only at hg
              cases r3 with
              | error err =>
                simp only [Prod.mk.injEq] at hrun
                obtain ⟨rfl, rfl, rfl⟩ := hrun
                refine ⟨by simp, ?_⟩
                intro _ hq
                have := (hg.2.2 (he.2.2 (ho.2.2 hq).1).1).2
                rw [hnone] at this
                cases this
              | ok found =>
                have hf := hg.2.1 found rfl
                rw [hnone] at hf
                cases hf
                simp only [List.length_nil, gt_iff_lt, lt_self_iff_false, if_false] at hrun
                have hr := Conn.runAsync_spec c1 (Statement.updateUser st.fullName st.email
                  st.username st.password u.user_id) s3
                have hupd := updateUser_own st.fullName st.email st.username st.password
                  u.user_id c1.foreign_keys s3.file (rows s.file.tblusers)
                  (by rw [hg.1, ← hfile2]) hown
                cases h4 : c1.runAsync (Statement.updateUser st.fullName st.email
                    st.username st.password u.user_id) s3 with
                | mk r4 s4 =>
                  rw [h4] at hr hrun
                  simp only at hr
                  cases r4 with
                  | error err =>
                    simp only [Prod.mk.injEq] at hrun
                    obtain ⟨rfl, rfl, rfl⟩ := hrun
                    refine ⟨by simp, ?_⟩
                    intro _ hq
                    have := ((hr.2.2 (hg.2.2 (he.2.2 (ho.2.2 hq).1).1).1).2 _ _ hupd).1
                    simp at this
                  | ok n =>
                    have hfile4 := hr.2.1 n rfl
                    rw [hupd] at hfile4
                    simp only [Except.ok.injEq, Prod.mk.injEq] at hfile4
                    simp only [Prod.mk.injEq] at hrun
                    obtain ⟨rfl, rfl, rfl⟩ := hrun
                    refine ⟨by simp, fun _ _ => ⟨rfl, ?_⟩⟩
                    rw [← hfile4.1, hg.1, ← hfile2]

/-! ### The key generators -/

theorem rollKey_stop (existing : List String) (random : Nat → JsNumber) :
    ∀ (left attempts i : Nat), attempts ≤ i → i < 20 → attempts + left = 20 →
      keyAt random i ∉ existing → (∀ j, attempts ≤ j → j < i → keyAt random j ∈ existing) →
      rollKey existing random left attempts = (keyAt random i, i + 1) := by
  intro left
  induction left with
  | zero => intro attempts i h1 h2 h3; omega
  | succ left ih =>
    intro attempts i h1 h2 h3 hi hj
    rcases Nat.eq_or_lt_of_le h1 with rfl | hlt
    · have : randomKey (random attempts) ∉ existing := hi
      simp [rollKey, keyAt, this]
    · have hm : randomKey (random attempts) ∈ existing := hj attempts le_rfl hlt
      have h20 : attempts + 1 < 20 := by omega
      have := ih (attempts + 1) i (by omega) h2 (by omega) hi
        (fun j hj1 hj2 => hj j (by omega) hj2)
      simp [rollKey, hm, h20, this]

theorem rollKey_exhaust (existing : List String) (random : Nat → JsNumber) :
    ∀ (left attempts : Nat), 0 < left → attempts + left = 20 →
      (∀ j, attempts ≤ j → j < 20 → keyAt random j ∈ existing) →
      rollKey existing random left attempts = (keyAt random 19, 20) := by
  intro left
  induction left with
  | zero => intro attempts h; omega
  | succ left ih =>
    intro attempts _ h3 hj
    have hm : randomKey (random attempts) ∈ existing := hj attempts le_rfl (by omega)
    by_cases h20 : attempts + 1 < 20
    · have := ih (attempts + 1) (by omega) (by omega) (fun j hj1 hj2 => hj j (by omega) hj2)
      simp [rollKey, hm, h20, this]
    · have h19 : attempts = 19 := by omega
      subst h19
      simp [rollKey, keyAt]

theorem rollKey_cases (existing : List String) (random : Nat → JsNumber) :
    (∃ i, i < 20 ∧ keyAt random i ∉ existing ∧ (∀ j, j < i → keyAt random j ∈ existing) ∧
        rollKey existing random 20 0 = (keyAt random i, i + 1)) ∨
      ((∀ i, i < 20 → keyAt random i ∈ existing) ∧
        rollKey existing random 20 0 = (keyAt random 19, 20)) := by
  by_cases h : ∃ i, i < 20 ∧ keyAt random i ∉ existing
  · left
    classical
    refine ⟨Nat.find h, (Nat.find_spec h).1, (Nat.find_spec h).2, ?_, ?_⟩
    · intro j hj
      by_contra hn
      exact Nat.find_min h hj ⟨lt_trans hj (Nat.find_spec h).1, hn⟩
    · refine rollKey_stop existing random 20 0 _ (Nat.zero_le _) (Nat.find_spec h).1 rfl
        (Nat.find_spec h).2 ?_
      intro j _ hj
      by_contra hn
      exact Nat.find_min h hj ⟨lt_trans hj (Nat.find_spec h).1, hn⟩
  · right
    have hall : ∀ i, i < 20 → keyAt random i ∈ existing := by
      intro i hi
      by_contra hn
      exact h ⟨i, hi, hn⟩
    exact ⟨hall, rollKey_exhaust existing random 20 0 (by decide) rfl (fun j _ hj => hall j hj)⟩

theorem rollKey_collides_iff (existing : List String) (random : Nat → JsNumber) :
    (rollKey existing random 20 0).1 ∈ existing ↔ ∀ i, i < 20 → keyAt random i ∈ existing := by
  rcases rollKey_cases existing random with ⟨i, hi, hn, _, he⟩ | ⟨hall, he⟩
  · rw [he]
    constructor
    · intro h; exact absurd h hn
    · intro h; exact absurd (h i hi) hn
  · rw [he]
    exact ⟨fun _ => hall, fun h => h 19 (by decide)⟩

theorem rollIcon_first (diceIcon : String) (random : Nat → JsNumber) :
    ∀ (n fuel i : Nat), (∀ m, m < n → iconAt random (i + m) = diceIcon) →
      iconAt random (i + n) ≠ diceIcon → n < fuel →
      rollIcon diceIcon random fuel i = some (iconAt random (i + n)) := by
  intro n
  induction n with
  | zero =>
    intro fuel i _ hne hf
    obtain ⟨fuel, rfl⟩ : ∃ k, fuel = k + 1 := ⟨fuel - 1, by omega⟩
    have hne' : ¬ randomIcon (random i) = diceIcon := by
      simpa [iconAt] using hne
    simp only [rollIcon, hne', if_false, iconAt, Nat.add_zero]
  | succ n ih =>
    intro fuel i hm hne hf
    obtain ⟨fuel, rfl⟩ : ∃ k, fuel = k + 1 := ⟨fuel - 1, by omega⟩
    have h0 : randomIcon (random i) = diceIcon := by
      simpa [iconAt] using hm 0 (by omega)
    have := ih fuel (i + 1) (fun m hlt => by simpa [Nat.add_assoc, Nat.add_comm 1 m] using hm (m + 1) (by omega))
      (by simpa [Nat.add_assoc, Nat.add_comm 1 n] using hne) (by omega)
    simp only [rollIcon, h0, if_true, this]
    simp [Nat.add_assoc, Nat.add_comm 1 n]

theorem pickKey_error_iff (alert alert' : Alert) (existing : List String) (diceIcon : String)
    (random : Nat → JsNumber) (fuel : Nat) :
    pickKey alert existing diceIcon random fuel = some (.error alert') ↔
      alert' = alert ∧ ∀ i, i < 20 → keyAt random i ∈ existing := by
  unfold pickKey
  simp only []
  by_cases h : (rollKey existing random 20 0).1 ∈ existing
  · have hc : existing.contains (rollKey existing random 20 0).1 = true := by simpa using h
    simp only [hc, if_true]
    constructor
    · intro he
      simp at he
      exact ⟨he.symm, (rollKey_collides_iff existing random).1 h⟩
    · rintro ⟨rfl, _⟩; rfl
  · have hc : existing.contains (rollKey existing random 20 0).1 = false := by simpa using h
    simp only [hc, Bool.false_eq_true, if_false]
    constructor
    · intro he
      split at he <;> simp at he
    · rintro ⟨_, hall⟩
      exact absurd ((rollKey_collides_iff existing random).2 hall) h

theorem pickKey_ok (alert : Alert) (existing : List String) (diceIcon : String)
    (random : Nat → JsNumber) (fuel : Nat) (k icon : String)
    (h : pickKey alert existing diceIcon random fuel = some (.ok (k, icon))) :
    k = (rollKey existing random 20 0).1 ∧ k ∉ existing := by
  unfold pickKey at h
  simp only [] at h
  by_cases hm : (rollKey existing random 20 0).1 ∈ existing
  · have hc : existing.contains (rollKey existing random 20 0).1 = true := by simpa using hm
    simp [hm] at h
  · have hc : existing.contains (rollKey existing random 20 0).1 = false := by simpa using hm
    simp only [hc, Bool.false_eq_true, if_false] at h
    split at h
    · simp at h
    · simp at h
      exact ⟨h.1.symm, h.1 ▸ hm⟩

theorem pickKey_first (alert : Alert) (existing : List String) (diceIcon : String)
    (random : Nat → JsNumber) (fuel i n : Nat) (hi : i < 20) (hfresh : keyAt random i ∉ existing)
    (hbefore : ∀ j, j < i → keyAt random j ∈ existing)
    (hsame : ∀ m, m < n → iconAt random (i + 1 + m) = diceIcon)
    (hnew : iconAt random (i + 1 + n) ≠ diceIcon) (hfuel : n < fuel) :
    pickKey alert existing diceIcon random fuel =
      some (.ok (keyAt random i, iconAt random (i + 1 + n))) := by
  have hr := rollKey_stop existing random 20 0 i (Nat.zero_le _) hi rfl hfresh
    (fun j _ hj => hbefore j hj)
  have hc : existing.contains (keyAt random i) = false := by simpa using hfresh
  have hicon := rollIcon_first diceIcon random n fuel (i + 1) hsame hnew hfuel
  unfold pickKey
  simp only [hr, hc, Bool.false_eq_true, if_false]
  have hl : diceIcons.length > 1 := by decide
  simp only [hl, if_true, hicon]

theorem openRef_file (dbRef : Option Conn) (s s1 : Sys) (db : Conn)
    (h : openRef dbRef s = (.ok db, s1)) : s1.file = s.file ∧ s1.db = s.db := by
  unfold openRef at h
  cases dbRef with
  | some c => simp at h; rw [← h.2]; exact ⟨rfl, rfl⟩
  | none =>
    simp only [openDatabaseAsync] at h
    split at h <;> simp at h
    rw [← h.2]; exact ⟨rfl, rfl⟩

theorem Conn.getAllAsync_ok {α : Type} (c : Conn) (q : Query α) (s s1 : Sys) (v : α)
    (h : c.getAllAsync q s = (.ok v, s1)) :
    q.eval s.file = .ok v ∧ s1.file = s.file ∧ s1.db = s.db := by
  unfold Conn.getAllAsync at h
  split at h
  · simp at h
  · split at h
    · simp at h
    · rename_i r hr
      simp at h
      rw [← h.2, ← h.1]
      exact ⟨hr, rfl, rfl⟩

theorem productNumbers_eval {t : Tables} {existing : List String}
    (h : Query.productNumbers.eval t = .ok existing) :
    existing = (rows t.tblproducts).map (fun p => p.product_number) := by
  simp only [Query.productNumbers] at h
  cases hp : t.tblproducts with
  | none => simp [hp] at h
  | some ps => simp [hp] at h; simp [rows, h]

theorem customerIds_eval {t : Tables} {existing : List String}
    (h : Query.customerIds.eval t = .ok existing) :
    existing = (rows t.tblcustomers).map (fun c => c.customer_id) := by
  simp only [Query.customerIds] at h
  cases hp : t.tblcustomers with
  | none => simp [hp] at h
  | some ps => simp [hp] at h; simp [rows, h]

theorem productNumbers_read (s s1 : Sys) (existing : List String)
    (h : executeQuery Query.productNumbers s = (.ok existing, s1)) :
    existing = (rows s.file.tblproducts).map (fun p => p.product_number) := by
  have hr := executeQuery_spec Query.productNumbers s
  rw [h] at hr
  have := productNumbers_eval (hr.value existing rfl)
  rw [this, hr.grown.rows_eq.2.1]

/-! ### The validations -/

theorem dateRegexTest_iff (text : String) :
    dateRegexTest text = true ↔
      ∃ y1 y2 y3 y4 m1 m2 d1 d2 : Char,
        text.toList = [y1, y2, y3, y4, '-', m1, m2, '-', d1, d2] ∧
        y1.isDigit = true ∧ y2.isDigit = true ∧ y3.isDigit = true ∧ y4.isDigit = true ∧
        m1.isDigit = true ∧ m2.isDigit = true ∧ d1.isDigit = true ∧ d2.isDigit = true := by
  unfold dateRegexTest
  constructor
  · intro h
    split at h
    · rename_i y1 y2 y3 y4 m1 m2 d1 d2 heq
      simp only [Bool.and_eq_true] at h
      exact ⟨y1, y2, y3, y4, m1, m2, d1, d2, heq, by tauto⟩
    · simp at h
  · rintro ⟨y1, y2, y3, y4, m1, m2, d1, d2, heq, h1, h2, h3, h4, h5, h6, h7, h8⟩
    rw [heq]
    simp [h1, h2, h3, h4, h5, h6, h7, h8]

theorem isCalendarDate_shape (text : String) (h : Spec.isCalendarDate text = true) :
    dateRegexTest text = true := by
  unfold Spec.isCalendarDate at h
  split at h
  · rename_i y1 y2 y3 y4 m1 m2 d1 d2 heq
    simp only [Bool.and_eq_true] at h
    exact (dateRegexTest_iff text).2 ⟨y1, y2, y3, y4, m1, m2, d1, d2, heq, by tauto⟩
  · simp at h

theorem handleAddOrder_invalid (st : State) (s : Sys) (h : (validateInputs st).1 = false) :
    handleAddOrder st s = (st, s, (validateInputs st).2) := by
  simp [handleAddOrder, h]

theorem isDigit_range (c : Char) (h : c.isDigit = true) : 48 ≤ c.toNat ∧ c.toNat ≤ 57 := by
  simp only [Char.isDigit, Bool.and_eq_true, decide_eq_true_eq] at h
  have h1 : (48 : UInt32) ≤ c.val := h.1
  have h2 : c.val ≤ (57 : UInt32) := h.2
  rw [UInt32.le_def] at h1 h2
  simp only [Char.toNat]
  exact ⟨h1, h2⟩

theorem not_digit_of_whitespace (c : Char) (h : isJsWhiteSpace c = true) : c.isDigit = false := by
  by_contra hd
  have hd' : c.isDigit = true := by simpa using hd
  obtain ⟨h1, h2⟩ := isDigit_range c hd'
  simp only [isJsWhiteSpace, Bool.or_eq_true, decide_eq_true_eq, Bool.and_eq_true,
    List.mem_cons, List.mem_singleton, List.not_mem_nil, or_false] at h
  omega

/-- Digits of a list of characters. -/
theorem digits_cons (c : Char) (cs : List Char) :
    ((c :: cs).filter Char.isDigit).length =
      (if c.isDigit then 1 else 0) + (cs.filter Char.isDigit).length := by
  by_cases h : c.isDigit = true
  · simp [List.filter_cons, h]; omega
  · simp [List.filter_cons, h]

theorem optChar_digits (p : Char → Bool) (hp : ∀ c, p c = true → c.isDigit = false)
    (cs r : List Char) (h : r ∈ optChar p cs) :
    (r.filter Char.isDigit).length = (cs.filter Char.isDigit).length := by
  unfold optChar at h
  split at h
  · rename_i c rest
    split at h
    · rename_i hc
      simp only [List.mem_cons, List.mem_singleton, List.not_mem_nil, or_false] at h
      rcases h with rfl | rfl
      · rw [digits_cons, hp c hc]; simp
      · rfl
    · simp only [List.mem_singleton] at h
      rw [h]
  · simp only [List.mem_singleton] at h
    rw [h]

theorem exactChars_digits (n : Nat) (cs r : List Char) (h : r ∈ exactChars Char.isDigit n cs) :
    (cs.filter Char.isDigit).length = n + (r.filter Char.isDigit).length := by
  induction n generalizing cs with
  | zero =>
    simp only [exactChars, List.mem_singleton] at h
    rw [h]; simp
  | succ n ih =>
    cases cs with
    | nil => simp [exactChars] at h
    | cons c rest =>
      simp only [exactChars] at h
      split at h
      · rename_i hc
        rw [digits_cons, hc, ih rest h]
        simp; omega
      · simp at h

theorem rangeChars_digits (lo hi : Nat) (cs r : List Char)
    (h : r ∈ rangeChars Char.isDigit lo hi cs) :
    ∃ k, lo ≤ k ∧ k ≤ hi ∧
      (cs.filter Char.isDigit).length = k + (r.filter Char.isDigit).length := by
  simp only [rangeChars, List.mem_flatMap, List.mem_range] at h
  obtain ⟨k, hk, hr⟩ := h
  exact ⟨lo + k, by omega, by omega, exactChars_digits _ _ _ hr⟩

theorem phoneRegexTest_digits (text : String) (h : phoneRegexTest text = true) :
    6 ≤ digitCount text ∧ digitCount text ≤ 11 := by
  simp only [phoneRegexTest, List.any_eq_true, List.mem_flatMap] at h
  obtain ⟨r7, ⟨r6, ⟨r5, ⟨r4, ⟨r3, ⟨r2, ⟨r1, h1, h2⟩, h3⟩, h4⟩, h5⟩, h6⟩, h7⟩, hempty⟩ := h
  have e7 : r7 = [] := by simpa using hempty
  subst e7
  have hsep : ∀ c : Char, (isJsWhiteSpace c || c == '-') = true → c.isDigit = false := by
    intro c hc
    rcases Bool.or_eq_true _ _ ▸ hc with hw | hm
    · exact not_digit_of_whitespace c hw
    · have : c = '-' := by simpa using hm
      subst this; decide
  have hlit : ∀ a : Char, a.isDigit = false → ∀ c : Char, (c == a) = true → c.isDigit = false := by
    intro a ha c hc
    have : c = a := by simpa using hc
    rw [this]; exact ha
  have d1 := optChar_digits (fun c => c == '(') (hlit '(' (by decide)) _ _ h1
  have d2 := exactChars_digits 3 _ _ h2
  have d3 := optChar_digits (fun c => c == ')') (hlit ')' (by decide)) _ _ h3
  have d4 := optChar_digits _ hsep _ _ h4
  obtain ⟨k1, hk1, hk1', d5⟩ := rangeChars_digits 3 4 _ _ h5
  have d6 := optChar_digits _ hsep _ _ h6
  obtain ⟨k2, hk2, hk2', d7⟩ := rangeChars_digits 0 4 _ _ h7
  simp only [List.filter_nil, List.length_nil] at d7
  simp only [digitCount]
  omega

theorem digits_without_whitespace (cs : List Char) :
    ((cs.filter (fun c => !isJsWhiteSpace c)).filter Char.isDigit).length =
      (cs.filter Char.isDigit).length := by
  rw [List.filter_filter]
  congr 1
  apply List.filter_congr
  intro c _
  by_cases hd : c.isDigit = true
  · have : isJsWhiteSpace c = false := by
      by_contra hw
      have hw' : isJsWhiteSpace c = true := by simpa using hw
      rw [not_digit_of_whitespace c hw'] at hd
      cases hd
    simp [hd, this]
  · simp [hd]

theorem manyChars_mem (p : Char → Bool) (cs r : List Char) :
    r ∈ manyChars p cs ↔ ∃ a, a ≠ [] ∧ (∀ x ∈ a, p x = true) ∧ cs = a ++ r := by
  induction cs with
  | nil =>
    simp only [manyChars, List.not_mem_nil, false_iff]
    rintro ⟨a, ha, _, h⟩
    cases a with
    | nil => exact ha rfl
    | cons x a => simp at h
  | cons c rest ih =>
    simp only [manyChars]
    by_cases hc : p c = true
    · simp only [hc, if_true, List.mem_cons]
      constructor
      · rintro (rfl | h)
        · exact ⟨[c], by simp, by simpa using hc, rfl⟩
        · obtain ⟨a, _, hp, hrest⟩ := ih.1 h
          refine ⟨c :: a, by simp, ?_, by rw [hrest]; rfl⟩
          intro x hx
          rcases List.mem_cons.1 hx with rfl | hx
          · exact hc
          · exact hp x hx
      · rintro ⟨a, ha, hp, h⟩
        cases a with
        | nil => exact absurd rfl ha
        | cons x a =>
          simp only [List.cons_append, List.cons.injEq] at h
          obtain ⟨rfl, hrest⟩ := h
          cases a with
          | nil => left; simpa using hrest.symm
          | cons y a =>
            right
            exact ih.2 ⟨y :: a, by simp, fun z hz => hp z (List.mem_cons_of_mem _ hz), hrest⟩
    · simp only [hc, Bool.false_eq_true, if_false, List.not_mem_nil, false_iff]
      rintro ⟨a, ha, hp, h⟩
      cases a with
      | nil => exact ha rfl
      | cons x a =>
        simp only [List.cons_append, List.cons.injEq] at h
        obtain ⟨rfl, _⟩ := h
        exact hc (hp _ (List.mem_cons_self _ _))

theorem exactChars_one (ch : Char) (cs r : List Char) :
    r ∈ exactChars (fun c => c == ch) 1 cs ↔ cs = ch :: r := by
  cases cs with
  | nil => simp [exactChars]
  | cons c rest =>
    simp only [exactChars]
    by_cases hc : c = ch
    · subst hc
      simp [exactChars, eq_comm]
    · simp [hc]

theorem emailRegexTest_iff (email : String) :
    emailRegexTest email = true ↔ Spec.EmailShape email := by
  simp only [emailRegexTest, List.any_eq_true, List.mem_flatMap, Spec.EmailShape]
  constructor
  · rintro ⟨r5, ⟨r4, ⟨r3, ⟨r2, ⟨r1, h1, h2⟩, h3⟩, h4⟩, h5⟩, hempty⟩
    have e5 : r5 = [] := by simpa using hempty
    subst e5
    obtain ⟨a, ha, hpa, e1⟩ := (manyChars_mem _ _ _).1 h1
    have e2 := (exactChars_one _ _ _).1 h2
    obtain ⟨b, hb, hpb, e3⟩ := (manyChars_mem _ _ _).1 h3
    have e4 := (exactChars_one _ _ _).1 h4
    obtain ⟨c, hc, hpc, e5⟩ := (manyChars_mem _ _ _).1 h5
    refine ⟨a, b, c, ha, hb, hc, hpa, hpb, hpc, ?_⟩
    rw [e1, e2, e3, e4, e5]
    simp
  · rintro ⟨a, b, c, ha, hb, hc, hpa, hpb, hpc, he⟩
    refine ⟨[], ⟨c, ⟨'.' :: c, ⟨b ++ '.' :: c, ⟨'@' :: (b ++ '.' :: c),
      ?_, ?_⟩, ?_⟩, ?_⟩, ?_⟩, rfl⟩
    · exact (manyChars_mem _ _ _).2 ⟨a, ha, hpa, he⟩
    · exact (exactChars_one _ _ _).2 rfl
    · exact (manyChars_mem _ _ _).2 ⟨b, hb, hpb, rfl⟩
    · exact (exactChars_one _ _ _).2 rfl
    · exact (manyChars_mem _ _ _).2 ⟨c, hc, hpc, by simp⟩

theorem length_le_jsLength (p : String) :
    p.length ≤ jsLength p ∧ ((∀ c ∈ p.toList, c.toNat < 0x10000) → jsLength p = p.length) := by
  have h : ∀ l : List Char,
      l.length ≤ (l.map (fun c => if c.toNat < 0x10000 then 1 else 2)).sum ∧
      ((∀ c ∈ l, c.toNat < 0x10000) →
        (l.map (fun c => if c.toNat < 0x10000 then 1 else 2)).sum = l.length) := by
    intro l
    induction l with
    | nil => simp
    | cons c l ih =>
      simp only [List.map_cons, List.sum_cons, List.length_cons, List.mem_cons]
      constructor
      · split <;> omega
      · intro hall
        rw [ih.2 (fun x hx => hall x (Or.inr hx)), if_pos (hall c (Or.inl rfl))]
        omega
  exact h p.toList

theorem register_validate_iff (st : RegisterScreen.State) :
    (RegisterScreen.validateInputs st).1 = true ↔
      jsTrim st.fullname ≠ "" ∧ jsTrim st.email ≠ "" ∧ jsTrim st.username ≠ "" ∧
        jsTrim st.password ≠ "" ∧ Spec.EmailShape st.email ∧
        6 ≤ jsLength st.password ∧ ' ' ∉ st.password.toList := by
  rw [← emailRegexTest_iff]
  unfold RegisterScreen.validateInputs
  by_cases h1 : jsTrim st.fullname = "" <;> by_cases h2 : jsTrim st.email = "" <;>
    by_cases h3 : jsTrim st.username = "" <;> by_cases h4 : jsTrim st.password = "" <;>
    simp [h1, h2, h3, h4]
  by_cases h5 : emailRegexTest st.email = true
  · by_cases h6 : ' ' ∈ st.password.data
    · simp [h5, h6]
    · by_cases h7 : jsLength st.password < 6
      · simp [h5, h6, h7]
      · have h8 : 6 ≤ jsLength st.password := by omega
        simp [h5, h6, h7, h8]
  · simp [h5]

/-! ### The retry loop and the range of the keys -/

theorem retryLoop_first {σ α : Type} (attempt : σ → Except JsError α × σ) (s s1 : σ) (v : α)
    (h1 : attempt s = (.ok v, s1)) :
    retryLoop attempt 3 0 s = (.ok (), s1) ∧
      retryLoop (counted attempt) 3 0 (s, 0) = (.ok (), (s1, 1)) := by
  simp [retryLoop, counted, h1]

theorem retryLoop_second {σ α : Type} (attempt : σ → Except JsError α × σ) (s s1 s2 : σ)
    (e1 : JsError) (v : α) (h1 : attempt s = (.error e1, s1)) (h2 : attempt s1 = (.ok v, s2)) :
    retryLoop attempt 3 0 s = (.ok (), s2) ∧
      retryLoop (counted attempt) 3 0 (s, 0) = (.ok (), (s2, 2)) := by
  simp [retryLoop, counted, h1, h2]

theorem retryLoop_third {σ α : Type} (attempt : σ → Except JsError α × σ) (s s1 s2 s3 : σ)
    (e1 e2 : JsError) (v : α) (h1 : attempt s = (.error e1, s1))
    (h2 : attempt s1 = (.error e2, s2)) (h3 : attempt s2 = (.ok v, s3)) :
    retryLoop attempt 3 0 s = (.ok (), s3) ∧
      retryLoop (counted attempt) 3 0 (s, 0) = (.ok (), (s3, 3)) := by
  simp [retryLoop, counted, h1, h2, h3]

theorem retryLoop_gives_up {σ α : Type} (attempt : σ → Except JsError α × σ) (s s1 s2 s3 : σ)
    (e1 e2 e3 : JsError) (h1 : attempt s = (.error e1, s1))
    (h2 : attempt s1 = (.error e2, s2)) (h3 : attempt s2 = (.error e3, s3)) :
    retryLoop attempt 3 0 s = (.error e3, s3) ∧
      retryLoop (counted attempt) 3 0 (s, 0) = (.error e3, (s3, 3)) := by
  simp [retryLoop, counted, h1, h2, h3]

theorem retryLoop_cases {σ α : Type} (attempt : σ → Except JsError α × σ) (s : σ) :
    (∃ n s', n ≤ 3 ∧ retryLoop attempt 3 0 s = (.ok (), s') ∧
        retryLoop (counted attempt) 3 0 (s, 0) = (.ok (), (s', n))) ∨
      (∃ e1 e2 e3 s1 s2 s3, attempt s = (.error e1, s1) ∧ attempt s1 = (.error e2, s2) ∧
        attempt s2 = (.error e3, s3) ∧ retryLoop attempt 3 0 s = (.error e3, s3) ∧
        retryLoop (counted attempt) 3 0 (s, 0) = (.error e3, (s3, 3))) := by
  rcases h1 : attempt s with ⟨r1, s1⟩
  cases r1 with
  | ok v =>
    obtain ⟨ha, hb⟩ := retryLoop_first attempt s s1 v h1
    exact Or.inl ⟨1, s1, by omega, ha, hb⟩
  | error e1 =>
    rcases h2 : attempt s1 with ⟨r2, s2⟩
    cases r2 with
    | ok v =>
      obtain ⟨ha, hb⟩ := retryLoop_second attempt s s1 s2 e1 v h1 h2
      exact Or.inl ⟨2, s2, by omega, ha, hb⟩
    | error e2 =>
      rcases h3 : attempt s2 with ⟨r3, s3⟩
      cases r3 with
      | ok v =>
        obtain ⟨ha, hb⟩ := retryLoop_third attempt s s1 s2 s3 e1 e2 v h1 h2 h3
        exact Or.inl ⟨3, s3, by omega, ha, hb⟩
      | error e3 =>
        obtain ⟨ha, hb⟩ := retryLoop_gives_up attempt s s1 s2 s3 e1 e2 e3 h1 h2 h3
        exact Or.inr ⟨e1, e2, e3, s1, s2, s3, rfl, h2, h3, ha, hb⟩

theorem digitChar_digit (d : Nat) (h : d < 10) :
    (Nat.digitChar d).isDigit = true ∧ (0 < d → Nat.digitChar d ≠ '0') := by
  interval_cases d <;> decide

theorem toDigits_four (n : Nat) (h1 : 1000 ≤ n) (h2 : n ≤ 9999) :
    Nat.toDigits 10 n =
      [Nat.digitChar (n / 1000), Nat.digitChar (n / 100 % 10), Nat.digitChar (n / 10 % 10),
        Nat.digitChar (n % 10)] := by
  obtain ⟨k, rfl⟩ : ∃ k, n = k + 3 := ⟨n - 3, by omega⟩
  have a1 : (k + 3) / 10 ≠ 0 := by omega
  have a2 : (k + 3) / 10 / 10 ≠ 0 := by omega
  have a3 : (k + 3) / 10 / 10 / 10 ≠ 0 := by omega
  have a4 : (k + 3) / 10 / 10 / 10 / 10 = 0 := by omega
  have b1 : (k + 3) / 10 / 10 / 10 % 10 = (k + 3) / 1000 := by omega
  have b2 : (k + 3) / 10 / 10 % 10 = (k + 3) / 100 % 10 := by omega
  simp only [Nat.toDigits, Nat.toDigitsCore, a1, a2, a3, a4, if_false, if_true, b1, b2]

theorem toString_four (n : Nat) (h1 : 1000 ≤ n) (h2 : n ≤ 9999) :
    (toString n).toList.length = 4 ∧ (∀ c ∈ (toString n).toList, c.isDigit = true) ∧
      (toString n).toList.head? ≠ some '0' := by
  have hs : (toString n).toList = Nat.toDigits 10 n := by
    show (Nat.repr n).toList = _
    rfl
  rw [hs, toDigits_four n h1 h2]
  refine ⟨rfl, ?_, ?_⟩
  · intro c hc
    simp only [List.mem_cons, List.mem_singleton, List.not_mem_nil, or_false] at hc
    rcases hc with rfl | rfl | rfl | rfl
    · exact (digitChar_digit _ (by omega)).1
    · exact (digitChar_digit _ (by omega)).1
    · exact (digitChar_digit _ (by omega)).1
    · exact (digitChar_digit _ (by omega)).1
  · simp only [List.head?_cons, ne_eq, Option.some.injEq]
    exact (digitChar_digit _ (by omega)).2 (by omega)

theorem loadInitialData_no_init_alert (st : State) (s : Sys) :
    ("Error", "Failed to initialize database. Please try again.") ∉
      (loadInitialData st s).2.2 := by
  unfold loadInitialData
  split
  · simp
  · split
    · simp
    · split
      · simp
      · split
        · simp
        · split
          · simp
          · simp

/-- The alert of a failed initialization is shown by a mounted `initDb` exactly when one of
its two retry loops gives up. -/
theorem initDb_alert_iff (st : State) (s : Sys) (hm : st.mounted = true) :
    ("Error", "Failed to initialize database. Please try again.") ∈ (initDb true st s).2.2 ↔
      ((∃ err, (retryLoop initializeTables 3 0 s).1 = .error err) ∨
        (∃ err, (retryLoop (executeQuery Query.select1) 3 0
          (retryLoop initializeTables 3 0 s).2).1 = .error err)) := by
  unfold initDb
  simp only [Bool.not_true, Bool.false_eq_true, if_false, hm, if_true]
  rcases h1 : retryLoop initializeTables 3 0 s with ⟨r1, s1⟩
  cases r1 with
  | error e1 => simp
  | ok u =>
    simp only
    rcases h2 : retryLoop (executeQuery Query.select1) 3 0 s1 with ⟨r2, s2⟩
    cases r2 with
    | error e2 => simp
    | ok u2 =>
      simp only
      have := loadInitialData_no_init_alert (resetState st) s2
      rcases h3 : loadInitialData (resetState st) s2 with ⟨st3, s3, alerts⟩
      rw [h3] at this
      simpa using this

/-! ### The rounding of doubles -/

theorem pow2_eq (e : Int) : pow2 e = (2 : ℚ) ^ e := by
  unfold pow2
  split
  · rename_i h
    rw [Nat.cast_pow, Nat.cast_ofNat, ← zpow_natCast, Int.toNat_of_nonneg h]
  · rename_i h
    have h' : 0 ≤ -e := by omega
    rw [Nat.cast_pow, Nat.cast_ofNat, ← zpow_natCast, Int.toNat_of_nonneg h', zpow_neg, one_div,
      inv_inv]

theorem pow2_pos (e : Int) : 0 < pow2 e := by
  rw [pow2_eq]
  exact zpow_pos (by norm_num) e

theorem pow2_lt {a b : Int} (h : a < b) : pow2 a < pow2 b := by
  rw [pow2_eq, pow2_eq]
  exact zpow_lt_zpow_right₀ (by norm_num) h

theorem pow2_le {a b : Int} (h : a ≤ b) : pow2 a ≤ pow2 b := by
  rw [pow2_eq, pow2_eq]
  exact zpow_le_zpow_right₀ (by norm_num) h

theorem pow2_lt_iff {a b : Int} : pow2 a < pow2 b ↔ a < b := by
  rw [pow2_eq, pow2_eq]
  exact zpow_lt_zpow_iff_right₀ (by norm_num)

theorem pow2_add (a b : Int) : pow2 (a + b) = pow2 a * pow2 b := by
  rw [pow2_eq, pow2_eq, pow2_eq]
  exact zpow_add₀ (by norm_num) a b

theorem pow2_natCast (n : Nat) : pow2 (n : Int) = ((2 ^ n : Nat) : ℚ) := by
  rw [pow2_eq, zpow_natCast, Nat.cast_pow, Nat.cast_ofNat]

theorem binaryDigits_spec (fuel n : Nat) (h : n ≤ fuel) (hn : n ≠ 0) :
    2 ^ (binaryDigits fuel n - 1) ≤ n ∧ n < 2 ^ binaryDigits fuel n ∧
      1 ≤ binaryDigits fuel n := by
  induction fuel generalizing n with
  | zero => omega
  | succ fuel ih =>
    simp only [binaryDigits, hn, if_false]
    by_cases h2 : n / 2 = 0
    · have h1 : n = 1 := by omega
      subst h1
      cases fuel <;> simp [binaryDigits]
    · obtain ⟨a, b, c⟩ := ih (n / 2) (by omega) h2
      refine ⟨?_, ?_, by omega⟩
      · have : binaryDigits fuel (n / 2) + 1 - 1 = (binaryDigits fuel (n / 2) - 1) + 1 := by
          omega
        rw [this, pow_succ]
        omega
      · rw [pow_succ]
        omega

theorem magnitude_pos {x : ℚ} (h : x ≠ 0) : 0 < magnitude x := by
  unfold magnitude
  split
  · linarith
  · rename_i h'
    exact lt_of_le_of_ne (not_lt.1 h') (Ne.symm h)

theorem magnitude_of_pos {x : ℚ} (h : 0 < x) : magnitude x = x := by
  unfold magnitude
  rw [if_neg (not_lt.2 h.le)]

theorem magnitude_eq_div (x : ℚ) : magnitude x = (x.num.natAbs : ℚ) / (x.den : ℚ) := by
  unfold magnitude
  have hx : x = (x.num : ℚ) / (x.den : ℚ) := (Rat.num_div_den x).symm
  split
  · rename_i h
    have hn : x.num < 0 := Rat.num_neg.2 h
    have : ((x.num.natAbs : Int) : ℚ) = -(x.num : ℚ) := by
      rw [← Int.cast_neg]
      congr 1
      omega
    rw [← Int.cast_natCast, this, neg_div, ← hx]
  · rename_i h
    have hn : 0 ≤ x.num := Rat.num_nonneg.2 (not_lt.1 h)
    have : ((x.num.natAbs : Int) : ℚ) = (x.num : ℚ) := by
      congr 1
      omega
    rw [← Int.cast_natCast, this, ← hx]

/-- The binary exponent brackets the magnitude between two powers of two. -/
theorem binaryExponent_spec {x : ℚ} (h : x ≠ 0) :
    pow2 (binaryExponent x) ≤ magnitude x ∧ magnitude x < pow2 (binaryExponent x + 1) := by
  have hN : x.num.natAbs ≠ 0 := by
    intro h0
    exact h (Rat.zero_of_num_zero (Int.natAbs_eq_zero.1 h0))
  have hD : x.den ≠ 0 := x.den_nz
  obtain ⟨a1, a2, a3⟩ := binaryDigits_spec x.num.natAbs x.num.natAbs le_rfl hN
  obtain ⟨b1, b2, b3⟩ := binaryDigits_spec x.den x.den le_rfl hD
  unfold binaryExponent
  simp only
  generalize binaryDigits x.num.natAbs x.num.natAbs = A at a1 a2 a3 ⊢
  generalize binaryDigits x.den x.den = B at b1 b2 b3 ⊢
  have hm := magnitude_eq_div x
  have hDpos : (0 : ℚ) < (x.den : ℚ) := by exact_mod_cast Nat.pos_of_ne_zero hD
  have a1' : pow2 ((A : Int) - 1) ≤ (x.num.natAbs : ℚ) := by
    have : ((A : Int) - 1) = ((A - 1 : Nat) : Int) := by omega
    rw [this, pow2_natCast]
    exact_mod_cast a1
  have a2' : (x.num.natAbs : ℚ) < pow2 (A : Int) := by
    rw [pow2_natCast]
    exact_mod_cast a2
  have b1' : pow2 ((B : Int) - 1) ≤ (x.den : ℚ) := by
    have : ((B : Int) - 1) = ((B - 1 : Nat) : Int) := by omega
    rw [this, pow2_natCast]
    exact_mod_cast b1
  have b2' : (x.den : ℚ) < pow2 (B : Int) := by
    rw [pow2_natCast]
    exact_mod_cast b2
  -- the quotient lies strictly between 2 ^ (A - B - 1) and 2 ^ (A - B + 1)
  have hlow : pow2 ((A : Int) - B - 1) < magnitude x := by
    rw [hm, lt_div_iff₀ hDpos]
    have e1 : pow2 ((A : Int) - B - 1) * pow2 (B : Int) = pow2 ((A : Int) - 1) := by
      rw [← pow2_add]
      congr 1
      omega
    calc pow2 ((A : Int) - B - 1) * (x.den : ℚ)
        < pow2 ((A : Int) - B - 1) * pow2 (B : Int) :=
          mul_lt_mul_of_pos_left b2' (pow2_pos _)
      _ = pow2 ((A : Int) - 1) := e1
      _ ≤ _ := a1'
  have hhigh : magnitude x < pow2 ((A : Int) - B + 1) := by
    rw [hm, div_lt_iff₀ hDpos]
    have e1 : pow2 ((A : Int) - B + 1) * pow2 ((B : Int) - 1) = pow2 (A : Int) := by
      rw [← pow2_add]
      congr 1
      omega
    calc (x.num.natAbs : ℚ) < pow2 (A : Int) := a2'
      _ = pow2 ((A : Int) - B + 1) * pow2 ((B : Int) - 1) := e1.symm
      _ ≤ pow2 ((A : Int) - B + 1) * (x.den : ℚ) :=
          mul_le_mul_of_nonneg_left b1' (pow2_pos _).le
  split
  · rename_i hle
    exact ⟨hle, hhigh⟩
  · rename_i hnle
    refine ⟨hlow.le, ?_⟩
    have : (A : Int) - B - 1 + 1 = (A : Int) - B := by omega
    rw [this]
    exact not_le.1 hnle

theorem binaryExponent_lt {x : ℚ} (h : x ≠ 0) {M : Int} (hx : magnitude x < pow2 M) :
    binaryExponent x < M :=
  pow2_lt_iff.1 (lt_of_le_of_lt (binaryExponent_spec h).1 hx)

theorem binaryExponent_ge {x : ℚ} (h : x ≠ 0) {M : Int} (hx : pow2 M ≤ magnitude x) :
    M ≤ binaryExponent x := by
  have := pow2_lt_iff.1 (lt_of_le_of_lt hx (binaryExponent_spec h).2)
  omega

theorem roundHalfEven_cases (t : ℚ) :
    (roundHalfEven t = ⌊t⌋ ∧ t - ⌊t⌋ ≤ 1 / 2) ∨ (roundHalfEven t = ⌊t⌋ + 1 ∧ 1 / 2 ≤ t - ⌊t⌋) := by
  unfold roundHalfEven
  split
  · rename_i h
    exact Or.inl ⟨rfl, h.le⟩
  · rename_i h
    split
    · rename_i h'
      exact Or.inr ⟨rfl, h'.le⟩
    · rename_i h'
      have he : t - ⌊t⌋ = 1 / 2 := le_antisymm (not_lt.1 h') (not_lt.1 h)
      split
      · exact Or.inl ⟨rfl, he.le⟩
      · exact Or.inr ⟨rfl, he.ge⟩

theorem roundHalfEven_ge {t : ℚ} {J : Int} (h : (J : ℚ) ≤ t) : J ≤ roundHalfEven t := by
  have hf : J ≤ ⌊t⌋ := Int.le_floor.2 h
  rcases roundHalfEven_cases t with ⟨e, -⟩ | ⟨e, -⟩ <;> rw [e] <;> omega

theorem roundHalfEven_le_of_lt {t : ℚ} {J : Int} (h : t < (J : ℚ) + 1 / 2) :
    roundHalfEven t ≤ J := by
  have hf : ⌊t⌋ ≤ J := by
    have : ⌊t⌋ < J + 1 := by
      apply Int.floor_lt.2
      push_cast
      linarith
    omega
  rcases roundHalfEven_cases t with ⟨e, -⟩ | ⟨e, hfr⟩
  · rw [e]; exact hf
  · rw [e]
    by_contra hcon
    have hJ : ⌊t⌋ = J := by omega
    rw [hJ] at hfr
    linarith

theorem roundHalfEven_le {t : ℚ} {J : Int} (h : t ≤ (J : ℚ)) : roundHalfEven t ≤ J :=
  roundHalfEven_le_of_lt (by linarith)

/-- Rounding a positive rational: the nearest multiple of the spacing, or an infinity. -/
theorem ofRat_pos {x : ℚ} (h : 0 < x) (hfin : nearest x < pow2 1024) :
    JsNumber.ofRat x = .finite (nearest x) := by
  unfold JsNumber.ofRat
  rw [if_neg h.ne', if_neg (not_le.2 hfin), if_neg (not_lt.2 h.le)]

theorem nearest_nonneg {x : ℚ} (h : 0 < x) : 0 ≤ nearest x := by
  unfold nearest
  have ht : ((0 : Int) : ℚ) ≤ magnitude x / pow2 (quantumExponent x) := by
    rw [magnitude_of_pos h]
    exact_mod_cast (div_pos h (pow2_pos _)).le
  have := roundHalfEven_ge ht
  exact mul_nonneg (by exact_mod_cast this) (pow2_pos _).le

/-- A multiple `J * 2 ^ m` of a spacing that is not finer than the one around `x` and that
`x` does not exceed is not exceeded by the rounding of `x`. -/
theorem nearest_le_grid {x : ℚ} (h : 0 < x) (J : Int) (m : Int) (hm : quantumExponent x ≤ m)
    (hx : x ≤ (J : ℚ) * pow2 m) : nearest x ≤ (J : ℚ) * pow2 m := by
  unfold nearest
  rw [magnitude_of_pos h]
  generalize quantumExponent x = k at hm
  obtain ⟨d, hd⟩ : ∃ d : Nat, m = k + d := ⟨(m - k).toNat, by omega⟩
  have hp : pow2 m = ((2 ^ d : Nat) : ℚ) * pow2 k := by
    rw [hd, pow2_add, pow2_natCast, mul_comm]
  have hY : (J : ℚ) * pow2 m = ((J * (2 ^ d : Nat) : Int) : ℚ) * pow2 k := by
    rw [hp]
    push_cast
    ring
  rw [hY] at hx ⊢
  have ht : x / pow2 k ≤ ((J * (2 ^ d : Nat) : Int) : ℚ) := by
    rw [div_le_iff₀ (pow2_pos k)]
    exact hx
  have := roundHalfEven_le ht
  exact mul_le_mul_of_nonneg_right (by exact_mod_cast this) (pow2_pos k).le

/-- A multiple `J * 2 ^ m` of a spacing that is not finer than the one around `x` and that
does not exceed `x` does not exceed the rounding of `x`. -/
theorem grid_le_nearest {x : ℚ} (h : 0 < x) (J : Int) (m : Int) (hm : quantumExponent x ≤ m)
    (hx : (J : ℚ) * pow2 m ≤ x) : (J : ℚ) * pow2 m ≤ nearest x := by
  unfold nearest
  rw [magnitude_of_pos h]
  generalize quantumExponent x = k at hm
  obtain ⟨d, hd⟩ : ∃ d : Nat, m = k + d := ⟨(m - k).toNat, by omega⟩
  have hp : pow2 m = ((2 ^ d : Nat) : ℚ) * pow2 k := by
    rw [hd, pow2_add, pow2_natCast, mul_comm]
  have hY : (J : ℚ) * pow2 m = ((J * (2 ^ d : Nat) : Int) : ℚ) * pow2 k := by
    rw [hp]
    push_cast
    ring
  rw [hY] at hx ⊢
  have ht : ((J * (2 ^ d : Nat) : Int) : ℚ) ≤ x / pow2 k := by
    rw [le_div_iff₀ (pow2_pos k)]
    exact hx
  have := roundHalfEven_ge ht
  exact mul_le_mul_of_nonneg_right (by exact_mod_cast this) (pow2_pos k).le

/-- Below the middle between two neighbouring doubles the rounding goes to the lower one. -/
theorem nearest_le_of_lt_middle {x : ℚ} (h : 0 < x) (J : Int)
    (hx : x < ((J : ℚ) + 1 / 2) * pow2 (quantumExponent x)) :
    nearest x ≤ (J : ℚ) * pow2 (quantumExponent x) := by
  unfold nearest
  rw [magnitude_of_pos h]
  have ht : x / pow2 (quantumExponent x) < (J : ℚ) + 1 / 2 := by
    rw [div_lt_iff₀ (pow2_pos _)]
    exact hx
  have := roundHalfEven_le_of_lt ht
  exact mul_le_mul_of_nonneg_right (by exact_mod_cast this) (pow2_pos _).le

theorem quantumExponent_le {x : ℚ} (h : 0 < x) {M : Int} (hM : -1022 < M) (hx : x < pow2 M) :
    quantumExponent x ≤ M - 53 := by
  have := binaryExponent_lt h.ne' (by rw [magnitude_of_pos h]; exact hx)
  unfold quantumExponent
  omega

theorem quantumExponent_eq {x : ℚ} (h : 0 < x) {M : Int} (hM : -1022 ≤ M) (hlo : pow2 M ≤ x)
    (hhi : x < pow2 (M + 1)) : quantumExponent x = M - 52 := by
  have h1 := binaryExponent_lt h.ne' (by rw [magnitude_of_pos h]; exact hhi)
  have h2 := binaryExponent_ge h.ne' (by rw [magnitude_of_pos h]; exact hlo)
  unfold quantumExponent
  omega


/-! ### The range of the keys in double arithmetic -/

theorem pow2_values :
    pow2 (-53) = 1 / 9007199254740992 ∧ pow2 (-39) = 1 / 549755813888 ∧ pow2 (-1) = 1 / 2 ∧
      pow2 0 = 1 ∧ pow2 13 = 8192 ∧ pow2 14 = 16384 := by
  decide!

theorem literal_values :
    (0 : JsNumber) = .finite 0 ∧ (1 : JsNumber) = .finite 1 ∧
      (1000 : JsNumber) = .finite 1000 ∧ (9000 : JsNumber) = .finite 9000 := by
  decide!

/-- The doubles below 1 end at `1 - 2 ^ -53`. -/
theorem double_below_one {q : ℚ} (hd : JsNumber.ofRat q = .finite q) (h0 : 0 < q)
    (h1 : q < 1) : q ≤ 1 - pow2 (-53) := by
  obtain ⟨e53, -, e1, e0, -, -⟩ := pow2_values
  by_cases hhalf : q < 1 / 2
  · rw [e53]
    linarith
  · have hnear : nearest q = q := by
      unfold JsNumber.ofRat at hd
      rw [if_neg h0.ne'] at hd
      split at hd
      · cases hd
      · rw [if_neg (not_lt.2 h0.le)] at hd
        exact JsNumber.finite.inj hd
    have hk : quantumExponent q = -1 - 52 :=
      quantumExponent_eq h0 (by norm_num) (by rw [e1]; exact not_lt.1 hhalf)
        (by rw [show (-1 : Int) + 1 = 0 by norm_num, e0]; exact h1)
    have hk' : quantumExponent q = -53 := by rw [hk]; norm_num
    unfold nearest at hnear
    rw [hk', e53] at hnear
    generalize roundHalfEven (magnitude q / (1 / 9007199254740992)) = N at hnear
    have hN : N < 9007199254740992 := by
      have : (N : ℚ) < 9007199254740992 := by
        rw [← hnear] at h1
        linarith
      exact_mod_cast this
    have hN' : (N : ℚ) ≤ 9007199254740991 := by
      have : N ≤ 9007199254740991 := by omega
      exact_mod_cast this
    rw [e53, ← hnear]
    linarith

/-- The two roundings of `Math.floor(1000 + r * 9000)` for a double `r` of `[0, 1)`: the
product is a double of `[0, 9000)` and the sum a double of `[1000, 10000)`. -/
theorem key_value (q : ℚ) (hd : JsNumber.ofRat q = .finite q) (h0 : 0 ≤ q) (h1 : q < 1) :
    ∃ y z : ℚ, JsNumber.ofRat (q * 9000) = .finite y ∧
      JsNumber.ofRat (1000 + y) = .finite z ∧ 1000 ≤ z ∧ z < 10000 := by
  obtain ⟨e53, e39, -, e0, e13, e14⟩ := pow2_values
  have hbig : pow2 14 ≤ pow2 1024 := pow2_le (by norm_num)
  -- the product
  have hprod : ∃ y, JsNumber.ofRat (q * 9000) = .finite y ∧ 0 ≤ y ∧
      y ≤ 9000 - 1 / 549755813888 := by
    by_cases hq : q = 0
    · refine ⟨0, ?_, le_rfl, by norm_num⟩
      rw [hq]
      simp [JsNumber.ofRat]
    · have hpos : 0 < q := lt_of_le_of_ne h0 (Ne.symm hq)
      have hb := double_below_one hd hpos h1
      rw [e53] at hb
      have hx : 0 < q * 9000 := by linarith
      have hxle : q * 9000 ≤ 9000 - 9000 / 9007199254740992 := by linarith
      have hup : nearest (q * 9000) ≤ 9000 - 1 / 549755813888 := by
        by_cases hlow : q * 9000 < 8192
        · have hk := quantumExponent_le hx (by norm_num : (-1022 : Int) < 13)
            (by rw [e13]; exact hlow)
          have := nearest_le_grid hx 8192 0 (by omega) (by rw [e0]; push_cast; linarith)
          rw [e0] at this
          push_cast at this
          linarith
        · have hk := quantumExponent_eq hx (by norm_num : (-1022 : Int) ≤ 13)
            (by rw [e13]; exact not_lt.1 hlow)
            (by rw [show (13 : Int) + 1 = 14 by norm_num, e14]; linarith)
          have hk' : quantumExponent (q * 9000) = -39 := by rw [hk]; norm_num
          have := nearest_le_of_lt_middle hx (9000 * 549755813888 - 1)
            (by rw [hk', e39]; push_cast; linarith)
          rw [hk', e39] at this
          push_cast at this
          linarith
      refine ⟨nearest (q * 9000), ofRat_pos hx ?_, nearest_nonneg hx, hup⟩
      rw [e14] at hbig
      linarith
  obtain ⟨y, hy, hy0, hy1⟩ := hprod
  -- the sum
  have hz : 0 < 1000 + y := by linarith
  have hk := quantumExponent_le hz (by norm_num : (-1022 : Int) < 14)
    (by rw [e14]; linarith)
  have hup := nearest_le_grid hz (10000 * 549755813888 - 1) (-39) (by omega)
    (by rw [e39]; push_cast; linarith)
  have hlo := grid_le_nearest hz 1000 0 (by omega) (by rw [e0]; push_cast; linarith)
  rw [e39] at hup
  rw [e0] at hlo
  push_cast at hup hlo
  refine ⟨y, nearest (1000 + y), hy, ofRat_pos hz ?_, by linarith, by linarith⟩
  rw [e14] at hbig
  linarith

theorem randomKey_range (r : JsNumber) (hd : r.isDouble = true) (h0 : 0 ≤ r) (h1 : r < 1) :
    ∃ n : Nat, 1000 ≤ n ∧ n ≤ 9999 ∧ JsNumber.floor (1000 + r * 9000) = .finite n ∧
      randomKey r = toString n := by
  obtain ⟨l0, l1, l1000, l9000⟩ := literal_values
  rw [l0] at h0
  rw [l1] at h1
  change JsNumber.le (.finite 0) r = true at h0
  change JsNumber.lt r (.finite 1) = true at h1
  cases r with
  | nan => simp [JsNumber.le] at h0
  | infinity b =>
    simp only [JsNumber.le, JsNumber.lt] at h0 h1
    rw [h1] at h0
    cases h0
  | finite q =>
    simp only [JsNumber.le, JsNumber.lt, decide_eq_true_eq] at h0 h1
    simp only [JsNumber.isDouble, decide_eq_true_eq] at hd
    obtain ⟨y, z, hy, hzv, hz0, hz1⟩ := key_value q hd h0 h1
    have hval : (1000 : JsNumber) + JsNumber.finite q * 9000 = .finite z := by
      rw [l1000, l9000]
      change JsNumber.add (.finite 1000) (JsNumber.mul (.finite q) (.finite 9000)) = _
      simp only [JsNumber.mul, JsNumber.add, hy, hzv]
    have hfl0 : (1000 : Int) ≤ ⌊z⌋ := Int.le_floor.2 (by push_cast; exact hz0)
    have hfl1 : ⌊z⌋ < (10000 : Int) := Int.floor_lt.2 (by push_cast; exact hz1)
    obtain ⟨n, hn⟩ := Int.eq_ofNat_of_zero_le (by omega : (0 : Int) ≤ ⌊z⌋)
    refine ⟨n, by omega, by omega, ?_, ?_⟩
    · rw [hval]
      simp only [JsNumber.floor, hn]
      congr 1
    · unfold randomKey
      rw [hval]
      simp only [JsNumber.floor, JsNumber.integerText, Int.floor_intCast, hn]
      rfl

/-- A number above 0 passes the quantity test of `handleAddProduct`: it is not `NaN` and the
comparison `<= 0` is false. -/
theorem JsNumber.pos_accepted {q : JsNumber} (h : 0 < q) : q.isNaN = false ∧ ¬ q ≤ 0 := by
  rw [literal_values.1] at h ⊢
  change JsNumber.lt (.finite 0) q = true at h
  change _ ∧ ¬ JsNumber.le q (.finite 0) = true
  cases q with
  | nan => simp [JsNumber.lt] at h
  | infinity b =>
    simp only [JsNumber.lt, Bool.not_eq_true'] at h
    simp [JsNumber.le, JsNumber.isNaN, h]
  | finite x =>
    simp only [JsNumber.lt, decide_eq_true_eq] at h
    simp only [JsNumber.le, JsNumber.isNaN, decide_eq_true_eq, not_le]
    exact ⟨trivial, h⟩

/-- The largest double below 1 gives the key 9999; a value between it and 1, which no double
is, would give 10000. -/
theorem randomKey_at_the_end :
    JsNumber.isDouble (.finite (1 - 1 / 2 ^ 53)) = true ∧
      randomKey (.finite (1 - 1 / 2 ^ 53)) = "9999" ∧
      JsNumber.isDouble (.finite (1 - 1 / 2 ^ 60)) = false ∧
      randomKey (.finite (1 - 1 / 2 ^ 60)) = "10000" := by
  decide!

/-! ## The claims -/

/-- C1 (evaluation at the failing input): with the connection open, a customer, a product and
a one-line draft, the line-item insert is made to fail.  `handleAddOrder` reports its error, the
trace shows the failed insert, `tblorder_products` is still empty, and `tblorders`, empty
before the call, now holds the header of order 1. -/
theorem handleAddOrder_failed_line_keeps_header :
    (handleAddOrder draft lineInsertFails).2.2
        = [("Error", "Failed to add order. Please try again.")] ∧
      (⟨.run (Statement.insertOrderProduct 1 "2001" 4 14).sql, false⟩ : Event) ∈
        newEvents lineInsertFails (handleAddOrder draft lineInsertFails).2.1 ∧
      rows lineInsertFails.file.tblorders = [] ∧
      rows (handleAddOrder draft lineInsertFails).2.1.file.tblorders
        = [⟨1, "2024-06-01", "1001", 14⟩] ∧
      rows (handleAddOrder draft lineInsertFails).2.1.file.tblorder_products = [] := by
  decide!

/-- C2 as stated fails: in a transaction of two inserts the second insert is refused by its
foreign key and the `ROLLBACK` that follows is made to fail.  `executeTransaction` fails, but
the row of the first insert stays in `tblorder_products`, and the transaction stays open. -/
theorem failed_rollback_keeps_first_insert :
    (∃ sql, (⟨.run sql, false⟩ : Event) ∈ newEvents rollbackFails
        (executeTransaction twoInserts rollbackFails).2) ∧
      (executeTransaction twoInserts rollbackFails).1 = .error ⟨"database is locked"⟩ ∧
      rows rollbackFails.file.tblorder_products = [⟨1, "2001", 4, 14⟩] ∧
      rows (executeTransaction twoInserts rollbackFails).2.file.tblorder_products =
        [⟨1, "2001", 4, 14⟩, ⟨1, "2001", 1, 3.5⟩] ∧
      (executeTransaction twoInserts rollbackFails).2.db = some ⟨true, some storeWithOrder⟩ :=
  ⟨⟨(Statement.insertOrderProduct 1 "9999" 2 7).sql, by decide!⟩, by decide!, by decide!,
    by decide!, by decide!⟩

/-- C2 amended: whenever a statement of the list fails when run inside `executeTransaction`
and no `ROLLBACK` fails, the call fails and the rows of every table are those from before the
call. -/
theorem executeTransaction_rolls_back (queries : List Statement) (s : Sys)
    (hfail : ∃ sql, (⟨.run sql, false⟩ : Event) ∈ newEvents s (executeTransaction queries s).2)
    (hrollback : (⟨.exec .rollback, false⟩ : Event) ∉
      newEvents s (executeTransaction queries s).2) :
    (∃ err, (executeTransaction queries s).1 = .error err) ∧
      rows (executeTransaction queries s).2.file.tblusers = rows s.file.tblusers ∧
      rows (executeTransaction queries s).2.file.tblproducts = rows s.file.tblproducts ∧
      rows (executeTransaction queries s).2.file.tblcustomers = rows s.file.tblcustomers ∧
      rows (executeTransaction queries s).2.file.tblorders = rows s.file.tblorders ∧
      rows (executeTransaction queries s).2.file.tblorder_products
        = rows s.file.tblorder_products := by
  have h := executeTransaction_spec queries s
  obtain ⟨err, herr⟩ := h.failedRun hfail
  exact ⟨⟨err, herr⟩, (h.effectErr err herr hrollback).rows_eq⟩

/-- Witness for C2 amended: the first insert succeeds, the second names a product that does
not exist and fails on the foreign key; the `ROLLBACK` succeeds and the first insert is
undone. -/
theorem executeTransaction_rolls_back_witness :
    (∃ sql, (⟨.run sql, false⟩ : Event) ∈ newEvents (ready storeWithOrder [])
        (executeTransaction twoInserts (ready storeWithOrder [])).2) ∧
      (⟨.exec .rollback, false⟩ : Event) ∉ newEvents (ready storeWithOrder [])
        (executeTransaction twoInserts (ready storeWithOrder [])).2 ∧
      ((∃ err, (executeTransaction twoInserts (ready storeWithOrder [])).1 = .error err) ∧
      rows (executeTransaction twoInserts (ready storeWithOrder [])).2.file.tblusers
        = rows (ready storeWithOrder []).file.tblusers ∧
      rows (executeTransaction twoInserts (ready storeWithOrder [])).2.file.tblproducts
        = rows (ready storeWithOrder []).file.tblproducts ∧
      rows (executeTransaction twoInserts (ready storeWithOrder [])).2.file.tblcustomers
        = rows (ready storeWithOrder []).file.tblcustomers ∧
      rows (executeTransaction twoInserts (ready storeWithOrder [])).2.file.tblorders
        = rows (ready storeWithOrder []).file.tblorders ∧
      rows (executeTransaction twoInserts (ready storeWithOrder [])).2.file.tblorder_products
        = rows (ready storeWithOrder []).file.tblorder_products) :=
  ⟨⟨(Statement.insertOrderProduct 1 "9999" 2 7).sql, by decide!⟩, by decide!,
    executeTransaction_rolls_back twoInserts (ready storeWithOrder [])
      ⟨(Statement.insertOrderProduct 1 "9999" 2 7).sql, by decide!⟩ (by decide!)⟩

/-- C3 as stated fails: order 1 is committed, then `handleDeleteOrder 1` deletes its line
items and its second `DELETE` fails; the header stays without a line item. -/
theorem reach_with_failures_breaks_invariant :
    ¬ ∀ s, Reach (fun _ _ => True) s → EveryOrderHasLine s.file := by
  intro h
  have hr : Reach (fun _ _ => True)
      (SummaryScreen.handleDeleteOrder 1 true summary
        (handleAddOrder draft secondDeleteFails).2.1).2.1 :=
    Reach.deleteOrder _ _ _ _
      (Reach.addOrder _ _ (Reach.start _ (by decide!) (by decide!) (ready_noTxn _ _)) trivial)
      trivial
  have ho : (⟨1, "2024-06-01", "1001", 14⟩ : OrderRow) ∈ rows
      (SummaryScreen.handleDeleteOrder 1 true summary
        (handleAddOrder draft secondDeleteFails).2.1).2.1.file.tblorders := by
    decide!
  have hnil : rows (SummaryScreen.handleDeleteOrder 1 true summary
      (handleAddOrder draft secondDeleteFails).2.1).2.1.file.tblorder_products = [] := by
    decide!
  obtain ⟨l, hl, -⟩ := h _ hr _ ho
  rw [hnil] at hl
  cases hl

/-- C3 amended: in every state reached from a store without orders, no transaction being
open, by calls of `handleAddOrder` and `handleDeleteOrder`, every row of `tblorders` has a row
of `tblorder_products` with its order number.  Native calls may fail during the calls; left
out are only the calls that stop between two writes that belong together: a `handleAddOrder`
that inserted the header and did not commit the line items, and a `handleDeleteOrder` that
deleted line items and did not delete the header. -/
theorem every_order_has_line (s : Sys) (h : Reach Whole s) : EveryOrderHasLine s.file := by
  have key : EveryOrderHasLine s.file ∧ s.NoTxn := by
    induction h with
    | start s ho hl hc =>
      refine ⟨?_, hc⟩
      intro o hmem
      rw [ho] at hmem
      cases hmem
    | addOrder st s _ hs ih =>
      obtain ⟨ih1, ih2⟩ := ih
      rcases handleAddOrder_cases st s with ⟨heq, -⟩ | ⟨-, -, err, herr, heq, -⟩ |
        ⟨-, hne, n, hok, hreads, -⟩
      · rw [heq]; exact ⟨ih1, ih2⟩
      · rcases (commitOrder_whole st s ih2).1 err herr with ⟨hg, hc⟩ | ⟨hin, hno⟩
        · rw [heq]
          exact ⟨ih1.of_rows hg.rows_eq.2.2.2.1 hg.rows_eq.2.2.2.2, hc⟩
        · exfalso
          rw [← heq] at hin hno
          exact hno (hs.1 hin)
      · refine ⟨?_, hreads.2.2 ((commitOrder_whole st s ih2).2 n hok)⟩
        obtain ⟨hset, -⟩ := (commitOrder_spec st s).2.2 n hok
        obtain ⟨-, -, -, ho, hl⟩ := hset.grown_right hreads.2.1
        intro o hmem
        rw [ho] at hmem
        rcases List.mem_append.1 hmem with hmem | hmem
        · obtain ⟨l, hlm, hnum⟩ := ih1 o hmem
          exact ⟨l, by rw [hl]; exact List.mem_append.2 (Or.inl hlm), hnum⟩
        · simp only [List.mem_singleton] at hmem
          subst hmem
          obtain ⟨item, items, hitems⟩ := List.exists_cons_of_ne_nil hne
          exact ⟨lineRow n item, by rw [hl, hitems]; simp, rfl⟩
    | deleteOrder n confirmed st s _ hs ih =>
      obtain ⟨ih1, ih2⟩ := ih
      obtain ⟨hc, hcases⟩ := handleDeleteOrder_whole n confirmed st s ih2
      refine ⟨?_, hc⟩
      rcases hcases with hg | ⟨hin, hno, ho⟩ | hset
      · exact ih1.of_rows hg.rows_eq.2.2.2.1 hg.rows_eq.2.2.2.2
      · rcases hs.2 hin with hdone | hl
        · exact absurd hdone hno
        · exact ih1.of_rows ho hl
      · obtain ⟨-, -, -, ho, hl⟩ := hset
        intro o hmem
        rw [ho] at hmem
        obtain ⟨hmem, hne⟩ := List.mem_filter.1 hmem
        obtain ⟨l, hlm, hnum⟩ := ih1 o hmem
        refine ⟨l, ?_, hnum⟩
        rw [hl]
        exact List.mem_filter.2 ⟨hlm, by rw [hnum]; exact hne⟩
  exact key.1

/-- Witness for C3 amended: order 1 is committed and the first query of the reload that
follows fails; the call is admitted, and order 1 has its line item. -/
theorem every_order_has_line_witness :
    (∃ ev ∈ newEvents reloadFails (handleAddOrder draft reloadFails).2.1, ev.ok = false) ∧
      rows (handleAddOrder draft reloadFails).2.1.file.tblorders
        = [⟨1, "2024-06-01", "1001", 14⟩] ∧
      EveryOrderHasLine (handleAddOrder draft reloadFails).2.1.file :=
  ⟨⟨⟨.getAll Query.customersByName.sql, false⟩, by decide!, rfl⟩, by decide!,
    every_order_has_line _
      (Reach.addOrder draft reloadFails
        (Reach.start _ (by decide!) (by decide!) (ready_noTxn _ _))
        (by unfold Whole; decide!))⟩

/-- C4: with an empty line-item list, whatever the date and the customer, `handleAddOrder`
shows one error alert and makes no call at all: the form and the whole system state, store and
trace included, are the ones from before. -/
theorem handleAddOrder_empty_draft (st : State) (s : Sys) (h : st.tempOrderProducts = []) :
    (∃ msg, (handleAddOrder st s).2.2 = [("Error", msg)]) ∧
      (handleAddOrder st s).2.1 = s ∧ (handleAddOrder st s).1 = st := by
  unfold handleAddOrder
  by_cases hv : (validateInputs st).1 = true
  · simp [hv, h]
  · have hv' : (validateInputs st).1 = false := by simpa using hv
    simpa [hv'] using validateInputs_alert_shape st hv'

/-- Witness for C4: the form with header set and no line. -/
theorem handleAddOrder_empty_draft_witness :
    form.tempOrderProducts = [] ∧
      ((∃ msg, (handleAddOrder form (ready store [])).2.2 = [("Error", msg)]) ∧
        (handleAddOrder form (ready store [])).2.1 = ready store [] ∧
        (handleAddOrder form (ready store [])).1 = form) :=
  ⟨rfl, handleAddOrder_empty_draft form (ready store []) rfl⟩

/-- C5 as stated fails: a draft of one mint at 0.10 and one toffee at 0.20 is committed.  The
subtotals written to `tblorder_products` are the doubles nearest to 0.1 and 0.2, and the
`total_price` written to `tblorders` is 0.30000000000000004, the double nearest to their sum,
which is not their sum. -/
theorem total_is_rounded_sum :
    (handleAddOrder sweetDraft (ready sweetStore [])).2.2 = [] ∧
      (rows (handleAddOrder sweetDraft (ready sweetStore [])).2.1.file.tblorder_products).map
          (fun l => (l.order_number, l.product_number, l.subtotal.value)) =
        [(1, "3001", some (3602879701896397 / 36028797018963968)),
         (1, "3002", some (3602879701896397 / 18014398509481984))] ∧
      (rows (handleAddOrder sweetDraft (ready sweetStore [])).2.1.file.tblorders).map
          (fun o => (o.order_number, o.total_price.value)) =
        [(1, some (1351079888211149 / 4503599627370496))] ∧
      (1351079888211149 / 4503599627370496 : ℚ) ≠
        3602879701896397 / 36028797018963968 + 3602879701896397 / 18014398509481984 := by
  decide!

/-- C5 amended: when a draft that passes validation and has a line is committed without the
failure alert, `tblorders` gains exactly one row, under a new order number, whose
`total_price` is the sum of the subtotals of the draft lines taken as the code takes it,
adding the subtotals to 0 from the first line to the last, every addition rounding to the
nearest double; and `tblorder_products` gains exactly one row per draft line, under that order
number, with the line's product, quantity and subtotal. -/
theorem handleAddOrder_total_is_sum (st : State) (s : Sys)
    (hvalid : (validateInputs st).1 = true) (hlines : st.tempOrderProducts ≠ [])
    (hok : ("Error", "Failed to add order. Please try again.") ∉ (handleAddOrder st s).2.2) :
    ∃ n, (∀ o ∈ rows s.file.tblorders, o.order_number ≠ n) ∧
      rows (handleAddOrder st s).2.1.file.tblorders = rows s.file.tblorders ++
        [⟨n, st.orderDate, st.customerId,
          (st.tempOrderProducts.map (fun item => item.subtotal)).foldl
            (fun sum subtotal => sum + subtotal) 0⟩] ∧
      rows (handleAddOrder st s).2.1.file.tblorder_products = rows s.file.tblorder_products ++
        st.tempOrderProducts.map
          (fun item => ⟨n, item.product_number, item.qty, item.subtotal⟩) := by
  rcases handleAddOrder_cases st s with ⟨-, hbad, -⟩ | ⟨-, -, err, -, -, halert⟩ |
    ⟨-, -, n, hcommit, hreads, -⟩
  · rcases hbad with h | h
    · rw [hvalid] at h; cases h
    · exact absurd h hlines
  · rw [halert] at hok
    exact absurd (List.mem_singleton.2 rfl) hok
  · obtain ⟨hset, hfresh⟩ := (commitOrder_spec st s).2.2 n hcommit
    obtain ⟨-, -, -, ho, hl⟩ := hset.grown_right hreads.2.1
    refine ⟨n, fun o hmem => Nat.ne_of_lt (hfresh o hmem), ?_, ?_⟩
    · rw [ho, totalPrice_eq_foldl]
    · rw [hl]; rfl

/-- Witness for C5 amended (end-to-end scenario 1): four cupcakes at 3.50 give one order row
with `total_price` 14 and one line-item row with `subtotal` 14. -/
theorem handleAddOrder_total_is_sum_witness :
    (∃ n, (∀ o ∈ rows (ready store []).file.tblorders, o.order_number ≠ n) ∧
      rows (handleAddOrder draft (ready store [])).2.1.file.tblorders
        = rows (ready store []).file.tblorders ++
          [⟨n, draft.orderDate, draft.customerId,
            (draft.tempOrderProducts.map (fun item => item.subtotal)).foldl
              (fun sum subtotal => sum + subtotal) 0⟩] ∧
      rows (handleAddOrder draft (ready store [])).2.1.file.tblorder_products
        = rows (ready store []).file.tblorder_products ++
          draft.tempOrderProducts.map
            (fun item => ⟨n, item.product_number, item.qty, item.subtotal⟩)) ∧
      rows (handleAddOrder draft (ready store [])).2.1.file.tblorders
        = [⟨1, "2024-06-01", "1001", 14⟩] ∧
      rows (handleAddOrder draft (ready store [])).2.1.file.tblorder_products
        = [⟨1, "2001", 4, 14⟩] :=
  ⟨handleAddOrder_total_is_sum draft (ready store []) (by decide!) (by decide!) (by decide!),
    by decide!, by decide!⟩

/-- C6 as stated fails: three mints at 0.10 are added to the draft.  The subtotal of the new
line is 0.30000000000000004, the double nearest to the product of the quantity 3 and the
price, the double nearest to 0.1; it is not that product. -/
theorem subtotal_is_rounded_product :
    (handleAddProduct number
        { sweetForm with productId := "3001", productQty := "3" }).1.tempOrderProducts.map
          (fun l => (l.product_number, l.price.value, l.qty.value, l.subtotal.value)) =
        [("3001", some (3602879701896397 / 36028797018963968), some 3,
          some (1351079888211149 / 4503599627370496))] ∧
      (1351079888211149 / 4503599627370496 : ℚ) ≠
        3 * (3602879701896397 / 36028797018963968) := by
  decide!

/-- C6 amended: with date and customer set, a product `p` of the loaded list selected (the
keys of the list are distinct, as the primary key makes them, and the key of `p` is not the
empty text, which the form reads as no selection) and a quantity text that converts to a
number `q > 0`, `Infinity` included, `handleAddProduct` shows no alert and turns the line list
`L` into `L` followed by the one line `(p.product_number, qty q, subtotal p.price * q)`,
whatever lines `L` already holds; the subtotal is the product as the code takes it, rounded to
the nearest double. -/
theorem handleAddProduct_appends (Number : String → JsNumber) (st : State) (p : ProductRow)
    (q : JsNumber) (hdate : jsTrim st.orderDate ≠ "") (hcustomer : jsTrim st.customerId ≠ "")
    (hp : p ∈ st.products)
    (hkeys : (st.products.map (fun x => x.product_number)).Nodup)
    (hid : st.productId = p.product_number) (hkey : p.product_number ≠ "")
    (hqty : st.productQty ≠ "") (hnum : Number st.productQty = q) (hpos : 0 < q) :
    (handleAddProduct Number st).1.tempOrderProducts
        = st.tempOrderProducts ++ [⟨p.product_number, p.name, p.price, q, p.price * q⟩] ∧
      (handleAddProduct Number st).2 = [] := by
  unfold handleAddProduct
  have hfind := find_of_nodup_keys st.products p hp hkeys
  have hid' : st.productId ≠ "" := by rw [hid]; exact hkey
  obtain ⟨hnan, hle⟩ := JsNumber.pos_accepted hpos
  simp only [hdate, hcustomer, hid', hqty, hkey, decide_False, Bool.or_self, Bool.false_eq_true,
    if_false, hnum, hnan, hle, hid, hfind]
  exact ⟨trivial, trivial⟩

/-- Witness for C6 amended: a second line for the product already in the draft is appended,
the first line stays; and the quantity text `Infinity` is accepted, with an infinite
subtotal. -/
theorem handleAddProduct_appends_witness :
    ((handleAddProduct number { draft with productId := "2001", productQty := "2" }).1.tempOrderProducts
        = draft.tempOrderProducts ++ [⟨"2001", "Cupcake", 3.5, 2, 3.5 * 2⟩] ∧
      (handleAddProduct number { draft with productId := "2001", productQty := "2" }).2 = []) ∧
    ((handleAddProduct number
        { form with productId := "2001", productQty := "Infinity" }).1.tempOrderProducts
        = form.tempOrderProducts ++
          [⟨"2001", "Cupcake", 3.5, .infinity false, 3.5 * .infinity false⟩] ∧
      (handleAddProduct number { form with productId := "2001", productQty := "Infinity" }).2
        = []) ∧
    (3.5 * 2 : JsNumber) = 7 ∧ (3.5 * .infinity false : JsNumber) = .infinity false :=
  ⟨handleAddProduct_appends number { draft with productId := "2001", productQty := "2" }
      cupcake 2 (by decide!) (by decide!) (by decide!) (by decide!) (by decide!) (by decide!)
      (by decide!) (by decide!) (by decide!),
    handleAddProduct_appends number { form with productId := "2001", productQty := "Infinity" }
      cupcake (.infinity false) (by decide!) (by decide!) (by decide!) (by decide!) (by decide!)
      (by decide!) (by decide!) (by decide!) (by decide!),
    by decide!, by decide!⟩

/-- C7 as stated fails: on a connection opened by `getDatabase` the delete of the product of
order 1 does not succeed; `handleDelete` shows its failure alert and the product is still in
`tblproducts`. -/
theorem handleDelete_referenced_product_fails :
    (ProductsScreen.handleDelete cupcake true catalog (closed storeWithOrder [])).2.2
        = [("Error", "Failed to delete product.")] ∧
      (ProductsScreen.handleDelete cupcake true catalog (closed storeWithOrder [])).2.1.db
        = some ⟨true, none⟩ ∧
      cupcake ∈ rows
        (ProductsScreen.handleDelete cupcake true catalog (closed storeWithOrder [])).2.1.file.tblproducts := by
  decide!

/-- C7 amended: on the connection of `getDatabase` (foreign keys enforced), deleting through
`handleDelete` a product that a row of `tblorder_products` refers to is refused: the failure
alert is shown, the rows of all five tables are unchanged, and the line item is still returned
by the order-products query, joined with the product, with its original subtotal. -/
theorem handleDelete_referenced_product_refused (item : ProductRow)
    (st : ProductsScreen.State) (s : Sys) (ps : List ProductRow) (ls : List OrderProductRow)
    (l : OrderProductRow)
    (hfk : ∀ c, s.db = some c → c.foreign_keys = true)
    (hps : s.file.tblproducts = some ps) (hls : s.file.tblorder_products = some ls)
    (hitem : item ∈ ps) (hl : l ∈ ls) (href : l.product_number = item.product_number) :
    (ProductsScreen.handleDelete item true st s).2.2 = [("Error", "Failed to delete product.")] ∧
      rows (ProductsScreen.handleDelete item true st s).2.1.file.tblusers = rows s.file.tblusers ∧
      rows (ProductsScreen.handleDelete item true st s).2.1.file.tblproducts
        = rows s.file.tblproducts ∧
      rows (ProductsScreen.handleDelete item true st s).2.1.file.tblcustomers
        = rows s.file.tblcustomers ∧
      rows (ProductsScreen.handleDelete item true st s).2.1.file.tblorders
        = rows s.file.tblorders ∧
      rows (ProductsScreen.handleDelete item true st s).2.1.file.tblorder_products
        = rows s.file.tblorder_products ∧
      ∃ details, (Query.orderProducts l.order_number).eval
          (ProductsScreen.handleDelete item true st s).2.1.file = .ok details ∧
        (⟨l.order_number, l.product_number, l.qty, l.subtotal, item.name, item.price⟩ :
          OrderProductDetail) ∈ details := by
  obtain ⟨halert, hg⟩ := handleDelete_refused item st s ps ls l hfk hps hls hitem hl href
  obtain ⟨h1, h2, h3, h4, h5⟩ := hg.rows_eq
  refine ⟨halert, h1, h2, h3, h4, h5, ?_⟩
  unfold Query.orderProducts
  simp only [hg.products hps, hg.order_products hls]
  refine ⟨_, rfl, ?_⟩
  simp only [List.mem_flatMap, List.mem_filter, List.mem_map]
  exact ⟨l, ⟨hl, by simp⟩, item, ⟨hitem, by simp [href]⟩, rfl⟩

/-- Witness for C7 amended: the product of order 1. -/
theorem handleDelete_referenced_product_refused_witness :
    (ProductsScreen.handleDelete cupcake true catalog (closed storeWithOrder [])).2.2
        = [("Error", "Failed to delete product.")] ∧
      rows (ProductsScreen.handleDelete cupcake true catalog
          (closed storeWithOrder [])).2.1.file.tblorder_products
        = rows (closed storeWithOrder []).file.tblorder_products :=
  ⟨(handleDelete_referenced_product_refused cupcake catalog (closed storeWithOrder [])
      [cupcake] [⟨1, "2001", 4, 14⟩] ⟨1, "2001", 4, 14⟩ (by decide!) rfl rfl (by decide!)
      (by decide!) rfl).1,
    by decide!⟩

/-- C8: when both `DELETE` statements of `handleDeleteOrder n` succeed, the rows left in
`tblorder_products` and in `tblorders` are exactly the rows of the other orders, in their
order, so no row with order number `n` remains; the product, customer and user rows are
unchanged. -/
theorem handleDeleteOrder_removes_order (n : Nat) (st : SummaryScreen.State) (s : Sys)
    (hlines : (⟨.run (Statement.deleteOrderProducts n).sql, true⟩ : Event) ∈
      newEvents s (SummaryScreen.handleDeleteOrder n true st s).2.1)
    (hheader : (⟨.run (Statement.deleteOrder n).sql, true⟩ : Event) ∈
      newEvents s (SummaryScreen.handleDeleteOrder n true st s).2.1) :
    rows (SummaryScreen.handleDeleteOrder n true st s).2.1.file.tblorder_products
        = (rows s.file.tblorder_products).filter (fun l => l.order_number != n) ∧
      rows (SummaryScreen.handleDeleteOrder n true st s).2.1.file.tblorders
        = (rows s.file.tblorders).filter (fun o => o.order_number != n) ∧
      (∀ l ∈ rows (SummaryScreen.handleDeleteOrder n true st s).2.1.file.tblorder_products,
        l.order_number ≠ n) ∧
      (∀ o ∈ rows (SummaryScreen.handleDeleteOrder n true st s).2.1.file.tblorders,
        o.order_number ≠ n) ∧
      rows (SummaryScreen.handleDeleteOrder n true st s).2.1.file.tblproducts
        = rows s.file.tblproducts ∧
      rows (SummaryScreen.handleDeleteOrder n true st s).2.1.file.tblcustomers
        = rows s.file.tblcustomers ∧
      rows (SummaryScreen.handleDeleteOrder n true st s).2.1.file.tblusers
        = rows s.file.tblusers := by
  have _ := hlines
  rcases (handleDeleteOrder_cases n true st s).2 with ⟨-, hno⟩ | ⟨-, hno⟩ | hset
  · exact absurd hheader hno
  · exact absurd hheader hno
  · obtain ⟨h1, h2, h3, h4, h5⟩ := hset
    refine ⟨h5, h4, ?_, ?_, h2, h3, h1⟩
    · intro l hl
      rw [h5] at hl
      simpa using (List.mem_filter.1 hl).2
    · intro o ho
      rw [h4] at ho
      simpa using (List.mem_filter.1 ho).2

/-- Witness for C8: order 1 is deleted from the store that holds it. -/
theorem handleDeleteOrder_removes_order_witness :
    rows (SummaryScreen.handleDeleteOrder 1 true summary
        (ready storeWithOrder [])).2.1.file.tblorder_products = [] ∧
      rows (SummaryScreen.handleDeleteOrder 1 true summary
        (ready storeWithOrder [])).2.1.file.tblorders = [] :=
  ⟨(handleDeleteOrder_removes_order 1 summary (ready storeWithOrder [])
      (by decide!) (by decide!)).1,
    (handleDeleteOrder_removes_order 1 summary (ready storeWithOrder [])
      (by decide!) (by decide!)).2.1⟩

/-- C9 (evaluation at the failing input): `jane` logs in with her password while `bob` is
flagged.  `authenticateUser` returns her row, and afterwards no user is flagged: of the joined
source given to `executeUpdate` only the reset has run, so `is_logged_in` of `jane` is `0`. -/
theorem authenticateUser_leaves_flag_clear :
    (LoginScreen.authenticateUser "jane" "secret1" (ready store [])).1
        = .ok (some ⟨1, "Jane Doe", "jane@example.com", "jane", "secret1", 0⟩) ∧
      rows (LoginScreen.authenticateUser "jane" "secret1" (ready store [])).2.file.tblusers
        = [⟨1, "Jane Doe", "jane@example.com", "jane", "secret1", 0⟩,
           ⟨2, "Bob Roe", "bob@example.com", "bob", "hunter22", 0⟩] := by
  decide!

/-- C10: when no row of `tblusers` has both the given username and the given password,
`authenticateUser` leaves `tblusers` as it is and never returns a user: it returns `null`, or
rethrows the error of a native call that failed; with no failure injected it returns `null`. -/
theorem authenticateUser_no_match (username password : String) (s : Sys) (T : List UserRow)
    (hT : s.file.tblusers = some T)
    (hno : ∀ r ∈ T, ¬ (r.username = username ∧ r.password = password)) :
    (LoginScreen.authenticateUser username password s).2.file.tblusers = some T ∧
      ((LoginScreen.authenticateUser username password s).1 = .ok none ∨
        ∃ err, (LoginScreen.authenticateUser username password s).1 = .error err ∧
          ∃ ev ∈ newEvents s (LoginScreen.authenticateUser username password s).2,
            ev.ok = false) ∧
      (s.Quiet → (LoginScreen.authenticateUser username password s).1 = .ok none) :=
  authenticateUser_rejects username password s T hT hno

/-- Witness for C10 (end-to-end scenario 3): `login("jane", "wrong")`. -/
theorem authenticateUser_no_match_witness :
    (LoginScreen.authenticateUser "jane" "wrong" (ready store [])).2.file.tblusers
        = some users ∧
      (LoginScreen.authenticateUser "jane" "wrong" (ready store [])).1 = .ok none :=
  ⟨(authenticateUser_no_match "jane" "wrong" (ready store []) users rfl (by decide!)).1,
    (authenticateUser_no_match "jane" "wrong" (ready store []) users rfl (by decide!)).2.2
      (by unfold Sys.Quiet; decide!)⟩

/-- C11 as stated fails: before the connection is opened `logout` skips the `UPDATE`; it
returns without error and the user flagged as logged in stays flagged. -/
theorem logout_without_connection_keeps_flag :
    logout (closed store []) = (.ok (), closed store []) ∧
      (⟨2, "Bob Roe", "bob@example.com", "bob", "hunter22", 1⟩ : UserRow) ∈
        rows (logout (closed store [])).2.file.tblusers := by
  decide!

/-- C11, amended: when the connection is open (no transaction being open on it) and `logout`
returns without error, the rows of `tblusers` are the former rows with `is_logged_in` set to
0, so that no row has `is_logged_in = 1`; the connection is closed and `isInitialized` is
false. -/
theorem logout_clears_flags (s : Sys) (c : Conn) (hdb : s.db = some c) (htxn : c.txn = none)
    (h : (logout s).1 = .ok ()) :
    rows (logout s).2.file.tblusers =
        (rows s.file.tblusers).map (fun u => { u with is_logged_in := 0 }) ∧
      (∀ u ∈ rows (logout s).2.file.tblusers, u.is_logged_in ≠ 1) ∧
      (logout s).2.db = none ∧ (logout s).2.isInitialized = false := by
  have hw := executeUpdate_spec Statement.resetLogin s
  have hrows : rows (logout s).2.file.tblusers =
        (rows s.file.tblusers).map (fun u => { u with is_logged_in := 0 }) ∧
      (logout s).2.db = none ∧ (logout s).2.isInitialized = false := by
    unfold logout at h ⊢
    simp only [hdb, Option.isSome_some, if_true] at h ⊢
    cases hu : executeUpdate Statement.resetLogin s with
    | mk r s1 =>
      rw [hu] at hw h
      cases r with
      | error err => simp at h
      | ok n =>
        simp only
        obtain ⟨t, c', hg, hc', hrun⟩ := hw.effectOk n rfl
        have hsame : c' = c := by
          rcases hw.connSome c' hc' with h1 | ⟨h1, _⟩
          · rw [hdb] at h1; exact (Option.some.inj h1).symm
          · rw [hdb] at h1; cases h1
        subst hsame
        have hcl := closeDatabase_file s1 c' hc' htxn
        rw [hcl.2.1, resetLogin_run hrun, hg.rows_eq.1]
        exact ⟨rfl, hcl.2.2.1, hcl.2.2.2⟩
  refine ⟨hrows.1, ?_, hrows.2⟩
  intro u hu
  rw [hrows.1] at hu
  obtain ⟨v, _, rfl⟩ := List.mem_map.1 hu
  simp

theorem logout_clears_flags_witness :
    (logout (ready store [])).1 = .ok () ∧
      rows (logout (ready store [])).2.file.tblusers =
        [⟨1, "Jane Doe", "jane@example.com", "jane", "secret1", 0⟩,
         ⟨2, "Bob Roe", "bob@example.com", "bob", "hunter22", 0⟩] ∧
      (logout (ready store [])).2.db = none :=
  ⟨by decide!,
    (logout_clears_flags (ready store []) ⟨true, none⟩ rfl rfl (by decide!)).1.trans (by decide!),
    (logout_clears_flags (ready store []) ⟨true, none⟩ rfl rfl (by decide!)).2.2.1⟩

/-- C12: from the initial module state on a store without tables, `getDatabase` opens the
connection and sets `isInitialized`; the `executeQuery` that follows therefore skips
`initializeTables` and runs its statement (`getAllAsync` is the one native call it makes)
although no table has been created: the statement fails with "no such table".  Without the
call of `getDatabase` the same query creates the tables first and returns no row. -/
theorem executeQuery_after_getDatabase_skips_schema :
    (getDatabase (closed noTables [])).1 = .ok () ∧
      (getDatabase (closed noTables [])).2.isInitialized = true ∧
      (getDatabase (closed noTables [])).2.file = noTables ∧
      (executeQuery Query.productsDesc (getDatabase (closed noTables [])).2).1 =
        .error ⟨"no such table: tblproducts"⟩ ∧
      (executeQuery Query.productsDesc (getDatabase (closed noTables [])).2).2.log =
        [⟨.getAll Query.productsDesc.sql, false⟩, ⟨.exec .pragmas, true⟩,
          ⟨.openDatabase, true⟩] ∧
      (executeQuery Query.productsDesc (getDatabase (closed noTables [])).2).2.file =
        noTables ∧
      (executeQuery Query.productsDesc (closed noTables [])).1 = .ok [] := by
  decide!

/-- C13: when a first call of `initializeTables` succeeds, leaving the module in state `s1`, a
second call leaves the store as the first left it: the same tables with the same rows.  The
second call succeeds whenever the device fails none of its native calls; when the first call
opened the connection, the second call makes no native call at all and returns at once. -/
theorem initializeTables_twice (s s1 : Sys) (h : initializeTables s = (.ok (), s1)) :
    (initializeTables s1).2.file = s1.file ∧
      (s1.Quiet → (initializeTables s1).1 = .ok ()) ∧
      (∀ err, (initializeTables s1).1 = .error err →
        ∃ ev ∈ newEvents s1 (initializeTables s1).2, ev.ok = false) ∧
      (s.db = none → initializeTables s1 = (.ok (), s1)) := by
  have hspec := initializeTables_spec s1
  refine ⟨?_, initializeTables_ok_of_quiet s1, fun err he => (hspec.failed err he).1, ?_⟩
  · cases hi : s.isInitialized with
    | true =>
      rw [initializeTables_skip s hi] at h
      simp at h
      subst h
      rw [initializeTables_skip s hi]
    | false =>
      rcases initializeTables_outcome s hi with ⟨_, _, _, hcomp, _⟩ | ⟨msg, hm, _⟩
      · rw [h] at hcomp
        exact hspec.grown.of_complete hcomp
      · rw [h] at hm; simp at hm
  · intro hdb
    cases hi : s.isInitialized with
    | true =>
      rw [initializeTables_skip s hi] at h
      simp at h
      subst h
      exact initializeTables_skip s hi
    | false =>
      rcases initializeTables_outcome s hi with ⟨_, _, _, _, hfl⟩ | ⟨msg, hm, _⟩
      · rw [h] at hfl
        exact initializeTables_skip s1 (hfl hdb)
      · rw [h] at hm; simp at hm

theorem initializeTables_twice_witness :
    (initializeTables (closed noTables [])).1 = .ok () ∧
      (initializeTables (initializeTables (closed noTables [])).2).1 = .ok () ∧
      (initializeTables (initializeTables (closed noTables [])).2).2.file =
        (initializeTables (closed noTables [])).2.file ∧
      (initializeTables (closed noTables [])).2.file =
        { noTables with tblusers := some [], tblproducts := some [], tblcustomers := some [],
                        tblorders := some [], tblorder_products := some [] } :=
  ⟨by decide!,
    (initializeTables_twice (closed noTables []) (initializeTables (closed noTables [])).2
      (by decide!)).2.1 (by unfold Sys.Quiet; decide!),
    (initializeTables_twice (closed noTables []) (initializeTables (closed noTables [])).2
      (by decide!)).1,
    by decide!⟩

/-- C14: when a native call of `initializeTables` fails (the opening of the store, the
pragmas or one of the `CREATE TABLE` sources) or the call throws, it throws the error of the
device and leaves `isInitialized` false.  The next call is then not skipped: it succeeds when
the device fails none of its calls, a success means that the five `CREATE TABLE` sources were
run again and that the five tables exist, and a failure is again a failure of a native call. -/
theorem initializeTables_failure_resets_flag (s s1 : Sys) (r : Except JsError Unit)
    (hrun : initializeTables s = (r, s1))
    (h : (∃ ev ∈ newEvents s s1, ev.ok = false) ∨ ∃ err, r = .error err) :
    (∃ msg, r = .error ⟨msg⟩ ∧ some msg ∈ s.faults) ∧
      (∃ ev ∈ newEvents s s1, ev.ok = false) ∧
      s1.isInitialized = false ∧
      (s1.Quiet → (initializeTables s1).1 = .ok ()) ∧
      ((initializeTables s1).1 = .ok () →
        (∀ e ∈ createTables, ⟨.exec e, true⟩ ∈ newEvents s1 (initializeTables s1).2) ∧
          (initializeTables s1).2.file.Complete) ∧
      (∀ err, (initializeTables s1).1 = .error err →
        ∃ ev ∈ newEvents s1 (initializeTables s1).2, ev.ok = false) := by
  have hspec := initializeTables_spec s
  rw [hrun] at hspec
  have hcore : (∃ msg, r = .error ⟨msg⟩ ∧ some msg ∈ s.faults) ∧ s1.isInitialized = false := by
    cases hi : s.isInitialized with
    | true =>
      rw [initializeTables_skip s hi] at hrun
      simp at hrun
      obtain ⟨rfl, rfl⟩ := hrun
      rcases h with ⟨ev, hev, _⟩ | ⟨err, he⟩
      · simp [newEvents_self] at hev
      · simp at he
    | false =>
      rcases initializeTables_outcome s hi with ⟨hok, hcl, _⟩ | ⟨msg, hm, hf, hfl⟩
      · rw [hrun] at hok hcl
        simp only at hok
        rcases h with ⟨ev, hev, hbad⟩ | ⟨err, he⟩
        · rw [hcl ev hev] at hbad; simp at hbad
        · rw [hok] at he; simp at he
      · rw [hrun] at hm hfl
        exact ⟨⟨msg, hm, hf⟩, hfl⟩
  obtain ⟨⟨msg, hm, hf⟩, hfl⟩ := hcore
  have hnext := initializeTables_spec s1
  refine ⟨⟨msg, hm, hf⟩, (hspec.failed _ hm).1, hfl, initializeTables_ok_of_quiet s1, ?_,
    fun err he => (hnext.failed err he).1⟩
  intro hok
  rcases initializeTables_outcome s1 hfl with ⟨_, _, hev, hcomp, _⟩ | ⟨msg', hm', _⟩
  · exact ⟨hev, hcomp⟩
  · rw [hok] at hm'; simp at hm'

theorem initializeTables_failure_resets_flag_witness :
    (initializeTables (closed noTables [none, none, some "disk I/O error"])).1 =
        .error ⟨"disk I/O error"⟩ ∧
      (initializeTables (closed noTables [none, none, some "disk I/O error"])).2.isInitialized
        = false ∧
      (initializeTables
        (initializeTables (closed noTables [none, none, some "disk I/O error"])).2).1 = .ok () :=
  ⟨by decide!,
    (initializeTables_failure_resets_flag (closed noTables [none, none, some "disk I/O error"])
      (initializeTables (closed noTables [none, none, some "disk I/O error"])).2
      (initializeTables (closed noTables [none, none, some "disk I/O error"])).1 rfl
      (Or.inl ⟨⟨.exec .createUsers, false⟩, by decide!, rfl⟩)).2.2.1,
    (initializeTables_failure_resets_flag (closed noTables [none, none, some "disk I/O error"])
      (initializeTables (closed noTables [none, none, some "disk I/O error"])).2
      (initializeTables (closed noTables [none, none, some "disk I/O error"])).1 rfl
      (Or.inl ⟨⟨.exec .createUsers, false⟩, by decide!, rfl⟩)).2.2.2.1
      (by unfold Sys.Quiet; decide!)⟩

/-- C15: creating with an existing key changes nothing.  In create mode, when the product
number of the form is the key of a row of `tblproducts`, `handleAddOrUpdate` of the products
screen shows one `Error` alert, keeps the form, issues no `runAsync` and leaves the rows of
every table as they were (missing tables may have been created, empty); with valid inputs and
no failure of the device the alert is the duplicate alert.  The same holds for
`handleAddOrUpdate` of the customers screen when the customer id of the form is in
`tblcustomers` (the handler may also throw, from its own `createTables`), and for `saveData` of
the register screen when the username of the form is in `tblusers` (the `INSERT` is refused by
the `UNIQUE` constraint). -/
theorem create_with_existing_key_changes_nothing :
    (∀ (parseFloat : String → JsNumber) (st : ProductsScreen.State) (s : Sys) (p : ProductRow),
      isSet st.editingId = false → p ∈ rows s.file.tblproducts →
      p.product_number = st.productNumber →
      (∃ msg, (ProductsScreen.handleAddOrUpdate parseFloat st s).2.2 = [("Error", msg)]) ∧
        (ProductsScreen.handleAddOrUpdate parseFloat st s).1 = st ∧
        s.file.Grown (ProductsScreen.handleAddOrUpdate parseFloat st s).2.1.file ∧
        rows (ProductsScreen.handleAddOrUpdate parseFloat st s).2.1.file.tblproducts =
          rows s.file.tblproducts ∧
        (∀ ev ∈ newEvents s (ProductsScreen.handleAddOrUpdate parseFloat st s).2.1,
          ∀ sql, ev.call ≠ .run sql) ∧
        ((ProductsScreen.validateInputs parseFloat st).1 = true → s.Quiet →
          (ProductsScreen.handleAddOrUpdate parseFloat st s).2.2 =
            [("Error", "Product number already exists.")])) ∧
    (∀ (st st' : CustomersScreen.State) (s s' : Sys) (out : CustomersScreen.Outcome)
        (p : CustomerRow),
      CustomersScreen.handleAddOrUpdate st s = (out, st', s') →
      isSet st.editingId = false → p ∈ rows s.file.tblcustomers →
      p.customer_id = st.customerId →
      ((∃ err, out = .error err) ∨ ∃ msg, out = .ok [("Error", msg)]) ∧
        (∃ d, st' = { st with dbRef := d }) ∧
        s.file.Grown s'.file ∧
        rows s'.file.tblcustomers = rows s.file.tblcustomers ∧
        ((CustomersScreen.validateInputs st).1 = true → s.Quiet →
          out = .ok [("Error", "Customer ID already exists.")])) ∧
    (∀ (st : RegisterScreen.State) (s : Sys) (u : UserRow),
      u ∈ rows s.file.tblusers → u.username = st.username →
      (∃ msg, (RegisterScreen.saveData st s).2.2 = [("Error", msg)]) ∧
        (RegisterScreen.saveData st s).1 = st ∧
        s.file.Grown (RegisterScreen.saveData st s).2.1.file ∧
        rows (RegisterScreen.saveData st s).2.1.file.tblusers = rows s.file.tblusers ∧
        (∀ ev ∈ newEvents s (RegisterScreen.saveData st s).2.1, ev.ok = true →
          ∀ sql, ev.call ≠ .run sql) ∧
        ((RegisterScreen.validateInputs st).1 = true → s.Quiet →
          (RegisterScreen.saveData st s).2.2 =
            [("Error", "Username already taken. Please choose another.")])) := by
  refine ⟨?_, ?_, ?_⟩
  · intro parseFloat st s p hed hp hkey
    obtain ⟨h1, h2, h3, h4, h5⟩ := products_create_existing parseFloat st s p hed hp hkey
    exact ⟨h1, h2, h3, h3.rows_eq.2.1, h4, h5⟩
  · intro st st' s s' out p hrun hed hp hkey
    obtain ⟨h1, h2, h3, h4⟩ := customers_duplicate_refused st st' s s' out p hrun
      (by simp [hed]) hp hkey
    exact ⟨h1, h2, h3, h3.rows_eq.2.2.1, h4⟩
  · intro st s u hu hkey
    obtain ⟨h1, h2, h3, h4, h5⟩ := register_create_existing st s u hu hkey
    exact ⟨h1, h2, h3, h3.rows_eq.1, h4, h5⟩

theorem create_with_existing_key_changes_nothing_witness :
    (ProductsScreen.handleAddOrUpdate (fun _ => 2) secondCupcake (ready store [])).2.2 =
        [("Error", "Product number already exists.")] ∧
      rows (ProductsScreen.handleAddOrUpdate (fun _ => 2) secondCupcake
        (ready store [])).2.1.file.tblproducts = [cupcake] :=
  ⟨(create_with_existing_key_changes_nothing.1 (fun _ => 2) secondCupcake (ready store [])
      cupcake (by decide) (by decide!) (by decide)).2.2.2.2.2 (by decide!)
      (by unfold Sys.Quiet; decide),
    (create_with_existing_key_changes_nothing.1 (fun _ => 2) secondCupcake (ready store [])
      cupcake (by decide) (by decide!) (by decide)).2.2.2.1⟩

/-- C16: update respects uniqueness.  On the customers screen in edit mode, a customer id that
differs from the id being edited and is the key of a row of `tblcustomers` is refused: the
handler throws or shows one `Error` alert (the duplicate alert when the inputs are valid and
the device does not fail) and the rows of every table are unchanged.  Keeping the id being
edited never gives the duplicate alert, and with valid inputs and no failure of the device the
`UPDATE` is performed and the handler shows no alert.  On the account screen `handleSave`
refuses in the same way a username held by a row with another `user_id`; when every row
holding the username has the `user_id` of the account, it never shows the username alert, and
with valid inputs and no failure of the device it performs the `UPDATE` and shows `Success`. -/
theorem update_respects_uniqueness :
    (∀ (st st' : CustomersScreen.State) (s s' : Sys) (out : CustomersScreen.Outcome)
        (e : String) (p : CustomerRow),
      CustomersScreen.handleAddOrUpdate st s = (out, st', s') →
      st.editingId = some e → isSet st.editingId = true → st.customerId ≠ e →
      p ∈ rows s.file.tblcustomers → p.customer_id = st.customerId →
      ((∃ err, out = .error err) ∨ ∃ msg, out = .ok [("Error", msg)]) ∧
        s.file.Grown s'.file ∧
        rows s'.file.tblcustomers = rows s.file.tblcustomers ∧
        ((CustomersScreen.validateInputs st).1 = true → s.Quiet →
          out = .ok [("Error", "Customer ID already exists.")])) ∧
    (∀ (st st' : CustomersScreen.State) (s s' : Sys) (out : CustomersScreen.Outcome)
        (e : String),
      CustomersScreen.handleAddOrUpdate st s = (out, st', s') →
      st.editingId = some e → isSet st.editingId = true → st.customerId = e →
      out ≠ .ok [("Error", "Customer ID already exists.")] ∧
        ((CustomersScreen.validateInputs st).1 = true → s.Quiet →
          out = .ok [] ∧
            s'.file = { s.file with tblcustomers := some ((rows s.file.tblcustomers).map
              (fun c => if c.customer_id == e then ⟨e, st.customerName, st.phone⟩ else c)) })) ∧
    (∀ (st st' : MyAccountScreen.State) (s s' : Sys) (out : Except JsError (List Alert))
        (u v : UserRow),
      MyAccountScreen.handleSave st s = (out, st', s') →
      st.user = some u → v ∈ rows s.file.tblusers → v.username = st.username →
      v.user_id ≠ u.user_id →
      ((∃ err, out = .error err) ∨ ∃ msg, out = .ok [("Error", msg)]) ∧
        s.file.Grown s'.file ∧
        rows s'.file.tblusers = rows s.file.tblusers ∧
        ((MyAccountScreen.validateInputs st).1 = true → s.Quiet →
          out = .ok [("Error", "Username already taken. Please choose another.")])) ∧
    (∀ (st st' : MyAccountScreen.State) (s s' : Sys) (out : Except JsError (List Alert))
        (u : UserRow),
      MyAccountScreen.handleSave st s = (out, st', s') →
      st.user = some u →
      (∀ v ∈ rows s.file.tblusers, v.username = st.username → v.user_id = u.user_id) →
      out ≠ .ok [("Error", "Username already taken. Please choose another.")] ∧
        ((MyAccountScreen.validateInputs st).1 = true → s.Quiet →
          out = .ok [("Success", "Account updated successfully!")] ∧
            s'.file = { s.file with tblusers := some ((rows s.file.tblusers).map (fun w =>
              if w.user_id == u.user_id then
                { w with full_name := st.fullName, email := st.email, username := st.username,
                         password := st.password }
              else w)) })) := by
  refine ⟨?_, ?_, ?_, ?_⟩
  · intro st st' s s' out e p hrun hed hset hne hp hkey
    obtain ⟨h1, _, h3, h4⟩ := customers_duplicate_refused st st' s s' out p hrun
      (by simp [hset, hed, hne]) hp hkey
    exact ⟨h1, h3, h3.rows_eq.2.2.1, h4⟩
  · intro st st' s s' out e hrun hed hset hown
    exact customers_own_id_kept st st' s s' out e hrun hed hset hown
  · intro st st' s s' out u v hrun hu hv hname hother
    obtain ⟨h1, _, h3, h4⟩ := account_taken_refused st st' s s' out u v hrun hu hv hname hother
    exact ⟨h1, h3, h3.rows_eq.1, h4⟩
  · intro st st' s s' out u hrun hu hown
    exact account_own_name_kept st st' s s' out u hrun hu hown

theorem update_respects_uniqueness_witness :
    (CustomersScreen.handleAddOrUpdate janeEdited (ready store [])).1 = .ok [] ∧
      rows (CustomersScreen.handleAddOrUpdate janeEdited (ready store [])).2.2.file.tblcustomers =
        [⟨"1001", "Jane Doe", "(246) 765-4321"⟩] ∧
      (MyAccountScreen.handleSave janeAccount (ready store [])).1 =
        .ok [("Success", "Account updated successfully!")] :=
  ⟨((update_respects_uniqueness.2.1 janeEdited
      (CustomersScreen.handleAddOrUpdate janeEdited (ready store [])).2.1 (ready store [])
      (CustomersScreen.handleAddOrUpdate janeEdited (ready store [])).2.2
      (CustomersScreen.handleAddOrUpdate janeEdited (ready store [])).1 "1001" rfl rfl
      (by decide) rfl).2 (by decide!) (by unfold Sys.Quiet; decide)).1,
    by decide!,
    ((update_respects_uniqueness.2.2.2 janeAccount
      (MyAccountScreen.handleSave janeAccount (ready store [])).2.1 (ready store [])
      (MyAccountScreen.handleSave janeAccount (ready store [])).2.2
      (MyAccountScreen.handleSave janeAccount (ready store [])).1
      ⟨1, "Jane Doe", "jane@example.com", "jane", "secret1", 0⟩ rfl rfl
      (by decide!)).2 (by decide!) (by unfold Sys.Quiet; decide)).1⟩

/-- C17: in create mode, whenever the product-number generator of the products screen or the
customer-id generator of the customers screen returns having put a key into the form (no
alert shown), that key is not among the keys the handler read at the start of the call, which
are the keys of the table at that time. -/
theorem generated_key_is_fresh (random : Nat → JsNumber) (fuel : Nat) :
    (∀ (st st' : ProductsScreen.State) (s s1 s' : Sys) (existing : List String),
      isSet st.editingId = false →
      executeQuery Query.productNumbers s = (.ok existing, s1) →
      ProductsScreen.onRightIconPress random fuel st s = (.ok (some (st', [])), s') →
      st'.productNumber ∉ existing ∧
        existing = (rows s.file.tblproducts).map (fun p => p.product_number)) ∧
    (∀ (st st' : CustomersScreen.State) (s s1 s2 s' : Sys) (db : Conn) (existing : List String),
      isSet st.editingId = false →
      openRef st.dbRef s = (.ok db, s1) →
      db.getAllAsync Query.customerIds s1 = (.ok existing, s2) →
      CustomersScreen.onRightIconPress random fuel st s = (.ok (some (st', [])), s') →
      st'.customerId ∉ existing ∧
        existing = (rows s.file.tblcustomers).map (fun c => c.customer_id)) := by
  constructor
  · intro st st' s s1 s' existing hed hq hr
    refine ⟨?_, productNumbers_read s s1 existing hq⟩
    simp only [ProductsScreen.onRightIconPress, hed, Bool.false_eq_true, if_false, hq] at hr
    cases hp : pickKey ("Error", "Could not generate a unique product number.") existing
        st.diceIcon random fuel with
    | none => simp [hp] at hr
    | some r =>
      cases r with
      | error a => simp [hp] at hr
      | ok v =>
        obtain ⟨k, icon⟩ := v
        simp [hp] at hr
        rw [← hr.1]
        exact (pickKey_ok _ _ _ _ _ _ _ hp).2
  · intro st st' s s1 s2 s' db existing hed ho hq hr
    have h1 := openRef_file _ _ _ _ ho
    have h2 := Conn.getAllAsync_ok _ _ _ _ _ hq
    refine ⟨?_, by rw [customerIds_eval h2.1, h1.1]⟩
    simp only [CustomersScreen.onRightIconPress, hed, Bool.false_eq_true, if_false, ho, hq] at hr
    cases hp : pickKey ("Error", "Could not generate a unique customer ID.") existing
        st.diceIcon random fuel with
    | none => simp [hp] at hr
    | some r =>
      cases r with
      | error a => simp [hp] at hr
      | ok v =>
        obtain ⟨k, icon⟩ := v
        simp [hp] at hr
        rw [← hr.1]
        exact (pickKey_ok _ _ _ _ _ _ _ hp).2

theorem generated_key_is_fresh_witness :
    ProductsScreen.onRightIconPress draws 1 catalog (ready store []) =
        (.ok (some ({ catalog with productNumber := "5500", diceIcon := "dice-four" }, [])),
          (executeQuery Query.productNumbers (ready store [])).2) ∧
      "5500" ∉ ["2001"] ∧
      ["2001"] = (rows (ready store []).file.tblproducts).map (fun p => p.product_number) :=
  ⟨by decide!,
    (generated_key_is_fresh draws 1).1 catalog
      { catalog with productNumber := "5500", diceIcon := "dice-four" } (ready store [])
      (executeQuery Query.productNumbers (ready store [])).2
      (executeQuery Query.productNumbers (ready store [])).2 ["2001"]
      (by decide) (by decide!) (by decide!)⟩

/-- C18: the key generator makes at most 20 draws.  When draw `i` (counted from 0, `i < 20`)
is the first that is not an existing key, the loop stops after `i + 1` draws with that key,
and both handlers put it into the form once the icon loop ends (`n` further draws repeat the
current icon, the next one differs, and the fuel covers them).  The handlers show the error
alert and leave the form as it was exactly when all 20 draws are existing keys. -/
theorem generator_stops_at_first_fresh_draw (existing : List String) (random : Nat → JsNumber) :
    (rollKey existing random 20 0).2 ≤ 20 ∧
    (∀ i, i < 20 → keyAt random i ∉ existing → (∀ j, j < i → keyAt random j ∈ existing) →
      rollKey existing random 20 0 = (keyAt random i, i + 1) ∧
      ∀ (diceIcon : String) (n fuel : Nat),
        (∀ m, m < n → iconAt random (i + 1 + m) = diceIcon) →
        iconAt random (i + 1 + n) ≠ diceIcon → n < fuel →
        (∀ (st : ProductsScreen.State) (s s1 : Sys), isSet st.editingId = false →
          st.diceIcon = diceIcon →
          executeQuery Query.productNumbers s = (.ok existing, s1) →
          ProductsScreen.onRightIconPress random fuel st s =
            (.ok (some ({ st with productNumber := keyAt random i,
                                  diceIcon := iconAt random (i + 1 + n) }, [])), s1)) ∧
        (∀ (st : CustomersScreen.State) (s s1 s2 : Sys) (db : Conn),
          isSet st.editingId = false → st.diceIcon = diceIcon →
          openRef st.dbRef s = (.ok db, s1) →
          db.getAllAsync Query.customerIds s1 = (.ok existing, s2) →
          CustomersScreen.onRightIconPress random fuel st s =
            (.ok (some ({ st with dbRef := some db, customerId := keyAt random i,
                                  diceIcon := iconAt random (i + 1 + n) }, [])), s2))) ∧
    (∀ (fuel : Nat) (st : ProductsScreen.State) (s s1 : Sys), isSet st.editingId = false →
      executeQuery Query.productNumbers s = (.ok existing, s1) →
      ((∀ i, i < 20 → keyAt random i ∈ existing) ↔
        ProductsScreen.onRightIconPress random fuel st s =
          (.ok (some (st, [("Error", "Could not generate a unique product number.")])), s1))) ∧
    (∀ (fuel : Nat) (st : CustomersScreen.State) (s s1 s2 : Sys) (db : Conn),
      isSet st.editingId = false →
      openRef st.dbRef s = (.ok db, s1) →
      db.getAllAsync Query.customerIds s1 = (.ok existing, s2) →
      ((∀ i, i < 20 → keyAt random i ∈ existing) ↔
        CustomersScreen.onRightIconPress random fuel st s =
          (.ok (some ({ st with dbRef := some db },
            [("Error", "Could not generate a unique customer ID.")])), s2))) := by
  refine ⟨?_, ?_, ?_, ?_⟩
  · rcases rollKey_cases existing random with ⟨i, hi, _, _, he⟩ | ⟨_, he⟩
    · rw [he]; exact hi
    · rw [he]
  · intro i hi hfresh hbefore
    refine ⟨rollKey_stop existing random 20 0 i (Nat.zero_le _) hi rfl hfresh
      (fun j _ hj => hbefore j hj), ?_⟩
    intro diceIcon n fuel hsame hnew hfuel
    constructor
    · intro st s s1 hed hicon hq
      have hp := pickKey_first ("Error", "Could not generate a unique product number.")
        existing st.diceIcon random fuel i n hi hfresh hbefore (hicon ▸ hsame) (hicon ▸ hnew) hfuel
      simp only [ProductsScreen.onRightIconPress, hed, Bool.false_eq_true, if_false, hq, hp]
    · intro st s s1 s2 db hed hicon ho hq
      have hp := pickKey_first ("Error", "Could not generate a unique customer ID.")
        existing st.diceIcon random fuel i n hi hfresh hbefore (hicon ▸ hsame) (hicon ▸ hnew) hfuel
      simp only [CustomersScreen.onRightIconPress, hed, Bool.false_eq_true, if_false, ho, hq, hp]
  · intro fuel st s s1 hed hq
    simp only [ProductsScreen.onRightIconPress, hed, Bool.false_eq_true, if_false, hq]
    constructor
    · intro hall
      have hp := (pickKey_error_iff ("Error", "Could not generate a unique product number.") _
        existing st.diceIcon random fuel).2 ⟨rfl, hall⟩
      simp only [hp]
    · intro hr
      cases hp : pickKey ("Error", "Could not generate a unique product number.") existing
          st.diceIcon random fuel with
      | none => simp [hp] at hr
      | some r =>
        cases r with
        | error a => exact ((pickKey_error_iff _ _ _ _ _ _).1 hp).2
        | ok v =>
          obtain ⟨k, icon⟩ := v
          simp [hp] at hr
  · intro fuel st s s1 s2 db hed ho hq
    simp only [CustomersScreen.onRightIconPress, hed, Bool.false_eq_true, if_false, ho, hq]
    constructor
    · intro hall
      have hp := (pickKey_error_iff ("Error", "Could not generate a unique customer ID.") _
        existing st.diceIcon random fuel).2 ⟨rfl, hall⟩
      simp only [hp]
    · intro hr
      cases hp : pickKey ("Error", "Could not generate a unique customer ID.") existing
          st.diceIcon random fuel with
      | none => simp [hp] at hr
      | some r =>
        cases r with
        | error a => exact ((pickKey_error_iff _ _ _ _ _ _).1 hp).2
        | ok v =>
          obtain ⟨k, icon⟩ := v
          simp [hp] at hr

theorem generator_stops_at_first_fresh_draw_witness :
    keyAt draws 0 = "2001" ∧ keyAt draws 1 = "5500" ∧
      rollKey ["2001"] draws 20 0 = (keyAt draws 1, 2) :=
  ⟨by decide!, by decide!,
    ((generator_stops_at_first_fresh_draw ["2001"] draws).2.1 1 (by decide) (by decide!)
      (fun j hj => by
        have : j = 0 := by omega
        subst this
        decide!)).1⟩

/-- C19: with the quantity text `1.5`, which `Number` converts to 1.5, `handleAddProduct` shows
no alert and appends a line of quantity 1.5 and subtotal 5.25 to the draft: a quantity that is
not an integer is accepted. -/
theorem handleAddProduct_accepts_fraction :
    number "1.5" = 1.5 ∧
      handleAddProduct number { form with productQty := "1.5" } =
        ({ form with tempOrderProducts := [⟨"2001", "Cupcake", 3.5, 1.5, 5.25⟩],
                     productId := "", productQty := "" }, []) := by
  decide!

/-- C20 as stated fails: adding two cupcakes to the draft of four gives a draft with two lines
for product `2001`; on it the confirmed `handleRemoveProduct "2001"` leaves no line, whereas
removing the first matching line only would keep the second. -/
theorem handleRemoveProduct_drops_later_line :
    (handleAddProduct number { draft with productId := "2001", productQty := "2" }).1.tempOrderProducts
        = doubled.tempOrderProducts ∧
      (handleRemoveProduct "2001" true doubled).tempOrderProducts = [] ∧
      doubled.tempOrderProducts.eraseP (fun item => item.product_number == "2001") =
        [⟨"2001", "Cupcake", 3.5, 2, 7⟩] := by
  decide!

/-- C20, amended: a confirmed `handleRemoveProduct k` removes every line whose product number
is `k` and keeps the other lines unchanged and in order; the rest of the form is untouched,
the list is unchanged when no line has product number `k`, and a call that is not confirmed
changes nothing. -/
theorem handleRemoveProduct_removes_all (k : String) (st : OrdersScreen.State) :
    (handleRemoveProduct k true st).tempOrderProducts =
        st.tempOrderProducts.filter (fun item => decide (item.product_number ≠ k)) ∧
      (∀ item, item ∈ (handleRemoveProduct k true st).tempOrderProducts ↔
        item ∈ st.tempOrderProducts ∧ item.product_number ≠ k) ∧
      (handleRemoveProduct k true st).tempOrderProducts.Sublist st.tempOrderProducts ∧
      ((∀ item ∈ st.tempOrderProducts, item.product_number ≠ k) →
        handleRemoveProduct k true st = st) ∧
      handleRemoveProduct k true st =
        { st with tempOrderProducts := (handleRemoveProduct k true st).tempOrderProducts } ∧
      handleRemoveProduct k false st = st := by
  have hf : (handleRemoveProduct k true st).tempOrderProducts =
      st.tempOrderProducts.filter (fun item => decide (item.product_number ≠ k)) := by
    simp only [handleRemoveProduct, if_true]
    congr 1
    funext item
    by_cases h : item.product_number = k <;> simp [h]
  refine ⟨hf, ?_, ?_, ?_, ?_, ?_⟩
  · intro item
    rw [hf]
    simp
  · rw [hf]
    exact List.filter_sublist _
  · intro h
    have : st.tempOrderProducts.filter (fun item => item.product_number != k)
        = st.tempOrderProducts := by
      apply List.filter_eq_self.2
      intro item hi
      simpa using h item hi
    simp [handleRemoveProduct, this]
  · simp [handleRemoveProduct]
  · simp [handleRemoveProduct]

theorem handleRemoveProduct_removes_all_witness :
    (handleRemoveProduct "2001" true doubled).tempOrderProducts = [] ∧
      handleRemoveProduct "9999" true doubled = doubled :=
  ⟨by
      rw [(handleRemoveProduct_removes_all "2001" doubled).1]
      decide!,
    (handleRemoveProduct_removes_all "9999" doubled).2.2.2.1 (by decide!)⟩

/-- C21 as stated fails: the draft of four cupcakes dated `2024-13-45`, which is no calendar
date, passes `validateInputs`, and `handleAddOrder` writes the order under that date. -/
theorem validateInputs_accepts_month_thirteen :
    Spec.isCalendarDate misdated.orderDate = false ∧
      validateInputs misdated = (true, []) ∧
      rows (handleAddOrder misdated (ready store [])).2.1.file.tblorders =
        [⟨1, "2024-13-45", "1001", 14⟩] := by
  decide!

/-- C21, amended: the date check of `validateInputs` is a check of the shape: the order date
passes it exactly when it is made of four digits, `-`, two digits, `-`, two digits.  For every
order date that is not of this shape `validateInputs` returns false and `handleAddOrder`
leaves the component and the system as they were, showing the alert of the validation.  Every
real calendar date written as `YYYY-MM-DD` has the shape. -/
theorem validateInputs_checks_date_shape (st : State) (s : Sys) :
    (dateRegexTest st.orderDate = true ↔
      ∃ y1 y2 y3 y4 m1 m2 d1 d2 : Char,
        st.orderDate.toList = [y1, y2, y3, y4, '-', m1, m2, '-', d1, d2] ∧
        y1.isDigit = true ∧ y2.isDigit = true ∧ y3.isDigit = true ∧ y4.isDigit = true ∧
        m1.isDigit = true ∧ m2.isDigit = true ∧ d1.isDigit = true ∧ d2.isDigit = true) ∧
      (dateRegexTest st.orderDate = false →
        (validateInputs st).1 = false ∧ (∃ msg, (validateInputs st).2 = [("Error", msg)]) ∧
          handleAddOrder st s = (st, s, (validateInputs st).2)) ∧
      (Spec.isCalendarDate st.orderDate = true → dateRegexTest st.orderDate = true) := by
  refine ⟨dateRegexTest_iff _, ?_, isCalendarDate_shape _⟩
  intro h
  have hv : (validateInputs st).1 = false := by
    unfold validateInputs
    split
    · rfl
    · simp [h]
  exact ⟨hv, validateInputs_alert_shape st hv, handleAddOrder_invalid st s hv⟩

theorem validateInputs_checks_date_shape_witness :
    (validateInputs { draft with orderDate := "1 June 2024" }).1 = false ∧
      handleAddOrder { draft with orderDate := "1 June 2024" } (ready store []) =
        ({ draft with orderDate := "1 June 2024" }, ready store [],
          [("Error", "Date must be in YYYY-MM-DD format.")]) :=
  ⟨((validateInputs_checks_date_shape { draft with orderDate := "1 June 2024" }
      (ready store [])).2.1 (by decide!)).1,
    ((validateInputs_checks_date_shape { draft with orderDate := "1 June 2024" }
      (ready store [])).2.1 (by decide!)).2.2.trans (by decide!)⟩

/-- C22: when the selected customer id is the id of no customer of the loaded list, or some
draft line has the product number of no product of the loaded list, `validateInputs` returns
false with one `Error` alert and `handleAddOrder` leaves the component and the system, store
and trace included, as they were. -/
theorem validateInputs_rejects_unknown_keys (st : State) (s : Sys)
    (h : (∀ c ∈ st.customers, c.customer_id ≠ st.customerId) ∨
      ∃ item ∈ st.tempOrderProducts, ∀ p ∈ st.products, p.product_number ≠ item.product_number) :
    (validateInputs st).1 = false ∧ (∃ msg, (validateInputs st).2 = [("Error", msg)]) ∧
      handleAddOrder st s = (st, s, (validateInputs st).2) := by
  have hv : (validateInputs st).1 = false := by
    unfold validateInputs
    split
    · rfl
    · split
      · rfl
      · split
        · rfl
        · split
          · rfl
          · rename_i h1 h2 h3 h4
            exfalso
            rcases h with hc | ⟨item, hi, hp⟩
            · apply h3
              simp only [Bool.not_eq_true', List.any_eq_false, beq_iff_eq]
              intro c hc'
              exact hc c hc'
            · apply h4
              simp only [Bool.not_eq_true', List.all_eq_false]
              refine ⟨item, hi, ?_⟩
              simp only [Bool.not_eq_true, List.any_eq_false, beq_iff_eq]
              intro p hp'
              exact hp p hp'
  exact ⟨hv, validateInputs_alert_shape st hv, handleAddOrder_invalid st s hv⟩

theorem validateInputs_rejects_unknown_keys_witness :
    handleAddOrder { draft with customerId := "1009" } (ready store []) =
      ({ draft with customerId := "1009" }, ready store [],
        [("Error", "Selected customer is not valid.")]) :=
  (validateInputs_rejects_unknown_keys { draft with customerId := "1009" } (ready store [])
    (Or.inl (by decide!))).2.2.trans (by decide!)

/-- C23 as stated fails: the price text `-5`, which `parseFloat` reads as the number -5, passes
`ProductsScreen.validateInputs`, and `handleAddOrUpdate` inserts the product with the price -5,
showing no alert. -/
theorem validateInputs_accepts_negative_price :
    priceOf refund.price = -5 ∧
      ProductsScreen.validateInputs priceOf refund = (true, []) ∧
      rows (ProductsScreen.handleAddOrUpdate priceOf refund (ready store [])).2.1.file.tblproducts
        = [cupcake, ⟨"3001", "Refund", -5⟩] ∧
      (ProductsScreen.handleAddOrUpdate priceOf refund (ready store [])).2.2 = [] := by
  decide!

/-- C23, amended: `ProductsScreen.validateInputs` accepts a price only if `parseFloat` reads a
number from it.  For every price text from which `parseFloat` reads no number (`NaN`) it
returns false with one `Error` alert, and `handleAddOrUpdate` leaves the form and the system,
store and trace included, as they were.  A form that passes has its three fields non-empty
after trimming and a price from which `parseFloat` reads a number, of either sign. -/
theorem validateInputs_checks_price_is_number (parseFloat : String → JsNumber)
    (st : ProductsScreen.State) (s : Sys) :
    ((parseFloat st.price).isNaN = true →
      (ProductsScreen.validateInputs parseFloat st).1 = false ∧
        (∃ msg, (ProductsScreen.validateInputs parseFloat st).2 = [("Error", msg)]) ∧
        ProductsScreen.handleAddOrUpdate parseFloat st s =
          (st, s, (ProductsScreen.validateInputs parseFloat st).2)) ∧
      ((ProductsScreen.validateInputs parseFloat st).1 = true ↔
        jsTrim st.productNumber ≠ "" ∧ jsTrim st.name ≠ "" ∧ jsTrim st.price ≠ "" ∧
          (parseFloat st.price).isNaN = false) := by
  constructor
  · intro h
    have hv : (ProductsScreen.validateInputs parseFloat st).1 = false := by
      unfold ProductsScreen.validateInputs
      split
      · rfl
      · simp [h]
    refine ⟨hv, products_validate_shape parseFloat st hv, ?_⟩
    simp [ProductsScreen.handleAddOrUpdate, hv]
  · unfold ProductsScreen.validateInputs
    cases hp : (parseFloat st.price).isNaN with
    | true =>
      split <;> simp
    | false =>
      by_cases h1 : jsTrim st.productNumber = "" <;> by_cases h2 : jsTrim st.name = "" <;>
        by_cases h3 : jsTrim st.price = "" <;> simp [h1, h2, h3]

theorem validateInputs_checks_price_is_number_witness :
    ProductsScreen.handleAddOrUpdate priceOf { refund with price := "five" } (ready store []) =
      ({ refund with price := "five" }, ready store [], [("Error", "Price must be a number.")]) :=
  ((validateInputs_checks_price_is_number priceOf { refund with price := "five" }
    (ready store [])).1 (by decide!)).2.2.trans (by decide!)

/-- C24: a phone text that has fewer than 7 or more than 15 digits is rejected by
`CustomersScreen.validateInputs`; a form that passes has between 7 and 15 digits in its
phone. -/
theorem validateInputs_checks_digit_count (st : CustomersScreen.State) :
    (digitCount st.phone < 7 ∨ 15 < digitCount st.phone →
      (CustomersScreen.validateInputs st).1 = false ∧
        ∃ msg, (CustomersScreen.validateInputs st).2 = [("Error", msg)]) ∧
      ((CustomersScreen.validateInputs st).1 = true →
        7 ≤ digitCount st.phone ∧ digitCount st.phone ≤ 15) := by
  have key : (CustomersScreen.validateInputs st).1 = true →
      7 ≤ digitCount st.phone ∧ digitCount st.phone ≤ 15 := by
    intro h
    simp only [CustomersScreen.validateInputs] at h
    split_ifs at h with h1 h2 h3
    simp only [Bool.or_eq_true, decide_eq_true_eq, not_or, not_lt, gt_iff_lt] at h2
    exact ⟨h2.1, h2.2⟩
  refine ⟨?_, key⟩
  intro h
  have hv : (CustomersScreen.validateInputs st).1 = false := by
    cases hval : (CustomersScreen.validateInputs st).1 with
    | false => rfl
    | true => have := key hval; omega
  exact ⟨hv, customers_validate_shape st hv⟩

theorem validateInputs_checks_digit_count_witness :
    digitCount shortPhone.phone = 6 ∧ (CustomersScreen.validateInputs shortPhone).1 = false :=
  ⟨by decide!,
    ((validateInputs_checks_digit_count shortPhone).1 (Or.inl (by decide!))).1⟩

/-- C25: `RegisterScreen.validateInputs` returns true exactly when the four fields are
non-empty after `trim`, the email has the shape `local@domain.tld`, and the password has a
`length` of at least 6 and contains no space; `MyAccountScreen.validateInputs` is the same
function of the four fields, verdict and alert, and so returns true under the same condition.
The `length` of JavaScript counts UTF-16 code units: it is the number of characters when every
character lies in the Basic Multilingual Plane, and never less. -/
theorem validateInputs_user_iff :
    (∀ st : RegisterScreen.State,
      (RegisterScreen.validateInputs st).1 = true ↔
        jsTrim st.fullname ≠ "" ∧ jsTrim st.email ≠ "" ∧ jsTrim st.username ≠ "" ∧
          jsTrim st.password ≠ "" ∧ Spec.EmailShape st.email ∧
          6 ≤ jsLength st.password ∧ ' ' ∉ st.password.toList) ∧
    (∀ st : MyAccountScreen.State,
      MyAccountScreen.validateInputs st =
          RegisterScreen.validateInputs
            ⟨st.fullName, st.email, st.username, st.password, st.showPassword⟩ ∧
        ((MyAccountScreen.validateInputs st).1 = true ↔
          jsTrim st.fullName ≠ "" ∧ jsTrim st.email ≠ "" ∧ jsTrim st.username ≠ "" ∧
            jsTrim st.password ≠ "" ∧ Spec.EmailShape st.email ∧
            6 ≤ jsLength st.password ∧ ' ' ∉ st.password.toList)) ∧
    (∀ p : String, p.length ≤ jsLength p ∧
      ((∀ c ∈ p.toList, c.toNat < 0x10000) → jsLength p = p.length)) :=
  ⟨register_validate_iff,
    fun st => ⟨rfl, register_validate_iff
      ⟨st.fullName, st.email, st.username, st.password, st.showPassword⟩⟩,
    length_le_jsLength⟩

theorem validateInputs_user_iff_witness :
    (RegisterScreen.validateInputs signup).1 = true ∧
      (RegisterScreen.validateInputs { signup with email := "ann@example" }).1 = false :=
  ⟨(validateInputs_user_iff.1 signup).2
      ⟨by decide!, by decide!, by decide!, by decide!,
        ⟨"ann".toList, "example".toList, "com".toList, by decide, by decide, by decide,
          by decide!, by decide!, by decide!, by decide!⟩,
        by decide!, by decide!⟩,
    by decide!⟩

/-- C26: in a transaction of two inserts on the open connection the second insert is refused
by its foreign key and the `ROLLBACK` that follows is made to fail.  The statement raised
"FOREIGN KEY constraint failed"; `executeTransaction` throws the error of the `ROLLBACK`. -/
theorem executeTransaction_throws_rollback_error :
    (runEach twoInserts (execAsync .begin rollbackFails).2).1 =
        .error ⟨"FOREIGN KEY constraint failed"⟩ ∧
      (executeTransaction twoInserts rollbackFails).1 = .error ⟨"database is locked"⟩ ∧
      (executeTransaction twoInserts rollbackFails).2.log =
        [⟨.exec .rollback, false⟩,
         ⟨.run (Statement.insertOrderProduct 1 "9999" 2 7).sql, false⟩,
         ⟨.run (Statement.insertOrderProduct 1 "2001" 1 3.5).sql, true⟩,
         ⟨.exec .begin, true⟩] := by
  decide!

/-- C27 as stated fails, in two ways.  On a new store whose first `CREATE TABLE` fails once,
the retry loop calls `initializeTables` twice, but `isInitialized` stays false and each of the
five queries that follow calls it again: the trace of the load holds `CREATE TABLE tblusers`
seven times, once for every call.  And when the `SELECT 1` of the connection test fails three
times, the alert of a failed initialization is shown although the one call of
`initializeTables` succeeded. -/
theorem load_initializes_beyond_the_loop :
    (retryLoop (counted initializeTables) 3 0 (createFails, 0)).2.2 = 2 ∧
      ((initDb true form createFails).2.1.log.filter
        (fun ev => ev.call == .exec .createUsers)).length = 7 ∧
      (initDb true form createFails).2.2 = [] ∧
      retryLoop (counted initializeTables) 3 0 (selectFails, 0) =
        (.ok (), ((initializeTables selectFails).2, 1)) ∧
      (initDb true form selectFails).2.2 =
        [("Error", "Failed to initialize database. Please try again.")] := by
  decide!

/-- C27 amended: the first retry loop of `initDb`.  With a counter of the calls added to
`initializeTables`, the loop makes at most 3 calls, and the counter changes nothing else.  The
loop returns at the first call that succeeds, after 1, 2 or 3 calls, with the state that call
left.  It throws exactly when three calls in a row fail, and then throws the error of the
third; `initDb` then makes no further call and, the component being mounted, shows the alert
of a failed initialization.  That alert is shown exactly when this loop or the loop of the
connection test `SELECT 1` that follows it throws. -/
theorem initDb_retries_initializeTables (s : Sys) :
    (retryLoop (counted initializeTables) 3 0 (s, 0)).2.2 ≤ 3 ∧
      (retryLoop (counted initializeTables) 3 0 (s, 0)).1 = (retryLoop initializeTables 3 0 s).1 ∧
      (retryLoop (counted initializeTables) 3 0 (s, 0)).2.1 =
        (retryLoop initializeTables 3 0 s).2 ∧
      (∀ s1, initializeTables s = (.ok (), s1) →
        retryLoop (counted initializeTables) 3 0 (s, 0) = (.ok (), (s1, 1))) ∧
      (∀ e1 s1 s2, initializeTables s = (.error e1, s1) → initializeTables s1 = (.ok (), s2) →
        retryLoop (counted initializeTables) 3 0 (s, 0) = (.ok (), (s2, 2))) ∧
      (∀ e1 e2 s1 s2 s3, initializeTables s = (.error e1, s1) →
        initializeTables s1 = (.error e2, s2) → initializeTables s2 = (.ok (), s3) →
        retryLoop (counted initializeTables) 3 0 (s, 0) = (.ok (), (s3, 3))) ∧
      (∀ e1 e2 e3 s1 s2 s3, initializeTables s = (.error e1, s1) →
        initializeTables s1 = (.error e2, s2) → initializeTables s2 = (.error e3, s3) →
        retryLoop (counted initializeTables) 3 0 (s, 0) = (.error e3, (s3, 3)) ∧
          ∀ st : OrdersScreen.State, st.mounted = true →
            initDb true st s = ({ resetState st with isLoading := false }, s3,
              [("Error", "Failed to initialize database. Please try again.")])) ∧
      ((∃ err, (retryLoop initializeTables 3 0 s).1 = .error err) ↔
        ∃ e1 e2 e3 s1 s2 s3, initializeTables s = (.error e1, s1) ∧
          initializeTables s1 = (.error e2, s2) ∧ initializeTables s2 = (.error e3, s3)) ∧
      (∀ st : OrdersScreen.State, st.mounted = true →
        (("Error", "Failed to initialize database. Please try again.") ∈ (initDb true st s).2.2 ↔
          ((∃ err, (retryLoop initializeTables 3 0 s).1 = .error err) ∨
            (∃ err, (retryLoop (executeQuery Query.select1) 3 0
              (retryLoop initializeTables 3 0 s).2).1 = .error err)))) := by
  have hcases := retryLoop_cases initializeTables s
  refine ⟨?_, ?_, ?_, ?_, ?_, ?_, ?_, ?_, fun st hm => initDb_alert_iff st s hm⟩
  · rcases hcases with ⟨n, s', hn, _, hb⟩ | ⟨_, _, _, _, _, _, _, _, _, _, hb⟩
    · rw [hb]; exact hn
    · rw [hb]
  · rcases hcases with ⟨n, s', hn, ha, hb⟩ | ⟨_, _, _, _, _, _, _, _, _, ha, hb⟩ <;> rw [ha, hb]
  · rcases hcases with ⟨n, s', hn, ha, hb⟩ | ⟨_, _, _, _, _, _, _, _, _, ha, hb⟩ <;> rw [ha, hb]
  · intro s1 h1
    exact (retryLoop_first initializeTables s s1 () h1).2
  · intro e1 s1 s2 h1 h2
    exact (retryLoop_second initializeTables s s1 s2 e1 () h1 h2).2
  · intro e1 e2 s1 s2 s3 h1 h2 h3
    exact (retryLoop_third initializeTables s s1 s2 s3 e1 e2 () h1 h2 h3).2
  · intro e1 e2 e3 s1 s2 s3 h1 h2 h3
    obtain ⟨ha, hb⟩ := retryLoop_gives_up initializeTables s s1 s2 s3 e1 e2 e3 h1 h2 h3
    refine ⟨hb, ?_⟩
    intro st hm
    simp [initDb, ha, hm, resetState]
  · constructor
    · rintro ⟨err, herr⟩
      rcases hcases with ⟨n, s', hn, ha, _⟩ | ⟨e1, e2, e3, s1, s2, s3, h1, h2, h3, _, _⟩
      · rw [ha] at herr; simp at herr
      · exact ⟨e1, e2, e3, s1, s2, s3, h1, h2, h3⟩
    · rintro ⟨e1, e2, e3, s1, s2, s3, h1, h2, h3⟩
      exact ⟨e3, by rw [(retryLoop_gives_up initializeTables s s1 s2 s3 e1 e2 e3 h1 h2 h3).1]⟩

/-- Witness for C27 amended: the store opens at the third attempt; it never opens. -/
theorem initDb_retries_initializeTables_witness :
    retryLoop (counted initializeTables) 3 0 (opensThird, 0) =
        (.ok (), ((initializeTables (initializeTables (initializeTables opensThird).2).2).2, 3)) ∧
      (retryLoop (counted initializeTables) 3 0 (neverOpens, 0)).1 =
        .error ⟨"unable to open database file"⟩ :=
  ⟨(initDb_retries_initializeTables opensThird).2.2.2.2.2.1
      ⟨"unable to open database file"⟩ ⟨"unable to open database file"⟩
      (initializeTables opensThird).2 (initializeTables (initializeTables opensThird).2).2
      (initializeTables (initializeTables (initializeTables opensThird).2).2).2
      (by decide!) (by decide!) (by decide!),
    by
      rw [((initDb_retries_initializeTables neverOpens).2.2.2.2.2.2.1
        ⟨"unable to open database file"⟩ ⟨"unable to open database file"⟩
        ⟨"unable to open database file"⟩
        (initializeTables neverOpens).2 (initializeTables (initializeTables neverOpens).2).2
        (initializeTables (initializeTables (initializeTables neverOpens).2).2).2
        (by decide!) (by decide!) (by decide!)).1]⟩

/-- C28: on a new store the first `initializeTables` opens the connection and fails inside
the first `CREATE TABLE`; the second call returns without error, the five tables exist, and
`isInitialized` is still false, so that a third call runs the five `CREATE TABLE` sources
again. -/
theorem initializeTables_succeeds_with_flag_false :
    (initializeTables createFails).1 = .error ⟨"disk I/O error"⟩ ∧
      (initializeTables createFails).2.db = some ⟨true, none⟩ ∧
      (initializeTables (initializeTables createFails).2).1 = .ok () ∧
      (initializeTables (initializeTables createFails).2).2.file =
        { noTables with tblusers := some [], tblproducts := some [], tblcustomers := some [],
                        tblorders := some [], tblorder_products := some [] } ∧
      (initializeTables (initializeTables createFails).2).2.isInitialized = false ∧
      newEvents (initializeTables (initializeTables createFails).2).2
          (initializeTables (initializeTables (initializeTables createFails).2).2).2 =
        [⟨.exec .createOrderProducts, true⟩, ⟨.exec .createOrders, true⟩,
         ⟨.exec .createCustomers, true⟩, ⟨.exec .createProducts, true⟩,
         ⟨.exec .createUsers, true⟩] := by
  decide!

/-- C29: a phone text with more than 11 digits is rejected by
`CustomersScreen.validateInputs`.  The format pattern matches only texts with between 6 and 11
digits (3, then 3 or 4, then at most 4), and removing white space removes no digit, so that a
form that passes has between 7 and 11 digits in its phone. -/
theorem validateInputs_admits_eleven_digits (st : CustomersScreen.State) :
    (11 < digitCount st.phone → (CustomersScreen.validateInputs st).1 = false) ∧
      ((CustomersScreen.validateInputs st).1 = true →
        7 ≤ digitCount st.phone ∧ digitCount st.phone ≤ 11) ∧
      (∀ text, phoneRegexTest text = true → 6 ≤ digitCount text ∧ digitCount text ≤ 11) := by
  have key : (CustomersScreen.validateInputs st).1 = true →
      7 ≤ digitCount st.phone ∧ digitCount st.phone ≤ 11 := by
    intro h
    simp only [CustomersScreen.validateInputs] at h
    split_ifs at h with h1 h2 h3
    simp only [Bool.or_eq_true, decide_eq_true_eq, not_or, not_lt, gt_iff_lt] at h2
    have hre : phoneRegexTest
        (String.mk (st.phone.toList.filter (fun c => !isJsWhiteSpace c))) = true := by
      simpa using h3
    have hd := (phoneRegexTest_digits _ hre).2
    simp only [digitCount, String.toList] at hd ⊢
    rw [digits_without_whitespace] at hd
    exact ⟨h2.1, hd⟩
  refine ⟨?_, key, phoneRegexTest_digits⟩
  intro h
  cases hval : (CustomersScreen.validateInputs st).1 with
  | false => rfl
  | true => have := key hval; omega

theorem validateInputs_admits_eleven_digits_witness :
    digitCount "246-123-456789" = 12 ∧
      (CustomersScreen.validateInputs { shortPhone with phone := "246-123-456789" }).1 = false ∧
      (CustomersScreen.validateInputs { shortPhone with phone := "24612345678" }).1 = true :=
  ⟨by decide!,
    (validateInputs_admits_eleven_digits { shortPhone with phone := "246-123-456789" }).1
      (by decide!),
    by decide!⟩

/-- C30: for every value `r` of `Math.random()`, a double with `0 ≤ r < 1`, the number
`Math.floor(1000 + r * 9000)`, product and sum being rounded to the nearest double, is an
integer between 1000 and 9999, and the candidate key, its decimal text, is one of the 9000
texts of these numbers: four characters, all of them digits, the first not `0`.  With every
draw in that range, the key the loop of the generators ends with is the key of one of the
first 20 draws, hence such a text. -/
theorem generated_keys_have_four_digits :
    (∀ r : JsNumber, r.isDouble = true → 0 ≤ r → r < 1 →
      (∃ n : Nat, 1000 ≤ n ∧ n ≤ 9999 ∧ JsNumber.floor (1000 + r * 9000) = .finite n ∧
          randomKey r = toString n) ∧
        (randomKey r).toList.length = 4 ∧ (∀ c ∈ (randomKey r).toList, c.isDigit = true) ∧
        (randomKey r).toList.head? ≠ some '0') ∧
    (∀ (existing : List String) (random : Nat → JsNumber),
      (∀ i, i < 20 → (random i).isDouble = true ∧ 0 ≤ random i ∧ random i < 1) →
      (∃ i, i < 20 ∧ (rollKey existing random 20 0).1 = randomKey (random i)) ∧
        (rollKey existing random 20 0).1.toList.length = 4 ∧
        (∀ c ∈ (rollKey existing random 20 0).1.toList, c.isDigit = true) ∧
        (rollKey existing random 20 0).1.toList.head? ≠ some '0') := by
  have pointwise : ∀ r : JsNumber, r.isDouble = true → 0 ≤ r → r < 1 →
      (∃ n : Nat, 1000 ≤ n ∧ n ≤ 9999 ∧ JsNumber.floor (1000 + r * 9000) = .finite n ∧
          randomKey r = toString n) ∧
        (randomKey r).toList.length = 4 ∧ (∀ c ∈ (randomKey r).toList, c.isDigit = true) ∧
        (randomKey r).toList.head? ≠ some '0' := by
    intro r hd h0 h1
    obtain ⟨n, hlo, hhi, hfloor, hkey⟩ := randomKey_range r hd h0 h1
    obtain ⟨d1, d2, d3⟩ := toString_four n hlo hhi
    rw [hkey]
    exact ⟨⟨n, hlo, hhi, hfloor, rfl⟩, d1, d2, d3⟩
  refine ⟨pointwise, ?_⟩
  intro existing random hr
  have hdraw : ∃ i, i < 20 ∧ (rollKey existing random 20 0).1 = randomKey (random i) := by
    rcases rollKey_cases existing random with ⟨i, hi, _, _, he⟩ | ⟨_, he⟩
    · exact ⟨i, hi, by rw [he]; rfl⟩
    · exact ⟨19, by decide, by rw [he]; rfl⟩
  obtain ⟨i, hi, hk⟩ := hdraw
  obtain ⟨_, d1, d2, d3⟩ := pointwise (random i) (hr i hi).1 (hr i hi).2.1 (hr i hi).2.2
  rw [hk]
  exact ⟨⟨i, hi, rfl⟩, d1, d2, d3⟩

/-- Witness for C30: the largest double below 1, `1 - 2 ^ -53`, gives the key `9999`. -/
theorem generated_keys_have_four_digits_witness :
    randomKey (.finite (1 - 1 / 2 ^ 53)) = "9999" ∧
      (∃ n : Nat, 1000 ≤ n ∧ n ≤ 9999 ∧
        JsNumber.floor (1000 + JsNumber.finite (1 - 1 / 2 ^ 53) * 9000) = .finite n ∧
        randomKey (.finite (1 - 1 / 2 ^ 53)) = toString n) ∧
      (randomKey (.finite (1 - 1 / 2 ^ 53))).toList.length = 4 :=
  ⟨by decide!,
    (generated_keys_have_four_digits.1 (.finite (1 - 1 / 2 ^ 53)) (by decide!) (by decide!)
      (by decide!)).1,
    (generated_keys_have_four_digits.1 (.finite (1 - 1 / 2 ^ 53)) (by decide!) (by decide!)
      (by decide!)).2.1⟩

end SweetMange
